import Mathlib

/-!
# Cost-center onboarding client: session, transcript and progress

A shallow embedding of the client-side JavaScript of the repository
(`src/components/session.js`, `src/components/chat.js`, `src/assets/js/app.js`)
together with the properties its specification states about it.

Conventions of the embedding

* A JavaScript object with optional properties is a structure whose fields are
  `JsField`s: a key may be absent, hold `undefined`, hold `null`, or hold a value.
  The distinction matters for object spread (`{ ...a, ...b }`), where a key that
  is present in `b` overrides `a` even when its value is `undefined`.
* JavaScript numbers are IEEE-754 binary64 values.  Finite doubles are rationals,
  and every arithmetic operation rounds its exact result to the nearest double
  (ties to even): `toDouble`.  Counts of array elements are exact naturals.
* `async` methods are run to completion against the transport response they
  receive; a thrown `Error` is the `Except.error` branch, carrying its message.
* The DOM (rendering, scrolling, enabling of inputs), `console` output and the
  event listeners (none is ever registered on the managers in the repository)
  are not part of the state.
-/

namespace Costcenter

/-! ## JavaScript values -/

/-- A property slot of a JavaScript object. -/
inductive JsField (α : Type) where
  | absent
  | undefined
  | null
  | val (a : α)
  deriving DecidableEq, Repr

namespace JsField

/-- The value held by the slot, if it holds one (`absent`, `undefined` and `null`
all read as "nothing"). -/
def toOption {α : Type} : JsField α → Option α
  | val a => some a
  | _ => none

/-- Object spread, key by key: `{ ...target, ...source }`.  A key present in
`source` wins, whatever it holds. -/
def spread {α : Type} (target source : JsField α) : JsField α :=
  match source with
  | absent => target
  | s => s

/-- Reading a property: an absent key reads as `undefined`. -/
def read {α : Type} : JsField α → JsField α
  | absent => undefined
  | f => f

/-- Truthiness of a boolean-valued slot. -/
def truthy : JsField Bool → Bool
  | val b => b
  | _ => false

/-- Build a slot from an optional value: `undefined` when there is none. -/
def ofOption {α : Type} : Option α → JsField α
  | some a => val a
  | none => undefined

end JsField

/-- The value of a property read off a parsed JSON body, as far as its truthiness and
its identity with `true` go: `undefined` when the key is absent; every object or array
is `object`. -/
inductive JsValue where
  | undefined
  | null
  | bool (b : Bool)
  | number (x : ℚ)
  | string (s : String)
  | object
  deriving DecidableEq, Repr

/-- Truthiness: `undefined`, `null`, `false`, `0` and the empty string are falsy. -/
def JsValue.truthy : JsValue → Bool
  | .undefined => false
  | .null => false
  | .bool b => b
  | .number x => x != 0
  | .string s => s != ""
  | .object => true

/-! ## IEEE-754 binary64 arithmetic on rationals -/

/-- Nearest integer to `y`, ties to the even neighbour. -/
def roundNearestEven (y : ℚ) : ℤ :=
  if y - ⌊y⌋ < 1 / 2 then ⌊y⌋
  else if 1 / 2 < y - ⌊y⌋ then ⌊y⌋ + 1
  else if ⌊y⌋ % 2 = 0 then ⌊y⌋ else ⌊y⌋ + 1

/-- The binary64 value nearest to the rational `x` (round to nearest, ties to
even; subnormals included through the exponent clamp at `-1022`).  Overflow to
`Infinity` (`|x| ≥ 2^1024`) is not represented: no quantity below comes near it. -/
def toDouble (x : ℚ) : ℚ :=
  (roundNearestEven (x / 2 ^ (max (Int.log 2 |x|) (-1022) - 52)) : ℚ)
    * 2 ^ (max (Int.log 2 |x|) (-1022) - 52)

/-- JavaScript `a / b` on finite doubles, `b ≠ 0`. -/
def jsDiv (a b : ℚ) : ℚ := toDouble (a / b)

/-- JavaScript `a * b` on finite doubles. -/
def jsMul (a b : ℚ) : ℚ := toDouble (a * b)

/-- JavaScript `Math.round`: nearest integer, ties toward `+∞`. -/
def mathRound (x : ℚ) : ℤ := ⌊x + 1 / 2⌋

/-! ## Data model -/

/-- An entry of `costCenterRoutineExpenses`.  `amount` is `none` when the field is
missing, `null` or `NaN` (all falsy). -/
structure RoutineExpense where
  name : String
  amount : Option ℚ
  deriving DecidableEq, Repr

/-- An entry of `costCenterEmployeeExpenses`. -/
structure EmployeeExpense where
  name : String
  salaryBenefits : Option ℚ
  deriving DecidableEq, Repr

/-- An entry of `costCenterEquipmentExpenses`. -/
structure EquipmentExpense where
  name : String
  currentValue : Option ℚ
  deriving DecidableEq, Repr

/-- A cost center.  Each expense list is `none` when the property is missing. -/
structure CostCenter where
  id : ℤ
  name : String
  costCenterRoutineExpenses : Option (List RoutineExpense)
  costCenterEmployeeExpenses : Option (List EmployeeExpense)
  costCenterEquipmentExpenses : Option (List EquipmentExpense)
  deriving DecidableEq, Repr

/-- A session object, as created by the app, returned by the remote engine, or
built as a partial update by `SessionManager.sendMessage`. -/
structure SessionData where
  sessionId : JsField String
  userId : JsField String
  createdAt : JsField String
  isActive : JsField Bool
  isComplete : JsField Bool
  currentCostCenter : JsField CostCenter
  currentField : JsField String
  currentQuestion : JsField String
  costCenters : JsField (List CostCenter)
  deriving DecidableEq, Repr

/-- The object with no keys, `{}`. -/
def SessionData.empty : SessionData :=
  { sessionId := .absent, userId := .absent, createdAt := .absent, isActive := .absent,
    isComplete := .absent, currentCostCenter := .absent, currentField := .absent,
    currentQuestion := .absent, costCenters := .absent }

/-- Object spread `{ ...target, ...source }` of two session objects. -/
def SessionData.spread (target source : SessionData) : SessionData :=
  { sessionId := target.sessionId.spread source.sessionId
    userId := target.userId.spread source.userId
    createdAt := target.createdAt.spread source.createdAt
    isActive := target.isActive.spread source.isActive
    isComplete := target.isComplete.spread source.isComplete
    currentCostCenter := target.currentCostCenter.spread source.currentCostCenter
    currentField := target.currentField.spread source.currentField
    currentQuestion := target.currentQuestion.spread source.currentQuestion
    costCenters := target.costCenters.spread source.costCenters }

/-- The derived progress record `{ totalFields, completedFields, percentage }`. -/
structure ProgressView where
  totalFields : ℕ
  completedFields : ℕ
  percentage : ℤ
  deriving DecidableEq, Repr

/-- The `sessionState` record of `SessionManager`.  `isActive` is `none` when the
session data carried `isActive: null`. -/
structure SessionState where
  isActive : Option Bool
  isComplete : Bool
  currentCostCenter : Option CostCenter
  currentField : Option String
  progress : ProgressView
  deriving DecidableEq, Repr

/-- The state of a `SessionManager`: the bound session and the derived state. -/
structure SessionManager where
  currentSession : Option SessionData
  sessionState : SessionState
  deriving DecidableEq, Repr

/-! ## `SessionManager`: progress -/

/-- The test `x && x > 0` on an amount field. -/
def amountFilled : Option ℚ → Bool
  | some x => (x != 0) && decide (x > 0)
  | none => false

/-- The body of the `forEach` callback of `calculateProgress`: one center's
contribution to the running `(totalFields, completedFields)`. -/
def SessionManager.countCenter (acc : ℕ × ℕ) (center : CostCenter) : ℕ × ℕ :=
  let acc1 := match center.costCenterRoutineExpenses with
    | some l => (acc.1 + l.length, acc.2 + (l.filter fun e => amountFilled e.amount).length)
    | none => acc
  let acc2 := match center.costCenterEmployeeExpenses with
    | some l =>
      (acc1.1 + l.length, acc1.2 + (l.filter fun e => amountFilled e.salaryBenefits).length)
    | none => acc1
  match center.costCenterEquipmentExpenses with
  | some l =>
    (acc2.1 + l.length, acc2.2 + (l.filter fun e => amountFilled e.currentValue).length)
  | none => acc2

/-- The tail of `calculateProgress`: the record built from the two counters,
`percentage = Math.round(total > 0 ? (completed / total) * 100 : 0)`. -/
def SessionManager.progressOf (totalFields completedFields : ℕ) : ProgressView :=
  { totalFields := totalFields
    completedFields := completedFields
    percentage := mathRound
      (if totalFields > 0 then jsMul (jsDiv completedFields totalFields) 100 else 0) }

/-- `SessionManager.calculateProgress(sessionData)`. -/
def SessionManager.calculateProgress (sessionData : Option SessionData) : ProgressView :=
  match sessionData with
  | none => { totalFields := 0, completedFields := 0, percentage := 0 }
  | some sd =>
    match sd.costCenters.toOption with
    | none => { totalFields := 0, completedFields := 0, percentage := 0 }
    | some centers =>
      let counts := centers.foldl SessionManager.countCenter (0, 0)
      SessionManager.progressOf counts.1 counts.2

/-! ## Transport -/

/-- An HTTP response as the managers read it: the `ok` flag, the status line and
the outcome of `response.json()` (the parsed body, or the message of its rejection). -/
structure HttpResponse (β : Type) where
  ok : Bool
  status : ℕ
  statusText : String
  json : Except String β

/-- The outcome of `await fetch(...)`: the promise rejects (network unreachable), or
it resolves to a response. -/
inductive FetchResult (β : Type) where
  | rejected (message : String)
  | response (r : HttpResponse β)

/-- The JSON envelope of a reply: the `success` property, the `data` property
(`none` when falsy) and the `error` text. -/
structure ApiPayload (δ : Type) where
  success : JsValue
  data : Option δ
  error : Option String
  deriving DecidableEq, Repr

/-- The envelope as `createSession` and `finalizeCostCenter` read it: they look at
the `session` property of the body, not at `data`. -/
structure SessionPayload where
  success : JsValue
  session : Option SessionData
  error : Option String
  deriving DecidableEq, Repr

/-- The `data` of a reply to `POST /sessions/{id}/message`. -/
structure MessageReply where
  botMessage : Option String
  updatedCenter : Option CostCenter
  nextCenter : Option CostCenter
  finished : Option Bool
  deriving DecidableEq, Repr

/-- The `data` of a reply to `POST /sessions/{id}/command`. -/
structure CommandReply where
  result : Option String
  botMessage : Option String
  deriving DecidableEq, Repr

/-- A network call issued by the client. -/
inductive Request where
  | createSession (costCenters : List CostCenter) (selectedCenters : List ℤ)
      (userId : Option String)
  | getState (id : String)
  | message (id : String) (userMessage : String)
  | command (id : String) (command : String)
  | finalize (id : String) (confirm : Bool)
  deriving DecidableEq, Repr

/-- What a method call leaves behind: its result (a thrown error is `Except.error`
with the error's message), the state after it, and the network calls it issued. -/
structure Outcome (α σ : Type) where
  result : Except String α
  state : σ
  calls : List Request

/-- The expression `text || fallback` on an optional string (the empty string is falsy). -/
def orDefault (text : Option String) (fallback : String) : String :=
  match text with
  | some t => if t = "" then fallback else t
  | none => fallback

/-- The steps shared by every exchange: `await fetch`, the `!response.ok` test that
throws `HTTP <status>: <statusText>`, then `await response.json()`. -/
def exchange {β : Type} (fetch : FetchResult β) : Except String β :=
  match fetch with
  | .rejected message => .error message
  | .response r =>
    if !r.ok then .error ("HTTP " ++ toString r.status ++ ": " ++ r.statusText)
    else r.json

/-- The session id an operation acts on: `sessionId || this.currentSession?.sessionId`,
and `none` when that is falsy (`if (!id) throw`). -/
def resolveId (sessionId : Option String) (currentSession : Option SessionData) :
    Option String :=
  let id :=
    match sessionId with
    | some s => if s ≠ "" then some s else currentSession.bind fun c => c.sessionId.toOption
    | none => currentSession.bind fun c => c.sessionId.toOption
  id.filter fun s => s ≠ ""

/-! ## `SessionManager`: state and exchanges -/

/-- The `sessionState` of a manager with no session (constructor and `cleanup`). -/
def SessionState.initial : SessionState :=
  { isActive := some false, isComplete := false, currentCostCenter := none,
    currentField := none,
    progress := { totalFields := 0, completedFields := 0, percentage := 0 } }

/-- The manager right after construction. -/
def SessionManager.new : SessionManager :=
  { currentSession := none, sessionState := SessionState.initial }

/-- `SessionManager.updateSessionState(sessionData)`. -/
def SessionManager.updateSessionState (self : SessionManager)
    (sessionData : Option SessionData) : SessionManager :=
  match sessionData with
  | none => self
  | some sd =>
    { currentSession := some ((self.currentSession.getD SessionData.empty).spread sd)
      sessionState :=
        { isActive :=
            match sd.isActive with
            | .absent => some true
            | .undefined => some true
            | .null => none
            | .val b => some b
          isComplete := sd.isComplete.truthy
          currentCostCenter := sd.currentCostCenter.toOption
          currentField := sd.currentField.toOption.filter fun f => f ≠ ""
          progress := SessionManager.calculateProgress (some sd) } }

/-- `SessionManager.initialize(session)`. -/
def SessionManager.initialize (self : SessionManager) (session : Option SessionData) :
    SessionManager :=
  match session with
  | some s => ({ self with currentSession := some s }).updateSessionState (some s)
  | none => self

/-- `SessionManager.cleanup()`. -/
def SessionManager.cleanup (_self : SessionManager) : SessionManager :=
  { currentSession := none, sessionState := SessionState.initial }

/-- `SessionManager.createSession(costCenters, selectedCenters, userId)`. -/
def SessionManager.createSession (self : SessionManager) (costCenters : List CostCenter)
    (selectedCenters : List ℤ) (userId : Option String)
    (fetch : FetchResult SessionPayload) :
    Outcome (Option SessionData) SessionManager :=
  let calls := [Request.createSession costCenters selectedCenters userId]
  match exchange fetch with
  | .error e => { result := .error e, state := self, calls := calls }
  | .ok data =>
    if data.success.truthy then
      { result := .ok data.session
        state := ({ self with currentSession := data.session }).updateSessionState data.session
        calls := calls }
    else
      { result := .error (orDefault data.error "Falha ao criar sessão")
        state := self, calls := calls }

/-- `SessionManager.getSessionState(sessionId)`. -/
def SessionManager.getSessionState (self : SessionManager) (sessionId : Option String)
    (fetch : FetchResult (ApiPayload SessionData)) : Outcome SessionData SessionManager :=
  match resolveId sessionId self.currentSession with
  | none => { result := .error "Session ID não fornecido", state := self, calls := [] }
  | some id =>
    let calls := [Request.getState id]
    match exchange fetch with
    | .error e => { result := .error e, state := self, calls := calls }
    | .ok data =>
      match data.success.truthy, data.data with
      | true, some snapshot =>
        { result := .ok snapshot
          state := self.updateSessionState (some snapshot)
          calls := calls }
      | _, _ =>
        { result := .error (orDefault data.error "Falha ao obter estado da sessão")
          state := self, calls := calls }

/-- The partial session object `sendMessage` maps a reply to:
`{ currentCostCenter: updatedCenter || nextCenter, isComplete: finished || false }`. -/
def SessionManager.sessionUpdate (reply : MessageReply) : SessionData :=
  { SessionData.empty with
    currentCostCenter := JsField.ofOption (reply.updatedCenter <|> reply.nextCenter)
    isComplete := .val (reply.finished.getD false) }

/-- `SessionManager.sendMessage(message, sessionId)`. -/
def SessionManager.sendMessage (self : SessionManager) (message : String)
    (sessionId : Option String) (fetch : FetchResult (ApiPayload MessageReply)) :
    Outcome (ApiPayload MessageReply) SessionManager :=
  match resolveId sessionId self.currentSession with
  | none => { result := .error "Session ID não fornecido", state := self, calls := [] }
  | some id =>
    let calls := [Request.message id message]
    match exchange fetch with
    | .error e => { result := .error e, state := self, calls := calls }
    | .ok data =>
      match data.success.truthy, data.data with
      | true, some reply =>
        { result := .ok data
          state := self.updateSessionState (some (SessionManager.sessionUpdate reply))
          calls := calls }
      | _, _ =>
        { result := .error (orDefault data.error "Falha ao enviar mensagem")
          state := self, calls := calls }

/-- `SessionManager.sendCommand(command, sessionId)`. -/
def SessionManager.sendCommand (self : SessionManager) (command : String)
    (sessionId : Option String) (fetch : FetchResult (ApiPayload CommandReply)) :
    Outcome (ApiPayload CommandReply) SessionManager :=
  match resolveId sessionId self.currentSession with
  | none => { result := .error "Session ID não fornecido", state := self, calls := [] }
  | some id =>
    let calls := [Request.command id command]
    match exchange fetch with
    | .error e => { result := .error e, state := self, calls := calls }
    | .ok data =>
      match data.success.truthy, data.data with
      | true, some _ => { result := .ok data, state := self, calls := calls }
      | _, _ =>
        { result := .error (orDefault data.error "Falha ao executar comando")
          state := self, calls := calls }

/-- `SessionManager.finalizeCostCenter(confirm, sessionId)`. -/
def SessionManager.finalizeCostCenter (self : SessionManager) (confirm : Bool)
    (sessionId : Option String) (fetch : FetchResult SessionPayload) :
    Outcome SessionPayload SessionManager :=
  match resolveId sessionId self.currentSession with
  | none => { result := .error "Session ID não fornecido", state := self, calls := [] }
  | some id =>
    let calls := [Request.finalize id confirm]
    match exchange fetch with
    | .error e => { result := .error e, state := self, calls := calls }
    | .ok data =>
      if data.success.truthy then
        { result := .ok data, state := self.updateSessionState data.session, calls := calls }
      else
        { result := .error (orDefault data.error "Falha ao finalizar centro de custo")
          state := self, calls := calls }

/-- An exchange that fails: the request is rejected, the transport status is not 2xx,
the body does not parse, or the payload is not a success payload with data (`success`
is falsy or `data` is missing). -/
def ExchangeFailed {δ : Type} : FetchResult (ApiPayload δ) → Prop
  | .rejected _ => True
  | .response r =>
    r.ok = false ∨
      match r.json with
      | .error _ => True
      | .ok payload => payload.success.truthy = false ∨ payload.data = none

/-! ## `ChatManager`: transcript -/

/-- A message object `{ type, content, timestamp }`.  `type` and `content` are
`none` when the property is missing, `undefined` or `null`; `timestamp` is the
`Date` in milliseconds. -/
structure MessageData where
  type : Option String
  content : Option String
  timestamp : ℕ
  deriving DecidableEq, Repr

/-- The `messageHistory` map: entries in insertion order, keyed by the value of
`session.sessionId` (which may be `undefined`). -/
abbrev MessageHistory := List (JsField String × List MessageData)

/-- `messageHistory.get(key)`. -/
def historyGet : MessageHistory → JsField String → Option (List MessageData)
  | [], _ => none
  | (k, v) :: rest, key => if k = key then some v else historyGet rest key

/-- The two steps `if (!has(key)) set(key, [])` and `get(key).push(message)`. -/
def historyPush : MessageHistory → JsField String → MessageData → MessageHistory
  | [], key, m => [(key, [m])]
  | (k, v) :: rest, key, m =>
    if k = key then (k, v ++ [m]) :: rest else (k, v) :: historyPush rest key m

/-- The state of a `ChatManager`. -/
structure ChatManager where
  messages : List MessageData
  isTyping : Bool
  currentSession : Option SessionData
  messageHistory : MessageHistory
  deriving DecidableEq, Repr

/-- The manager right after construction. -/
def ChatManager.new : ChatManager :=
  { messages := [], isTyping := false, currentSession := none, messageHistory := [] }

/-- The duplicate test of `addMessage`: the new message is of type `bot`, the
transcript is not empty, and its last message is of type `bot` with the same content. -/
def ChatManager.isDuplicateBot (self : ChatManager) (type content : String) : Bool :=
  type = "bot" &&
    match self.messages.getLast? with
    | some lastMessage => lastMessage.type = some "bot" && lastMessage.content = some content
    | none => false

/-- The drop condition in the specification's words, with the type of the preceding
message made explicit: the new message is a `bot` message and the transcript's last
message is a `bot` message with exactly the same content. -/
def ChatManager.DuplicateBot (self : ChatManager) (type content : String) : Prop :=
  type = "bot" ∧ ∃ lastMessage, self.messages.getLast? = some lastMessage
    ∧ lastMessage.type = some "bot" ∧ lastMessage.content = some content

/-- `ChatManager.addMessage(messageData)`: the state it leaves.  The argument is
`none` for a falsy or non-object argument. -/
def ChatManager.addMessage (self : ChatManager) (messageData : Option MessageData) :
    ChatManager :=
  match messageData with
  | none => self
  | some md =>
    match md.type, md.content with
    | some type, some content =>
      if type = "" then self
      else if self.isDuplicateBot type content then self
      else
        { self with
          messages := self.messages ++ [md]
          messageHistory :=
            match self.currentSession with
            | some session => historyPush self.messageHistory session.sessionId.read md
            | none => self.messageHistory }
    | _, _ => self

/-- The value `addMessage` returns: every exit is a bare `return;` or the end of the
body, so the call always evaluates to `undefined` (`none`), never to a boolean. -/
def ChatManager.addMessageReturn (_self : ChatManager) (messageData : Option MessageData) :
    Option Bool :=
  match messageData with
  | none => none
  | some md =>
    match md.type, md.content with
    | some _, some _ => none
    | _, _ => none

/-- `ChatManager.clearMessages()`. -/
def ChatManager.clearMessages (self : ChatManager) : ChatManager :=
  { self with messages := [] }

/-- `ChatManager.loadSessionMessages()`: when the bound session has stored messages the
displayed list is cleared and the stored ones are rendered again (`this.messages`
itself is not refilled). -/
def ChatManager.loadSessionMessages (self : ChatManager) : ChatManager :=
  match self.currentSession with
  | none => self
  | some session =>
    match historyGet self.messageHistory session.sessionId.read with
    | some storedMessages => if storedMessages.length > 0 then self.clearMessages else self
    | none => self

/-- The text `showWelcomeMessage` sends: `currentQuestion`, or the default greeting
with the number of loaded cost centers. -/
def welcomeText (session : SessionData) : String :=
  orDefault session.currentQuestion.toOption
    ("Olá! Vamos começar a coleta de dados para os centros de custo selecionados. "
      ++ toString ((session.costCenters.toOption.map List.length).getD 0)
      ++ " centro(s) de custo foram carregados.")

/-- `ChatManager.showWelcomeMessage()`. -/
def ChatManager.showWelcomeMessage (self : ChatManager) (now : ℕ) : ChatManager :=
  match self.currentSession with
  | none => self
  | some session =>
    self.addMessage (some { type := some "bot", content := some (welcomeText session),
                            timestamp := now })

/-- `ChatManager.initialize(session)`. -/
def ChatManager.initialize (self : ChatManager) (session : Option SessionData) (now : ℕ) :
    ChatManager :=
  ({ self with currentSession := session }).loadSessionMessages.showWelcomeMessage now

/-- A call made on a `ChatManager` from outside: `initialize(session)` or
`addMessage(messageData)`. -/
inductive ChatOp where
  | bind (session : Option SessionData) (now : ℕ)
  | add (messageData : Option MessageData)

/-- Run one call. -/
def ChatManager.step (self : ChatManager) : ChatOp → ChatManager
  | .bind session now => ChatManager.initialize self session now
  | .add messageData => self.addMessage messageData

/-- Run a sequence of calls, first to last. -/
def ChatManager.run (self : ChatManager) (ops : List ChatOp) : ChatManager :=
  ops.foldl ChatManager.step self

/-- The key under which the bound session stores its messages, if a session is bound. -/
def ChatManager.boundKey (self : ChatManager) : Option (JsField String) :=
  self.currentSession.map fun session => session.sessionId.read

/-! ## The consistency checks and the message round trip -/

/-- JavaScript `s.includes(sub)`. -/
def jsIncludes (s sub : String) : Bool := decide (sub.data <:+: s.data)

/-- The test `/^\d+(\.\d+)?$/.test(s)`: one or more digits, optionally followed by a
dot and one or more digits. -/
def isNumericUtterance (s : String) : Bool :=
  let intPart := s.data.takeWhile Char.isDigit
  let rest := s.data.dropWhile Char.isDigit
  !intPart.isEmpty &&
    match rest with
    | [] => true
    | c :: frac => c = '.' && !frac.isEmpty && frac.all Char.isDigit

/-- What `validateResponseConsistency` writes to the console: its findings. -/
inductive Finding where
  | numericLoop
  | confirmationLoop
  | misattributed
  deriving DecidableEq, Repr

/-- The first check: the user sent a number and the bot asks for a number again. -/
def numericLoopCheck (userMessage : String) (responseData : MessageReply) : Bool :=
  isNumericUtterance userMessage &&
    match responseData.botMessage with
    | some b => jsIncludes b "informe um valor numérico"
    | none => false

/-- The second check: the user confirmed or advanced and the bot asks for a value again. -/
def confirmationLoopCheck (userMessage : String) (responseData : MessageReply) : Bool :=
  (jsIncludes userMessage "confirmo" || jsIncludes userMessage "próximo") &&
    match responseData.botMessage with
    | some b => jsIncludes b "valor numérico"
    | none => false

/-- The third check: the bot confirms a registration without naming the current center. -/
def misattributedCheck (session : Option SessionData) (responseData : MessageReply) : Bool :=
  match session.bind fun s => s.currentCostCenter.toOption with
  | some center =>
    match responseData.botMessage with
    | some b => jsIncludes b "Registrado" && !jsIncludes b center.name
    | none => false
  | none => false

/-- The recovery suggestion appended by the second check. -/
def recoveryMessage (now : ℕ) : MessageData :=
  { type := some "system"
    content := some ("⚠️ Detectada inconsistência no fluxo. Tente usar o comando "
      ++ "\"mostrar resumo\" ou recarregue a página se o problema persistir.")
    timestamp := now }

/-- `ChatManager.validateResponseConsistency(userMessage, responseData)`: the state it
leaves and the findings it logs. -/
def ChatManager.validateResponseConsistency (self : ChatManager) (userMessage : String)
    (responseData : MessageReply) (now : ℕ) : ChatManager × List Finding :=
  let f1 := if numericLoopCheck userMessage responseData then [Finding.numericLoop] else []
  let second := confirmationLoopCheck userMessage responseData
  let self1 := if second then self.addMessage (some (recoveryMessage now)) else self
  let f2 := if second then [Finding.confirmationLoop] else []
  let f3 :=
    if misattributedCheck self1.currentSession responseData then [Finding.misattributed]
    else []
  (self1, f1 ++ f2 ++ f3)

/-- The completion notice (sent by `handleSpecialResponse` and by
`CostCenterApp.handleSessionComplete`). -/
def completionMessage (now : ℕ) : MessageData :=
  { type := some "success"
    content := some "🎉 Sessão finalizada com sucesso! Você pode exportar os dados agora."
    timestamp := now }

/-- `ChatManager.handleSpecialResponse(response)`. -/
def ChatManager.handleSpecialResponse (self : ChatManager)
    (response : ApiPayload MessageReply) (now : ℕ) : ChatManager :=
  let finished := (response.data.bind fun d => d.finished).getD false
  let nextCenter := response.data.bind fun d => d.nextCenter
  let self1 :=
    if finished && nextCenter.isNone then self.addMessage (some (completionMessage now))
    else self
  let self2 :=
    if nextCenter.isSome then
      self1.addMessage (some { type := some "success"
                               content := some "✅ Centro de custo finalizado!"
                               timestamp := now })
    else self1
  match response.error with
  | some e =>
    if e ≠ "" then
      self2.addMessage (some { type := some "system", content := some ("⚠️ " ++ e)
                               timestamp := now })
    else self2
  | none => self2

/-! ## `CostCenterApp` and the page's globals -/

/-- Where `app.currentSession` points: at the very object `chatManager.currentSession`
refers to (as after `startSession`, which hands the same object to both), or at an
object (or `null`) of its own. -/
inductive SessionRef where
  | sameAsChat
  | own (session : Option SessionData)
  deriving DecidableEq, Repr

/-- The state of the `CostCenterApp`; `selectedCenters` lists the set in insertion order. -/
structure App where
  currentSession : SessionRef
  costCenters : List CostCenter
  selectedCenters : List ℤ
  deriving DecidableEq, Repr

/-- The globals of the page: `window.chatManager`, `window.sessionManager` and
`window.app` (the latter two may be missing). -/
structure World where
  chat : ChatManager
  sessionManager : Option SessionManager
  app : Option App
  deriving DecidableEq, Repr

/-- The object `window.app.currentSession` evaluates to. -/
def World.appSession (w : World) (app : App) : Option SessionData :=
  match app.currentSession with
  | .sameAsChat => w.chat.currentSession
  | .own session => session

/-- Assigning properties of the object `window.app.currentSession` refers to: every
holder of that object sees the change. -/
def World.writeAppSession (w : World) (app : App) (session : SessionData) : World :=
  match app.currentSession with
  | .sameAsChat => { w with chat := { w.chat with currentSession := some session } }
  | .own _ => { w with app := some { app with currentSession := .own (some session) } }

/-- What `updateProgress` shows as completion. -/
inductive ProgressDisplay where
  | notShown
  | nan
  | percent (p : ℤ)
  deriving DecidableEq, Repr

/-- The counting loop of `CostCenterApp.updateProgress`: the fields of the selected
centers that are known; reading `.length` of a missing list throws. -/
def App.countSelected (costCenters : List CostCenter) :
    List ℤ → ℕ → Except String ℕ
  | [], total => .ok total
  | centerId :: rest, total =>
    match costCenters.find? fun c => c.id = centerId with
    | none => App.countSelected costCenters rest total
    | some center =>
      match center.costCenterRoutineExpenses, center.costCenterEmployeeExpenses,
        center.costCenterEquipmentExpenses with
      | some r, some e, some q =>
        App.countSelected costCenters rest (total + r.length + e.length + q.length)
      | _, _, _ => .error "Cannot read properties of undefined (reading 'length')"

/-- `CostCenterApp.updateProgress()`, given the object `this.currentSession` evaluates
to: `completedFields` stays `0`, and the percentage shown is
`Math.round(Math.min(100, (completedFields / totalFields) * 100))`, which is `NaN`
when no field is counted. -/
def App.updateProgress (app : App) (session : Option SessionData) :
    Except String ProgressDisplay :=
  match session with
  | none => .ok .notShown
  | some _ =>
    match App.countSelected app.costCenters app.selectedCenters 0 with
    | .error e => .error e
    | .ok totalFields =>
      let completedFields : ℕ := 0
      if totalFields = 0 then .ok .nan
      else .ok (.percent (mathRound (min 100 (jsMul (jsDiv completedFields totalFields) 100))))

/-- The part of `handleSendMessage` that runs after a successful round trip, inside
the `try`: the consistency checks, the bot message, the update of the app's session
and the special responses.  The second component is the message of the error thrown
on the way, if any; the state reached before the throw is kept. -/
def ChatManager.applyReply (w : World) (message : String)
    (response : ApiPayload MessageReply) (reply : MessageReply) (now : ℕ) :
    World × Option String :=
  let chat1 := ({ w.chat with isTyping := false }).validateResponseConsistency message reply now
  let chat2 := chat1.1.addMessage
    (some { type := some "bot", content := reply.botMessage, timestamp := now })
  let w2 : World := { w with chat := chat2 }
  match w2.app with
  | none => ({ w2 with chat := w2.chat.handleSpecialResponse response now }, none)
  | some app =>
    match w2.appSession app with
    | none =>
      if reply.updatedCenter.isSome || reply.nextCenter.isSome then
        (w2, some "Cannot set properties of null (setting 'currentCostCenter')")
      else if reply.finished.getD false then
        (w2, some "Cannot set properties of null (setting 'isComplete')")
      else (w2, some "Cannot read properties of null (reading 'currentCostCenter')")
    | some session =>
      let s1 :=
        match reply.updatedCenter with
        | some c => { session with currentCostCenter := .val c }
        | none => session
      let s2 :=
        match reply.nextCenter with
        | some c => { s1 with currentCostCenter := .val c }
        | none => s1
      let s3 := if reply.finished.getD false then { s2 with isComplete := .val true } else s2
      let w3 := w2.writeAppSession app s3
      match App.updateProgress app (some s3) with
      | .error e => (w3, some e)
      | .ok _ =>
        let w4 : World :=
          if reply.finished.getD false && reply.nextCenter.isNone then
            { w3 with chat := w3.chat.addMessage (some (completionMessage now)) }
          else w3
        ({ w4 with chat := w4.chat.handleSpecialResponse response now }, none)

/-- The `catch` block of `handleSendMessage`. -/
def ChatManager.sendFailed (self : ChatManager) (errorMessage : String) (now : ℕ) :
    ChatManager :=
  ({ self with isTyping := false }).addMessage
    (some { type := some "system"
            content := some ("Erro ao enviar mensagem: " ++ errorMessage)
            timestamp := now })

/-- The synchronisation step of `handleSendMessage`: when
`this.currentSession?.sessionId !== window.sessionManager?.currentSession?.sessionId`
the session manager is handed the chat's session object. -/
def ChatManager.syncManager (self : ChatManager) (sm : SessionManager) : SessionManager :=
  let chatId : JsField String :=
    match self.currentSession with
    | some s => s.sessionId.read
    | none => .undefined
  let managerId : JsField String :=
    match sm.currentSession with
    | some s => s.sessionId.read
    | none => .undefined
  if chatId ≠ managerId then { sm with currentSession := self.currentSession } else sm

/-- `ChatManager.handleSendMessage()`, for the trimmed text `message` of the input box.
`now` is the clock when the user message is added, `later` the clock once the round
trip has settled.  Returns the globals after the call and the network calls issued. -/
def ChatManager.handleSendMessage (w : World) (message : String) (now later : ℕ)
    (fetch : FetchResult (ApiPayload MessageReply)) : World × List Request :=
  match w.chat.currentSession with
  | none => (w, [])
  | some _ =>
    if message = "" then (w, [])
    else
      let chat1 := w.chat.addMessage
        (some { type := some "user", content := some message, timestamp := now })
      let chat2 := { chat1 with isTyping := true }
      match w.sessionManager with
      | none =>
        ({ w with chat := chat2.sendFailed "Session Manager não disponível" later }, [])
      | some sm =>
        let sm1 := chat2.syncManager sm
        let out := sm1.sendMessage message none fetch
        match out.result with
        | .error e =>
          ({ w with chat := chat2.sendFailed e later, sessionManager := some out.state },
            out.calls)
        | .ok response =>
          match response.data with
          | none =>
            ({ w with
                chat := chat2.sendFailed
                  "Cannot read properties of undefined (reading 'botMessage')" later,
                sessionManager := some out.state }, out.calls)
          | some reply =>
            let applied := ChatManager.applyReply
              { w with chat := chat2, sessionManager := some out.state }
              message response reply later
            match applied.2 with
            | some e =>
              ({ applied.1 with chat := applied.1.chat.sendFailed e later }, out.calls)
            | none => (applied.1, out.calls)

/-! ### The specification's wording of the progress counters -/

/-- Whether an amount field holds a number strictly greater than zero. -/
def amountPositive : Option ℚ → Bool
  | some x => decide (0 < x)
  | none => false

/-- Number of expense items of a center, a missing list counting as empty. -/
def specFieldCount (c : CostCenter) : ℕ :=
  (c.costCenterRoutineExpenses.getD []).length
    + (c.costCenterEmployeeExpenses.getD []).length
    + (c.costCenterEquipmentExpenses.getD []).length

/-- Number of expense items of a center whose amount field (`amount`,
`salaryBenefits`, `currentValue`) is strictly greater than zero. -/
def specFilledCount (c : CostCenter) : ℕ :=
  ((c.costCenterRoutineExpenses.getD []).filter fun e => amountPositive e.amount).length
    + ((c.costCenterEmployeeExpenses.getD []).filter
        fun e => amountPositive e.salaryBenefits).length
    + ((c.costCenterEquipmentExpenses.getD []).filter
        fun e => amountPositive e.currentValue).length

/-- Sum of `specFieldCount` over the centers. -/
def specTotalFields (centers : List CostCenter) : ℕ := (centers.map specFieldCount).sum

/-- Sum of `specFilledCount` over the centers. -/
def specCompletedFields (centers : List CostCenter) : ℕ := (centers.map specFilledCount).sum

/-- Round half up of the exact quotient: `⌊100 c / t + 1/2⌋` computed without any
intermediate rounding, and `0` when `t = 0`. -/
def specPercentage (c t : ℕ) : ℤ :=
  if t = 0 then 0 else mathRound (100 * (c : ℚ) / t)

/-- A session object holding nothing but a `costCenters` list. -/
def sessionWithCenters (centers : List CostCenter) : SessionData :=
  { SessionData.empty with costCenters := .val centers }

/-- A center with the given routine expenses and empty employee and equipment lists. -/
def routineCenter (id : ℤ) (name : String) (items : List RoutineExpense) : CostCenter :=
  { id := id, name := name, costCenterRoutineExpenses := some items,
    costCenterEmployeeExpenses := some [], costCenterEquipmentExpenses := some [] }

/-- The scenario's center: three routine items, all amounts `0`. -/
def centerThreeZero : CostCenter :=
  routineCenter 1 "Comercial"
    [⟨"Marketing", some 0⟩, ⟨"Vendas", some 0⟩, ⟨"Comissões", some 0⟩]

/-- The scenario's center after one amount was set to `100`. -/
def centerOneFilled : CostCenter :=
  routineCenter 1 "Comercial"
    [⟨"Marketing", some 100⟩, ⟨"Vendas", some 0⟩, ⟨"Comissões", some 0⟩]

/-- A center with 40 routine items, 23 of them holding the amount `100`. -/
def centerTie : CostCenter :=
  routineCenter 1 "Administrativo"
    (List.replicate 23 ⟨"Aluguel", some 100⟩ ++ List.replicate 17 ⟨"Internet", some 0⟩)

/-! ## Scenario data -/

/-- The session object `startSession` builds for one selected center with three
routine items, all amounts `0`. -/
def boundSession : SessionData :=
  { sessionId := .val "sess-1", userId := .absent, createdAt := .val "2025-01-01T00:00:00.000Z"
    isActive := .val true, isComplete := .val false
    currentCostCenter := .val centerThreeZero, currentField := .absent
    currentQuestion := .val "Qual o gasto com Marketing?"
    costCenters := .val [centerThreeZero] }

/-- A manager bound to `boundSession` through `initialize`. -/
def boundManager : SessionManager := SessionManager.initialize SessionManager.new (some boundSession)

/-- A 200 response carrying a success payload with the given `data`. -/
def okFetch {δ : Type} (data : δ) : FetchResult (ApiPayload δ) :=
  .response { ok := true, status := 200, statusText := "OK"
              json := .ok { success := .bool true, data := some data, error := none } }

/-- A 500 response. -/
def serverErrorFetch {δ : Type} : FetchResult (ApiPayload δ) :=
  .response { ok := false, status := 500, statusText := "Internal Server Error"
              json := .error "Unexpected token" }

/-- A reply that only continues the conversation. -/
def plainReply : MessageReply :=
  { botMessage := some "Qual o gasto com Vendas?", updatedCenter := none, nextCenter := none
    finished := some false }

/-- A reply reporting the center with one amount set to `100`. -/
def updatedReply : MessageReply :=
  { botMessage := some "Registrado R$ 100 para Marketing", updatedCenter := some centerOneFilled
    nextCenter := none, finished := some false }

/-- A reply signalling completion. -/
def finishedReply : MessageReply :=
  { botMessage := some "Coleta concluída", updatedCenter := none, nextCenter := none
    finished := some true }

/-- A reply that carries no `finished` property. -/
def unfinishedReply : MessageReply :=
  { botMessage := some "Mais alguma coisa?", updatedCenter := none, nextCenter := none
    finished := none }

/-- The welcome message of `boundSession`. -/
def welcomeMessage : MessageData :=
  { type := some "bot", content := some "Qual o gasto com Marketing?", timestamp := 0 }

/-- A chat bound to `boundSession` that shows its welcome message. -/
def boundChat : ChatManager :=
  { messages := [welcomeMessage], isTyping := false, currentSession := some boundSession
    messageHistory := [(.val "sess-1", [welcomeMessage])] }

/-- A page on which chat, session manager and app hold the session. -/
def boundWorld : World :=
  { chat := boundChat, sessionManager := some boundManager
    app := some { currentSession := .sameAsChat, costCenters := [centerThreeZero]
                  selectedCenters := [1] } }

/-- A chat whose transcript ends with a user message. -/
def chatAfterUser : ChatManager :=
  { boundChat with
    messages := [welcomeMessage, { type := some "user", content := some "ok", timestamp := 1 }]
    messageHistory :=
      [(.val "sess-1",
        [welcomeMessage, { type := some "user", content := some "ok", timestamp := 1 }])] }

/-- A chat bound to session `A` that also retains a transcript for session `B`. -/
def chatTwoSessions : ChatManager :=
  { messages := [], isTyping := false
    currentSession := some { boundSession with sessionId := .val "A" }
    messageHistory := [(.val "B", [welcomeMessage])] }

/-! ## Findings, validation of the session id, sequences of exchanges -/

/-- Whether a finding is logged as a contradiction (`console.error`, the first two
checks) rather than as a warning (`console.warn`, the third). -/
def Finding.isContradiction : Finding → Bool
  | .numericLoop => true
  | .confirmationLoop => true
  | .misattributed => false

/-- A manager with no bound session id: no session, or a session whose `sessionId` is
missing, `null` or the empty string. -/
def SessionManager.HasNoSessionId (self : SessionManager) : Prop :=
  ∀ s id, self.currentSession = some s → s.sessionId = .val id → id = ""

/-- The comparison `success === true` on a payload. -/
def successIsTrue {δ : Type} (payload : ApiPayload δ) : Prop := payload.success = .bool true

/-- An exchange run on the manager with the default `sessionId` argument. -/
inductive SessionOp where
  | sendMessage (message : String) (fetch : FetchResult (ApiPayload MessageReply))
  | getSessionState (fetch : FetchResult (ApiPayload SessionData))
  | finalizeCostCenter (confirm : Bool) (fetch : FetchResult SessionPayload)

/-- The state one exchange leaves. -/
def SessionManager.step (self : SessionManager) : SessionOp → SessionManager
  | .sendMessage message fetch => (self.sendMessage message none fetch).state
  | .getSessionState fetch => (self.getSessionState none fetch).state
  | .finalizeCostCenter confirm fetch => (self.finalizeCostCenter confirm none fetch).state

/-- The state a sequence of exchanges leaves, first to last. -/
def SessionManager.run (self : SessionManager) (ops : List SessionOp) : SessionManager :=
  ops.foldl SessionManager.step self

/-- The exchange returns normally (does not raise) on this state. -/
def SessionOp.Succeeds (self : SessionManager) : SessionOp → Prop
  | .sendMessage message fetch => ∃ p, (self.sendMessage message none fetch).result = .ok p
  | .getSessionState fetch => ∃ p, (self.getSessionState none fetch).result = .ok p
  | .finalizeCostCenter confirm fetch =>
    ∃ p, (self.finalizeCostCenter confirm none fetch).result = .ok p

/-- Every exchange of the sequence returns normally on the state it is run on. -/
def SessionManager.AllSucceed : SessionManager → List SessionOp → Prop
  | _, [] => True
  | self, op :: rest => op.Succeeds self ∧ SessionManager.AllSucceed (self.step op) rest

/-- The session-shaped object a response carries, if any: the `data` of a state
snapshot, the `session` of a finalization; a message reply carries none. -/
def SessionOp.snapshot : SessionOp → Option SessionData
  | .sendMessage _ _ => none
  | .getSessionState fetch =>
    match exchange fetch with
    | .ok payload => payload.data
    | .error _ => none
  | .finalizeCostCenter _ fetch =>
    match exchange fetch with
    | .ok payload => payload.session
    | .error _ => none

/-! ## Hard reset -/

/-- The notice `handleSessionReset` adds to the chat. -/
def resetNotice (now : ℕ) : MessageData :=
  { type := some "system"
    content := some
      "⚠️ Resetando sessão... Recarregue a página para começar uma nova sessão."
    timestamp := now }

/-- `ChatManager.handleSessionReset()`, up to the arming of the two-second timer. -/
def ChatManager.handleSessionReset (w : World) (now : ℕ) : World :=
  { chat := { w.chat.addMessage (some (resetNotice now)) with currentSession := none }
    sessionManager := w.sessionManager.map fun sm => { sm with currentSession := none }
    app := w.app.map fun app => { app with currentSession := .own none } }

/-- `CostCenterApp.resetToSetup()`. -/
def App.resetToSetup (app : App) : App :=
  { app with currentSession := .own none, selectedCenters := [] }

/-- The callback of the timer armed by `handleSessionReset`: `app.resetToSetup()` when
the app exists; otherwise `location.reload()`, which discards the page (`none`). -/
def World.resetTimerFired (w : World) : Option World :=
  match w.app with
  | some app => some { w with app := some app.resetToSetup }
  | none => none

/-! ## Export of the transcript -/

/-- The library functions the export relies on: `Date.prototype.toISOString`,
`toLocaleTimeString('pt-BR', { hour: '2-digit', minute: '2-digit' })` and
`String.prototype.toUpperCase`. -/
structure JsLibrary where
  toISOString : ℕ → String
  toLocaleTimeString : ℕ → String
  toUpperCase : String → String

/-- An entry of the exported `messages` list. -/
structure ExportedMessage where
  type : Option String
  content : Option String
  timestamp : String
  deriving DecidableEq, Repr

/-- The record `exportData` built by `exportChatHistory`. -/
structure ExportData where
  sessionId : JsField String
  exportedAt : String
  messageCount : ℕ
  messages : List ExportedMessage
  deriving DecidableEq, Repr

/-- What `exportChatHistory` returns: `JSON.stringify(exportData, null, 2)` (kept as
the record it serialises), the line-oriented text, or the record itself. -/
inductive ExportResult where
  | json (data : ExportData)
  | text (s : String)
  | object (data : ExportData)
  deriving DecidableEq, Repr

/-- One line of `formatMessagesAsText`; reading `toUpperCase` of a missing type throws. -/
def ChatManager.formatLine (lib : JsLibrary) (msg : MessageData) : Except String String :=
  match msg.type with
  | none => .error "Cannot read properties of undefined (reading 'toUpperCase')"
  | some type =>
    .ok ("[" ++ lib.toLocaleTimeString msg.timestamp ++ "] " ++ lib.toUpperCase type ++ ": "
      ++ msg.content.getD "undefined")

/-- The `messages.map(...)` of `formatMessagesAsText`: the lines in order; the first
message that throws ends the call. -/
def ChatManager.formatLines (lib : JsLibrary) : List MessageData → Except String (List String)
  | [] => .ok []
  | msg :: rest =>
    match ChatManager.formatLine lib msg with
    | .error e => .error e
    | .ok line =>
      match ChatManager.formatLines lib rest with
      | .error e => .error e
      | .ok lines => .ok (line :: lines)

/-- `ChatManager.formatMessagesAsText(messages)`. -/
def ChatManager.formatMessagesAsText (lib : JsLibrary) (messages : List MessageData) :
    Except String String :=
  match ChatManager.formatLines lib messages with
  | .error e => .error e
  | .ok lines => .ok ("\n".intercalate lines)

/-- `ChatManager.exportChatHistory(format)`, called at time `now`. -/
def ChatManager.exportChatHistory (self : ChatManager) (lib : JsLibrary) (format : String)
    (now : ℕ) : Except String ExportResult :=
  match self.currentSession with
  | none => .error "Nenhuma sessão ativa"
  | some session =>
    let sessionId := session.sessionId.read
    let messages := (historyGet self.messageHistory sessionId).getD []
    let exportData : ExportData :=
      { sessionId := sessionId
        exportedAt := lib.toISOString now
        messageCount := messages.length
        messages := messages.map fun msg =>
          { type := msg.type, content := msg.content
            timestamp := lib.toISOString msg.timestamp } }
    if format = "json" then .ok (.json exportData)
    else if format = "txt" then
      match ChatManager.formatMessagesAsText lib messages with
      | .error e => .error e
      | .ok text => .ok (.text text)
    else .ok (.object exportData)

/-! ## Scenario data for the exchanges -/

/-- Another cost center, the one the conversation would advance to. -/
def centerNext : CostCenter :=
  routineCenter 2 "Produção" [⟨"Matéria Prima", some 0⟩]

/-- A reply that carries both `updatedCenter` and `nextCenter`. -/
def bothReply : MessageReply :=
  { botMessage := some "Registrado R$ 100 para Marketing. Agora vamos para Produção"
    updatedCenter := some centerOneFilled, nextCenter := some centerNext
    finished := some false }

/-- A 200 response whose payload has `success: 1` and carries `data`. -/
def truthyFetch {δ : Type} (data : δ) : FetchResult (ApiPayload δ) :=
  .response { ok := true, status := 200, statusText := "OK"
              json := .ok { success := .number 1, data := some data, error := none } }

/-- A state snapshot that carries another session id. -/
def foreignSnapshot : SessionData :=
  { boundSession with sessionId := .val "sess-2" }

/-- A bot reply that asks for a number again. -/
def askAgainReply : MessageReply :=
  { botMessage := some "Por favor, informe um valor numérico para Marketing"
    updatedCenter := none, nextCenter := none, finished := some false }

/-- A library whose functions print the clock value as it is. -/
def plainLibrary : JsLibrary :=
  { toISOString := fun t => toString t, toLocaleTimeString := fun t => toString t
    toUpperCase := fun s => s.toUpper }

/-! ## Periodic synchronisation -/

/-- One run of the callback `setupPeriodicSync` hands to `setInterval`: when a session is
bound, `sessionState.isActive` is truthy and `sessionState.isComplete` is falsy it awaits
`getSessionState()` and swallows its error; otherwise it does nothing. -/
def SessionManager.syncTick (self : SessionManager)
    (fetch : FetchResult (ApiPayload SessionData)) : Outcome Unit SessionManager :=
  if self.currentSession.isSome && self.sessionState.isActive == some true
      && !self.sessionState.isComplete then
    { result := .ok ()
      state := (self.getSessionState none fetch).state
      calls := (self.getSessionState none fetch).calls }
  else { result := .ok (), state := self, calls := [] }

/-- The state after a run of ticks, each with the response the network gives it. -/
def SessionManager.runTicks (self : SessionManager)
    (fetches : List (FetchResult (ApiPayload SessionData))) : SessionManager :=
  fetches.foldl (fun sm fetch => (sm.syncTick fetch).state) self

/-! ## Session start -/

/-- The `data` of a reply to `POST /sessions`, in its documented shape
`{ sessionId, currentCenter, botMessage }`. -/
structure CreateReply where
  sessionId : Option String
  currentCenter : Option CostCenter
  botMessage : Option String
  deriving DecidableEq, Repr

/-- The body of a reply to `POST /sessions` with every property a reader looks at:
`success`, `data` (read by `CostCenterApp.startSession`), `session` (read by
`SessionManager.createSession`) and `error`. -/
structure CreatePayload where
  success : JsValue
  data : Option CreateReply
  session : Option SessionData
  error : Option String
  deriving DecidableEq, Repr

/-- The same body as `createSession` reads it. -/
def CreatePayload.toSessionPayload (p : CreatePayload) : SessionPayload :=
  { success := p.success, session := p.session, error := p.error }

/-- The same transport outcome with the body seen through `f`. -/
def FetchResult.mapBody {α β : Type} (f : α → β) : FetchResult α → FetchResult β
  | .rejected message => .rejected message
  | .response r =>
    .response { ok := r.ok, status := r.status, statusText := r.statusText
                json := match r.json with
                  | .ok body => .ok (f body)
                  | .error e => .error e }

/-- The session object `startSession` builds from the reply and the selected centers. -/
def App.newSession (reply : CreateReply) (selectedCostCenters : List CostCenter)
    (createdAt : String) : SessionData :=
  { sessionId := JsField.ofOption reply.sessionId
    userId := .absent
    createdAt := .val createdAt
    isActive := .val true
    isComplete := .val false
    currentCostCenter := JsField.ofOption reply.currentCenter
    currentField := .absent
    currentQuestion := JsField.ofOption reply.botMessage
    costCenters := .val selectedCostCenters }

/-- `CostCenterApp.initializeChat()`: the globals it leaves and the message of the error
thrown on the way (by `updateProgress`), if any. -/
def World.appInitializeChat (w : World) (app : App) (now : ℕ) : World × Option String :=
  match w.appSession app with
  | none => (w, none)
  | some session =>
    let welcome :=
      orDefault session.currentQuestion.toOption "Sessão iniciada! Como posso ajudá-lo?"
    let welcomeData : MessageData :=
      { type := some "bot", content := some welcome, timestamp := now }
    let w1 : World := { w with chat := w.chat.addMessage (some welcomeData) }
    match App.updateProgress app (some session) with
    | .error e => (w1, some e)
    | .ok _ => (w1, none)

/-- How `startSession` ends: rejected by the empty-selection guard (an `alert`), failed
(the error screen is shown), or started. -/
inductive StartResult where
  | rejected
  | failed
  | started
  deriving DecidableEq, Repr

/-- What `startSession` leaves behind. -/
structure StartOutcome where
  result : StartResult
  world : World
  calls : List Request

/-- `CostCenterApp.startSession()`, run on `window.app`.  `userId` is the content of the
user-id box, `createdAt` the ISO text of the clock and `now` the clock itself. -/
def World.startSession (w : World) (userId : String) (createdAt : String) (now : ℕ)
    (fetch : FetchResult CreatePayload) : StartOutcome :=
  match w.app with
  | none => { result := .rejected, world := w, calls := [] }
  | some app =>
    if app.selectedCenters.length = 0 then { result := .rejected, world := w, calls := [] }
    else
      let selectedCostCenters := app.costCenters.filter fun c => c.id ∈ app.selectedCenters
      let calls :=
        [Request.createSession selectedCostCenters app.selectedCenters
          (if userId = "" then none else some userId)]
      match exchange fetch with
      | .error _ => { result := .failed, world := w, calls := calls }
      | .ok data =>
        match data.success.truthy, data.data with
        | true, some reply =>
          let session := App.newSession reply selectedCostCenters createdAt
          let app1 : App := { app with currentSession := .own (some session) }
          let w1 : World := { w with app := some app1 }
          let chatReady := w1.appInitializeChat app1 now
          match chatReady.2 with
          | some _ => { result := .failed, world := chatReady.1, calls := calls }
          | none =>
            { result := .started
              world :=
                { chat := ChatManager.initialize chatReady.1.chat (some session) now
                  sessionManager := chatReady.1.sessionManager.map fun sm =>
                    let bound := SessionManager.initialize sm (some session)
                    { bound with currentSession := some session }
                  app := some { app1 with currentSession := .sameAsChat } }
              calls := calls }
        | _, _ => { result := .failed, world := w, calls := calls }

/-! ## The synchronous start of a user action -/

/-- The expression `session?.sessionId`. -/
def sessionIdOf (session : Option SessionData) : JsField String :=
  match session with
  | some s => s.sessionId.read
  | none => .undefined

/-- The text `showDebugInfo` builds. -/
def ChatManager.debugText (w : World) : String :=
  let session := w.chat.currentSession
  let center := session.bind fun s => s.currentCostCenter.toOption
  let managerSync :=
    sessionIdOf (w.sessionManager.bind fun sm => sm.currentSession) = sessionIdOf session
  let appSync := sessionIdOf (w.app.bind fun app => w.appSession app) = sessionIdOf session
  "🔍 **Estado de Debug:**\n        \n**Sessão:** "
    ++ orDefault (session.bind fun s => s.sessionId.toOption) "Não definida"
    ++ "\n**Centro Atual:** " ++ orDefault (center.map fun c => c.name) "Não definido"
    ++ " (ID: "
    ++ (match center with
        | some c => if c.id = 0 then "N/A" else toString c.id
        | none => "N/A")
    ++ ")\n**Completa:** "
    ++ (if (session.map fun s => s.isComplete.truthy).getD false then "Sim" else "Não")
    ++ "\n**Mensagens:** " ++ toString w.chat.messages.length
    ++ "\n**SessionManager Sincronizado:** " ++ (if managerSync then "Sim" else "Não")
    ++ "\n**App Sincronizado:** " ++ (if appSync then "Sim" else "Não")
    ++ "\n\nDigite \"reset sessão\" se houver problemas de sincronização."

/-- `ChatManager.showDebugInfo()`. -/
def ChatManager.showDebugInfo (w : World) (now : ℕ) : World :=
  let debugData : MessageData :=
    { type := some "system", content := some (ChatManager.debugText w), timestamp := now }
  { w with chat := w.chat.addMessage (some debugData) }

/-- The text `sendQuickReply(reply)` puts into the input box before it calls
`handleSendMessage`. -/
def quickReplyText (reply : String) : String :=
  if reply = "confirmar" then "sim, confirmo e vamos para o próximo item"
  else if reply = "corrigir" then "não, quero corrigir este valor"
  else if reply = "próximo" then "próximo item por favor"
  else reply

/-- What a handler leaves when it suspends at its network `await` (or ends without
reaching one): the globals, and the network call it has started, if any. -/
structure Started where
  world : World
  call : Option Request

/-- The `catch` block of `handleCommand`. -/
def ChatManager.commandFailed (self : ChatManager) (errorMessage : String) (now : ℕ) :
    ChatManager :=
  ({ self with isTyping := false }).addMessage
    (some { type := some "system"
            content := some ("Erro ao executar comando: " ++ errorMessage)
            timestamp := now })

/-- `ChatManager.handleSendMessage()` up to the `fetch` inside
`sessionManager.sendMessage`: the handler tests the text and the session, adds the user
message, synchronises the manager and starts the call.  It consults no flag that tells
whether another call is outstanding.  When no call is started the handler has run to
its end. -/
def ChatManager.handleSendMessageBegin (w : World) (message : String) (now : ℕ) : Started :=
  match w.chat.currentSession with
  | none => { world := w, call := none }
  | some _ =>
    if message = "" then { world := w, call := none }
    else
      let chat1 := w.chat.addMessage
        (some { type := some "user", content := some message, timestamp := now })
      let chat2 := { chat1 with isTyping := true }
      match w.sessionManager with
      | none =>
        { world := { w with chat := chat2.sendFailed "Session Manager não disponível" now }
          call := none }
      | some sm =>
        let sm1 := chat2.syncManager sm
        match resolveId none sm1.currentSession with
        | none =>
          { world := { w with chat := chat2.sendFailed "Session ID não fornecido" now,
                              sessionManager := some sm1 }
            call := none }
        | some id =>
          { world := { w with chat := chat2, sessionManager := some sm1 }
            call := some (Request.message id message) }

/-- `ChatManager.sendQuickReply(reply)` up to the `fetch`: it fills the input box and
calls `handleSendMessage` directly, whether or not the box is disabled. -/
def ChatManager.sendQuickReplyBegin (w : World) (reply : String) (now : ℕ) : Started :=
  ChatManager.handleSendMessageBegin w (quickReplyText reply) now

/-- `ChatManager.handleCommand(command)` up to the `fetch` inside
`sessionManager.sendCommand`; `toLowerCase` is `String.prototype.toLowerCase`.  The two
debug commands are served locally. -/
def ChatManager.handleCommandBegin (w : World) (command : String)
    (toLowerCase : String → String) (now : ℕ) : Started :=
  match w.chat.currentSession with
  | none => { world := w, call := none }
  | some _ =>
    if toLowerCase command = "debug estado" then
      { world := ChatManager.showDebugInfo w now, call := none }
    else if toLowerCase command = "reset sessão" then
      { world := ChatManager.handleSessionReset w now, call := none }
    else
      let chat1 := w.chat.addMessage
        (some { type := some "command", content := some ("Comando: " ++ command)
                timestamp := now })
      let chat2 := { chat1 with isTyping := true }
      match w.sessionManager with
      | none =>
        { world := { w with chat := chat2.commandFailed "Session Manager não disponível" now }
          call := none }
      | some sm =>
        match resolveId none sm.currentSession with
        | none =>
          { world := { w with chat := chat2.commandFailed "Session ID não fornecido" now }
            call := none }
        | some id =>
          { world := { w with chat := chat2 }, call := some (Request.command id command) }

/-! ## Scenario data for the session start -/

/-- The page before the first session: one of two known centers is selected. -/
def freshWorld : World :=
  { chat := ChatManager.new, sessionManager := some SessionManager.new
    app := some { currentSession := .own none, costCenters := [centerThreeZero, centerNext]
                  selectedCenters := [1] } }

/-- A creation reply of the documented shape. -/
def createReply : CreateReply :=
  { sessionId := some "sess-1", currentCenter := some centerThreeZero
    botMessage := some "Qual o gasto com Marketing?" }

/-- A 200 response to `POST /sessions` of the documented shape
`{ success: true, data: { sessionId, currentCenter, botMessage } }`. -/
def createdFetch : FetchResult CreatePayload :=
  .response { ok := true, status := 200, statusText := "OK"
              json := .ok { success := .bool true, data := some createReply
                            session := none, error := none } }

/-- A center with one routine item that holds a positive amount and `n` that hold `0`. -/
def centerSparseOf (n : ℕ) : CostCenter :=
  routineCenter 1 "Administrativo"
    (List.replicate 1 ⟨"Aluguel", some 100⟩ ++ List.replicate n ⟨"Internet", some 0⟩)

/-- A center with 201 routine items of which one holds a positive amount. -/
def centerSparse : CostCenter := centerSparseOf 200

/-- An app whose only known and selected center is `centerSparse`. -/
def sparseApp : App :=
  { currentSession := .sameAsChat, costCenters := [centerSparse], selectedCenters := [1] }

/-- Lower-casing of the letters `A` to `Z`: `toLowerCase` on the command words used
below. -/
def asciiLower (s : String) : String := ⟨s.data.map Char.toLower⟩

/-! ## Repeated bot messages -/

/-- No two neighbours in the list are `bot` messages with identical content. -/
def NoRepeatedBot (l : List MessageData) : Prop :=
  l.Chain' fun a b => ¬(a.type = some "bot" ∧ b.type = some "bot" ∧ a.content = b.content)

/-! # Theorems -/

/-! ## Rounding to binary64: bounds -/

/-- Rounding to the nearest integer moves a value by at most one half. -/
theorem roundNearestEven_sub_le (y : ℚ) : |(roundNearestEven y : ℚ) - y| ≤ 1 / 2 := by
  have h1 := Int.floor_le y
  have h2 := Int.lt_floor_add_one y
  unfold roundNearestEven
  rw [abs_le]
  split_ifs <;> push_cast <;> constructor <;> linarith

/-- Rounding to the nearest integer never crosses an integer upper bound. -/
theorem roundNearestEven_le_of_le (y : ℚ) (b : ℤ) (h : y ≤ b) : roundNearestEven y ≤ b := by
  have h1 := Int.floor_le y
  have hf : ⌊y⌋ ≤ b := by
    have : (⌊y⌋ : ℚ) ≤ b := h1.trans h
    exact_mod_cast this
  unfold roundNearestEven
  split_ifs with h3 h4 h5
  · exact hf
  · have : (⌊y⌋ : ℚ) < b := by linarith
    have : ⌊y⌋ < b := by exact_mod_cast this
    omega
  · exact hf
  · have : (⌊y⌋ : ℚ) < b := by linarith
    have : ⌊y⌋ < b := by exact_mod_cast this
    omega

/-- Rounding a non-negative value gives a non-negative integer. -/
theorem roundNearestEven_nonneg (y : ℚ) (h : 0 ≤ y) : 0 ≤ roundNearestEven y := by
  have hf : 0 ≤ ⌊y⌋ := Int.floor_nonneg.mpr h
  unfold roundNearestEven
  split_ifs <;> omega

/-- The double nearest to a non-negative rational is non-negative. -/
theorem toDouble_nonneg (x : ℚ) (h : 0 ≤ x) : 0 ≤ toDouble x := by
  unfold toDouble
  apply mul_nonneg
  · have : 0 ≤ roundNearestEven (x / 2 ^ (max (Int.log 2 |x|) (-1022) - 52)) :=
      roundNearestEven_nonneg _ (div_nonneg h (by positivity))
    exact_mod_cast this
  · positivity

/-- Rounding to a double never crosses a natural number below `2^53`: such a
number is itself a double on the grid of every smaller value. -/
theorem toDouble_le_natCast (x : ℚ) (b : ℕ) (h0 : 0 ≤ x) (h : x ≤ b) (hb : b < 2 ^ 53) :
    toDouble x ≤ b := by
  unfold toDouble
  set e : ℤ := max (Int.log 2 |x|) (-1022) with he
  have he52 : e ≤ 52 := by
    rw [he]
    apply max_le _ (by norm_num)
    rcases eq_or_lt_of_le h0 with h1 | h1
    · rw [← h1]; simp
    · rw [abs_of_pos h1]
      have hx : x < ((2 : ℕ) : ℚ) ^ (53 : ℤ) := by
        have : (b : ℚ) < 2 ^ 53 := by exact_mod_cast hb
        push_cast
        calc x ≤ b := h
          _ < 2 ^ 53 := this
          _ = (2 : ℚ) ^ (53 : ℤ) := by norm_num
      have := (Int.lt_zpow_iff_log_lt (by norm_num : 1 < 2) h1).mp hx
      omega
  -- b is an integer number of ulps
  obtain ⟨k, hk⟩ : ∃ k : ℕ, e + k = 52 := ⟨(52 - e).toNat, by omega⟩
  have hpow : (2 : ℚ) ^ (e - 52) = ((2 : ℚ) ^ k)⁻¹ := by
    have : e - 52 = -(k : ℤ) := by omega
    rw [this, zpow_neg, zpow_natCast]
  rw [hpow]
  have hpos : (0 : ℚ) < 2 ^ k := by positivity
  have hr : roundNearestEven (x / ((2 : ℚ) ^ k)⁻¹) ≤ ((b * 2 ^ k : ℕ) : ℤ) := by
    apply roundNearestEven_le_of_le
    rw [div_inv_eq_mul]
    push_cast
    exact mul_le_mul_of_nonneg_right h hpos.le
  have hr2 : (roundNearestEven (x / ((2 : ℚ) ^ k)⁻¹) : ℚ) ≤ (b : ℚ) * 2 ^ k := by
    exact_mod_cast hr
  calc (roundNearestEven (x / ((2 : ℚ) ^ k)⁻¹) : ℚ) * ((2 : ℚ) ^ k)⁻¹
      ≤ ((b : ℚ) * 2 ^ k) * ((2 : ℚ) ^ k)⁻¹ :=
        mul_le_mul_of_nonneg_right hr2 (inv_nonneg.mpr hpos.le)
    _ = b := by field_simp

/-- The relative error of rounding a normal positive value to a double is at most `2^-53`. -/
theorem toDouble_sub_le (x : ℚ) (h : (2 : ℚ) ^ (-1022 : ℤ) ≤ x) :
    |toDouble x - x| ≤ x * 2 ^ (-53 : ℤ) := by
  have hx : 0 < x := lt_of_lt_of_le (by positivity) h
  unfold toDouble
  rw [abs_of_pos hx]
  have hlog : (-1022 : ℤ) ≤ Int.log 2 x := by
    have := (Int.zpow_le_iff_le_log (by norm_num : 1 < 2) hx (x := -1022)).mp (by exact_mod_cast h)
    exact this
  rw [max_eq_left hlog]
  set e := Int.log 2 x with he
  have hle : (2 : ℚ) ^ e ≤ x := by
    have := Int.zpow_log_le_self (b := 2) (by norm_num) hx
    exact_mod_cast this
  have hu : (0 : ℚ) < 2 ^ (e - 52) := by positivity
  have hrn := roundNearestEven_sub_le (x / 2 ^ (e - 52))
  have key : (roundNearestEven (x / 2 ^ (e - 52)) : ℚ) * 2 ^ (e - 52) - x
      = ((roundNearestEven (x / 2 ^ (e - 52)) : ℚ) - x / 2 ^ (e - 52)) * 2 ^ (e - 52) := by
    field_simp
  rw [key, abs_mul, abs_of_pos hu]
  have h53 : (2 : ℚ) ^ (e - 52) * (1 / 2) = 2 ^ e * 2 ^ (-53 : ℤ) := by
    rw [show e - 52 = e + (-52) by ring, zpow_add₀ (by norm_num : (2 : ℚ) ≠ 0)]
    norm_num
    ring
  calc |(roundNearestEven (x / 2 ^ (e - 52)) : ℚ) - x / 2 ^ (e - 52)| * 2 ^ (e - 52)
      ≤ (1 / 2) * 2 ^ (e - 52) := mul_le_mul_of_nonneg_right hrn hu.le
    _ = 2 ^ e * 2 ^ (-53 : ℤ) := by rw [mul_comm, h53]
    _ ≤ x * 2 ^ (-53 : ℤ) := mul_le_mul_of_nonneg_right hle (by positivity)

/-! ## Rounding to binary64: evaluation -/

/-- An integer strictly within one half of `y` is what `y` rounds to. -/
theorem roundNearestEven_eq_of_near (y : ℚ) (m : ℤ) (h : |y - m| < 1 / 2) :
    roundNearestEven y = m := by
  rw [abs_lt] at h
  obtain ⟨h1, h2⟩ := h
  have hf1 := Int.floor_le y
  have hf2 := Int.lt_floor_add_one y
  have hlo : m - 1 < ⌊y⌋ + 1 := by
    have : ((m - 1 : ℤ) : ℚ) < ((⌊y⌋ + 1 : ℤ) : ℚ) := by push_cast; linarith
    exact_mod_cast this
  have hhi : ⌊y⌋ < m + 1 := by
    have : ((⌊y⌋ : ℤ) : ℚ) < ((m + 1 : ℤ) : ℚ) := by push_cast; linarith
    exact_mod_cast this
  have hcase : ⌊y⌋ = m ∨ ⌊y⌋ = m - 1 := by omega
  unfold roundNearestEven
  rcases hcase with hc | hc
  · rw [hc]
    rw [if_pos (by linarith)]
  · rw [hc]
    have hnot : ¬ (y - ((m - 1 : ℤ) : ℚ) < 1 / 2) := by push_cast; linarith
    have hpos : (1 : ℚ) / 2 < y - ((m - 1 : ℤ) : ℚ) := by push_cast; linarith
    rw [if_neg hnot, if_pos hpos]
    ring

/-- Evaluation of `toDouble`: given the binade of `x` and the integer nearest to `x`
in units of that binade, the double is that integer times the unit. -/
theorem toDouble_eq_of (x : ℚ) (e m : ℤ) (h1 : (2 : ℚ) ^ e ≤ x) (h2 : x < 2 ^ (e + 1))
    (he : -1022 ≤ e) (hm : |x / 2 ^ (e - 52) - m| < 1 / 2) :
    toDouble x = m * 2 ^ (e - 52) := by
  have hx : 0 < x := lt_of_lt_of_le (by positivity) h1
  have hlog : Int.log 2 x = e := by
    apply le_antisymm
    · have := (Int.lt_zpow_iff_log_lt (by norm_num : 1 < 2) hx (x := e + 1)).mp
        (by exact_mod_cast h2)
      omega
    · exact (Int.zpow_le_iff_le_log (by norm_num : 1 < 2) hx (x := e)).mp (by exact_mod_cast h1)
  unfold toDouble
  rw [abs_of_pos hx, hlog, max_eq_left he, roundNearestEven_eq_of_near _ m hm]

/-- Zero is a double. -/
theorem toDouble_zero : toDouble 0 = 0 := by
  unfold toDouble roundNearestEven
  simp

/-- In doubles `(23 / 40) * 100` is `57.49999999999999`, which `Math.round` takes to `57`. -/
theorem mathRound_23_40 : mathRound (jsMul (jsDiv 23 40) 100) = 57 := by
  have h1 : jsDiv 23 40 = 5179139571476070 * 2 ^ (-1 - 52 : ℤ) := by
    unfold jsDiv
    apply toDouble_eq_of
    · norm_num
    · norm_num
    · norm_num
    · rw [abs_lt]; constructor <;> norm_num
  have h2 : jsMul (jsDiv 23 40) 100 = 8092405580431359 * 2 ^ (5 - 52 : ℤ) := by
    unfold jsMul
    rw [h1]
    apply toDouble_eq_of
    · norm_num
    · norm_num
    · norm_num
    · rw [abs_lt]; constructor <;> norm_num
  rw [h2]
  unfold mathRound
  rw [Int.floor_eq_iff]
  constructor <;> norm_num

/-! ## The percentage is a nearest integer -/

/-- `Math.round(0)` is `0`. -/
theorem mathRound_zero : mathRound 0 = 0 := by
  unfold mathRound
  rw [Int.floor_eq_iff]
  constructor <;> norm_num

/-- The double `(c / t) * 100` is within `200 * 2^-53` of the exact `100 c / t`. -/
theorem percent_double_near (t c : ℕ) (hc1 : 1 ≤ c) (hc : c ≤ t) (hb : t ≤ 2 ^ 44) :
    |jsMul (jsDiv c t) 100 - 100 * c / t| ≤ 200 * 2 ^ (-53 : ℤ) := by
  have ht : 0 < t := lt_of_lt_of_le hc1 hc
  have htq : (0 : ℚ) < t := by exact_mod_cast ht
  have hcq : (1 : ℚ) ≤ c := by exact_mod_cast hc1
  have hctq : (c : ℚ) ≤ t := by exact_mod_cast hc
  have hbq : (t : ℚ) ≤ 2 ^ 44 := by exact_mod_cast hb
  have hδ : (2 : ℚ) ^ (-53 : ℤ) = 1 / 9007199254740992 := by norm_num
  have hmin : (2 : ℚ) ^ (-1022 : ℤ) ≤ 1 / 2 ^ 45 := by
    rw [show (1 : ℚ) / 2 ^ 45 = 2 ^ (-45 : ℤ) by norm_num]
    exact zpow_le_zpow_right₀ (by norm_num) (by norm_num)
  -- the quotient
  have hx1 : (1 : ℚ) / 2 ^ 44 ≤ c / t := by
    rw [div_le_div_iff₀ (by positivity) htq]
    nlinarith
  have hx1le : (c : ℚ) / t ≤ 1 := by
    rw [div_le_one htq]; exact hctq
  have hx1min : (2 : ℚ) ^ (-1022 : ℤ) ≤ c / t := by
    have : (1 : ℚ) / 2 ^ 45 ≤ 1 / 2 ^ 44 := by norm_num
    exact le_trans hmin (le_trans this hx1)
  have e1 := toDouble_sub_le ((c : ℚ) / t) hx1min
  rw [hδ, abs_le] at e1
  have hq1le : jsDiv c t ≤ 1 := by
    have := toDouble_le_natCast ((c : ℚ) / t) 1 (by positivity) (by simpa using hx1le)
      (by norm_num)
    simpa [jsDiv] using this
  have hq1lo : (1 : ℚ) / 2 ^ 45 ≤ jsDiv c t := by
    unfold jsDiv
    have : (1 : ℚ) / 2 ^ 45 ≤ (c : ℚ) / t - c / t * (1 / 9007199254740992) := by
      have : (c : ℚ) / t * (1 - 1 / 9007199254740992) ≥ 1 / 2 ^ 44 * (1 / 2) := by
        apply mul_le_mul hx1 (by norm_num) (by norm_num) (by positivity)
      have h2 : (1 : ℚ) / 2 ^ 44 * (1 / 2) = 1 / 2 ^ 45 := by norm_num
      linarith
    linarith [e1.1]
  have hx2min : (2 : ℚ) ^ (-1022 : ℤ) ≤ jsDiv c t * 100 := by
    have : jsDiv c t ≤ jsDiv c t * 100 := by
      have : (0 : ℚ) ≤ jsDiv c t := le_trans (by positivity) hq1lo
      linarith
    exact le_trans hmin (le_trans hq1lo this)
  have e2 := toDouble_sub_le (jsDiv c t * 100) hx2min
  rw [hδ, abs_le] at e2
  rw [hδ, abs_le]
  have e1a : -(1 / 9007199254740992 : ℚ) ≤ jsDiv c t - c / t := by
    have : (c : ℚ) / t * (1 / 9007199254740992) ≤ 1 * (1 / 9007199254740992) :=
      mul_le_mul_of_nonneg_right hx1le (by norm_num)
    unfold jsDiv; linarith [e1.1]
  have e1b : jsDiv c t - c / t ≤ (1 / 9007199254740992 : ℚ) := by
    have : (c : ℚ) / t * (1 / 9007199254740992) ≤ 1 * (1 / 9007199254740992) :=
      mul_le_mul_of_nonneg_right hx1le (by norm_num)
    unfold jsDiv; linarith [e1.2]
  have e2m : jsDiv c t * 100 * (1 / 9007199254740992) ≤ 100 * (1 / 9007199254740992) := by
    nlinarith
  have hdiv : (100 : ℚ) * c / t = 100 * (c / t) := by ring
  rw [hdiv]
  unfold jsMul
  constructor <;> linarith [e2.1, e2.2]

/-- `Math.round z` lies in `(z - 1/2, z + 1/2]`. -/
theorem mathRound_bounds (z : ℚ) : (mathRound z : ℚ) ≤ z + 1 / 2 ∧ z - 1 / 2 < mathRound z := by
  unfold mathRound
  have h1 := Int.floor_le (z + 1 / 2)
  have h2 := Int.lt_floor_add_one (z + 1 / 2)
  constructor <;> linarith

/-- The percentage is an integer nearest to `100 c / t`, for up to `2^44` fields. -/
theorem progressOf_percentage_near (t c : ℕ) (ht : 0 < t) (hc : c ≤ t) (hb : t ≤ 2 ^ 44) :
    2 * |(t : ℤ) * (SessionManager.progressOf t c).percentage - 100 * c| ≤ t := by
  unfold SessionManager.progressOf
  simp only [gt_iff_lt, ht, if_true]
  rcases Nat.eq_zero_or_pos c with h0 | hpos
  · subst h0
    simp [jsDiv, jsMul, toDouble_zero, mathRound_zero]
  · have hnear := percent_double_near t c hpos hc hb
    set z := jsMul (jsDiv c t) 100 with hz
    obtain ⟨m1, m2⟩ := mathRound_bounds z
    set p := mathRound z with hp
    have htq : (0 : ℚ) < t := by exact_mod_cast ht
    have hbq : (t : ℚ) ≤ 2 ^ 44 := by exact_mod_cast hb
    rw [show (2 : ℚ) ^ (-53 : ℤ) = 1 / 9007199254740992 by norm_num, abs_le] at hnear
    have hx : (100 : ℚ) * c / t * t = 100 * c := by field_simp
    have hlt : ((2 * |(t : ℤ) * p - 100 * c| : ℤ) : ℚ) < ((t + 1 : ℤ) : ℚ) := by
      push_cast
      have habs : |(t : ℚ) * p - 100 * c| ≤ t * (1 / 2 + 200 * (1 / 9007199254740992)) := by
        rw [abs_le]
        constructor
        · have : (t : ℚ) * (100 * c / t - 200 * (1 / 9007199254740992) - 1 / 2) ≤ t * p :=
            mul_le_mul_of_nonneg_left (by linarith [hnear.1]) htq.le
          nlinarith
        · have : (t : ℚ) * p ≤ t * (100 * c / t + 200 * (1 / 9007199254740992) + 1 / 2) :=
            mul_le_mul_of_nonneg_left (by linarith [hnear.2]) htq.le
          nlinarith
      have : (t : ℚ) * (400 * (1 / 9007199254740992)) < 1 := by
        have : (t : ℚ) * (400 * (1 / 9007199254740992)) ≤ 2 ^ 44 * (400 * (1 / 9007199254740992)) :=
          mul_le_mul_of_nonneg_right hbq (by norm_num)
        have h3 : (2 : ℚ) ^ 44 * (400 * (1 / 9007199254740992)) < 1 := by norm_num
        linarith
      linarith
    have : 2 * |(t : ℤ) * p - 100 * c| < t + 1 := by exact_mod_cast hlt
    omega

/-! ## The progress counters -/

/-- The test `x && x > 0` holds exactly for amounts strictly greater than zero. -/
theorem amountFilled_eq (a : Option ℚ) : amountFilled a = amountPositive a := by
  cases a with
  | none => rfl
  | some x =>
    simp only [amountFilled, amountPositive]
    by_cases h : 0 < x
    · simp [h, ne_of_gt h]
    · simp [h]

/-- One step of the counting loop adds the center item count and filled count. -/
theorem countCenter_eq (acc : ℕ × ℕ) (c : CostCenter) :
    SessionManager.countCenter acc c = (acc.1 + specFieldCount c, acc.2 + specFilledCount c) := by
  obtain ⟨id, name, r, e, q⟩ := c
  cases r <;> cases e <;> cases q <;>
    simp [SessionManager.countCenter, specFieldCount, specFilledCount, amountFilled_eq,
      Nat.add_assoc]

/-- The counting loop computes the two sums over the centers. -/
theorem foldl_countCenter (centers : List CostCenter) (acc : ℕ × ℕ) :
    centers.foldl SessionManager.countCenter acc
      = (acc.1 + specTotalFields centers, acc.2 + specCompletedFields centers) := by
  induction centers generalizing acc with
  | nil => simp [specTotalFields, specCompletedFields]
  | cons c cs ih =>
    rw [List.foldl_cons, ih, countCenter_eq]
    simp [specTotalFields, specCompletedFields, Nat.add_assoc]

/-- A center has at most as many filled items as items. -/
theorem specFilledCount_le (c : CostCenter) : specFilledCount c ≤ specFieldCount c := by
  unfold specFilledCount specFieldCount
  have h1 := List.length_filter_le (fun e : RoutineExpense => amountPositive e.amount)
    (c.costCenterRoutineExpenses.getD [])
  have h2 := List.length_filter_le (fun e : EmployeeExpense => amountPositive e.salaryBenefits)
    (c.costCenterEmployeeExpenses.getD [])
  have h3 := List.length_filter_le (fun e : EquipmentExpense => amountPositive e.currentValue)
    (c.costCenterEquipmentExpenses.getD [])
  omega

/-- The filled items are at most the items. -/
theorem specCompletedFields_le (centers : List CostCenter) :
    specCompletedFields centers ≤ specTotalFields centers := by
  induction centers with
  | nil => simp [specTotalFields, specCompletedFields]
  | cons c cs ih =>
    have := specFilledCount_le c
    simp only [specTotalFields, specCompletedFields, List.map_cons, List.sum_cons] at *
    omega

/-- On a session with a `costCenters` list, `calculateProgress` is `progressOf` of the two sums. -/
theorem calculateProgress_centers (sd : SessionData) (centers : List CostCenter)
    (h : sd.costCenters = .val centers) :
    SessionManager.calculateProgress (some sd)
      = SessionManager.progressOf (specTotalFields centers) (specCompletedFields centers) := by
  simp [SessionManager.calculateProgress, h, JsField.toOption, foldl_countCenter]

/-- The percentage lies between `0` and `100` whenever `c ≤ t`. -/
theorem progressOf_percentage_bounds (t c : ℕ) (hc : c ≤ t) :
    0 ≤ (SessionManager.progressOf t c).percentage
      ∧ (SessionManager.progressOf t c).percentage ≤ 100 := by
  unfold SessionManager.progressOf
  simp only
  by_cases ht : t > 0
  · rw [if_pos ht]
    have htq : (0 : ℚ) < t := by exact_mod_cast ht
    have hcq : (c : ℚ) ≤ t := by exact_mod_cast hc
    have hq0 : (0 : ℚ) ≤ c / t := by positivity
    have hq1 : (c : ℚ) / t ≤ 1 := by rw [div_le_one htq]; exact hcq
    have d0 : 0 ≤ jsDiv c t := toDouble_nonneg _ hq0
    have d1 : jsDiv c t ≤ 1 := by
      have := toDouble_le_natCast ((c : ℚ) / t) 1 hq0 (by simpa using hq1) (by norm_num)
      simpa [jsDiv] using this
    have m0 : 0 ≤ jsMul (jsDiv c t) 100 := toDouble_nonneg _ (by positivity)
    have m1 : jsMul (jsDiv c t) 100 ≤ 100 := by
      have := toDouble_le_natCast (jsDiv c t * 100) 100 (by positivity)
        (by push_cast; linarith) (by norm_num)
      simpa [jsMul] using this
    obtain ⟨r1, r2⟩ := mathRound_bounds (jsMul (jsDiv c t) 100)
    constructor
    · have : ((-1 : ℤ) : ℚ) < mathRound (jsMul (jsDiv c t) 100) := by push_cast; linarith
      have : (-1 : ℤ) < mathRound (jsMul (jsDiv c t) 100) := by exact_mod_cast this
      omega
    · have : (mathRound (jsMul (jsDiv c t) 100) : ℚ) < ((101 : ℤ) : ℚ) := by push_cast; linarith
      have : mathRound (jsMul (jsDiv c t) 100) < 101 := by exact_mod_cast this
      omega
  · rw [if_neg ht, mathRound_zero]
    omega

/-! ## The percentage against exact rounding; the scenarios -/

/-- With no fields the percentage is `0`. -/
theorem progressOf_zero_left (c : ℕ) : (SessionManager.progressOf 0 c).percentage = 0 := by
  simp [SessionManager.progressOf, mathRound_zero]

/-- Away from exact ties the percentage is round half up of `100 c / t`. -/
theorem progressOf_percentage_eq_spec (t c : ℕ) (ht : 0 < t) (hc : c ≤ t) (hb : t ≤ 2 ^ 44)
    (htie : (200 * c) % (2 * t) ≠ t) :
    (SessionManager.progressOf t c).percentage = specPercentage c t := by
  have hnear := progressOf_percentage_near t c ht hc hb
  obtain ⟨hp0, -⟩ := progressOf_percentage_bounds t c hc
  set p := (SessionManager.progressOf t c).percentage with hp
  have ha1 := neg_abs_le ((t : ℤ) * p - 100 * c)
  have ha2 := le_abs_self ((t : ℤ) * p - 100 * c)
  have hne : (t : ℤ) + 2 * ((t : ℤ) * p - 100 * c) ≠ 0 := by
    intro heq
    apply htie
    obtain ⟨k, hk⟩ := Int.eq_ofNat_of_zero_le hp0
    rw [hk] at heq
    have hnat : 200 * c = t + 2 * t * k := by
      have : ((200 * c : ℕ) : ℤ) = ((t + 2 * t * k : ℕ) : ℤ) := by push_cast; linarith
      exact_mod_cast this
    rw [hnat, Nat.add_mul_mod_self_left]
    exact Nat.mod_eq_of_lt (by omega)
  have hlow : -(t : ℤ) < 2 * ((t : ℤ) * p - 100 * c) := by
    have h1 : -(t : ℤ) ≤ 2 * ((t : ℤ) * p - 100 * c) := by linarith
    rcases lt_or_eq_of_le h1 with h | h
    · exact h
    · exfalso; apply hne; linarith
  have hhigh : 2 * ((t : ℤ) * p - 100 * c) ≤ t := by linarith
  unfold specPercentage
  rw [if_neg (by omega)]
  unfold mathRound
  symm
  rw [Int.floor_eq_iff]
  have htq : (0 : ℚ) < t := by exact_mod_cast ht
  have hlowq : -(t : ℚ) < 2 * ((t : ℚ) * p - 100 * c) := by exact_mod_cast hlow
  have hhighq : 2 * ((t : ℚ) * p - 100 * c) ≤ t := by exact_mod_cast hhigh
  constructor
  · rw [← sub_nonneg]
    have : 100 * (c : ℚ) / t + 1 / 2 - p = (t - 2 * (t * p - 100 * c)) / (2 * t) := by
      field_simp; ring
    rw [this]
    apply div_nonneg <;> linarith
  · rw [← sub_pos]
    have : (p : ℚ) + 1 - (100 * (c : ℚ) / t + 1 / 2) = (t + 2 * (t * p - 100 * c)) / (2 * t) := by
      field_simp; ring
    rw [this]
    apply div_pos <;> linarith

/-- Three fields, none filled: `{3, 0, 0}`. -/
theorem progressOf_three_zero : SessionManager.progressOf 3 0 = ⟨3, 0, 0⟩ := by
  simp [SessionManager.progressOf, jsDiv, jsMul, toDouble_zero, mathRound_zero]

/-- Three fields, one filled: `{3, 1, 33}`. -/
theorem progressOf_three_one : SessionManager.progressOf 3 1 = ⟨3, 1, 33⟩ := by
  have h1 : jsDiv 1 3 = 6004799503160661 * 2 ^ (-2 - 52 : ℤ) := by
    unfold jsDiv
    apply toDouble_eq_of
    · norm_num
    · norm_num
    · norm_num
    · rw [abs_lt]; constructor <;> norm_num
  have h2 : jsMul (jsDiv 1 3) 100 = 4691249611844266 * 2 ^ (5 - 52 : ℤ) := by
    unfold jsMul
    rw [h1]
    apply toDouble_eq_of
    · norm_num
    · norm_num
    · norm_num
    · rw [abs_lt]; constructor <;> norm_num
  have h3 : mathRound (jsMul (jsDiv 1 3) 100) = 33 := by
    rw [h2]
    unfold mathRound
    rw [Int.floor_eq_iff]
    constructor <;> norm_num
  simp [SessionManager.progressOf, h3]

/-- Forty fields, 23 filled: `{40, 23, 57}`. -/
theorem progressOf_tie : SessionManager.progressOf 40 23 = ⟨40, 23, 57⟩ := by
  have := mathRound_23_40
  simp [SessionManager.progressOf, this]

/-- The counters of the scenario center. -/
theorem spec_threeZero : specTotalFields [centerThreeZero] = 3
    ∧ specCompletedFields [centerThreeZero] = 0 := by
  simp [specTotalFields, specCompletedFields, specFieldCount, specFilledCount, centerThreeZero,
    routineCenter, amountPositive]

/-- The counters of the scenario center after one amount was set. -/
theorem spec_oneFilled : specTotalFields [centerOneFilled] = 3
    ∧ specCompletedFields [centerOneFilled] = 1 := by
  simp [specTotalFields, specCompletedFields, specFieldCount, specFilledCount, centerOneFilled,
    routineCenter, amountPositive]

/-- The counters of the center with 23 of 40 items filled. -/
theorem spec_tie : specTotalFields [centerTie] = 40
    ∧ specCompletedFields [centerTie] = 23 := by
  simp [specTotalFields, specCompletedFields, specFieldCount, specFilledCount, centerTie,
    routineCenter, amountPositive, List.filter_append, List.filter_replicate]

/-- Round half up of `57.5` is `58`. -/
theorem specPercentage_tie : specPercentage 23 40 = 58 := by
  unfold specPercentage mathRound
  rw [if_neg (by norm_num), Int.floor_eq_iff]
  constructor <;> norm_num

/-! ## `SessionManager`: exchanges -/

/-- Without a `costCenters` list the progress is all zeros. -/
theorem calculateProgress_no_centers (sd : SessionData) (h : sd.costCenters.toOption = none) :
    SessionManager.calculateProgress (some sd) = ⟨0, 0, 0⟩ := by
  simp [SessionManager.calculateProgress, h]

/-- The partial update built by `sendMessage` has no `costCenters` key. -/
theorem sessionUpdate_costCenters (reply : MessageReply) :
    (SessionManager.sessionUpdate reply).costCenters = .absent := rfl

/-- With no explicit id, the id of the bound session is used. -/
theorem resolveId_boundSession (s : SessionData) (sm : SessionManager)
    (h : sm.currentSession = some s) (id : String) (hid : s.sessionId = .val id) (hne : id ≠ "") :
    resolveId none sm.currentSession = some id := by
  simp [resolveId, h, hid, JsField.toOption, Option.filter, hne]

/-- A success reply makes `sendMessage` apply the partial update. -/
theorem sendMessage_ok (sm : SessionManager) (s : SessionData) (id : String)
    (h : sm.currentSession = some s) (hid : s.sessionId = .val id) (hne : id ≠ "")
    (message : String) (reply : MessageReply) :
    (sm.sendMessage message none (okFetch reply)).state
      = sm.updateSessionState (some (SessionManager.sessionUpdate reply)) := by
  simp [SessionManager.sendMessage, resolveId_boundSession s sm h id hid hne, exchange, okFetch,
    JsValue.truthy]

/-- A success reply makes `sendMessage` return the payload. -/
theorem sendMessage_ok_result (sm : SessionManager) (s : SessionData) (id : String)
    (h : sm.currentSession = some s) (hid : s.sessionId = .val id) (hne : id ≠ "")
    (message : String) (reply : MessageReply) :
    (sm.sendMessage message none (okFetch reply)).result
      = .ok { success := .bool true, data := some reply, error := none } := by
  simp [SessionManager.sendMessage, resolveId_boundSession s sm h id hid hne, exchange, okFetch,
    JsValue.truthy]

/-- The bound manager holds the scenario session. -/
theorem boundManager_currentSession : boundManager.currentSession = some boundSession := by
  simp [boundManager, SessionManager.initialize, SessionManager.updateSessionState,
    SessionManager.new, SessionData.spread, JsField.spread, boundSession]

/-- The bound manager reports the progress `{3, 0, 0}`. -/
theorem boundManager_progress : boundManager.sessionState.progress = ⟨3, 0, 0⟩ := by
  have h := calculateProgress_centers boundSession [centerThreeZero] rfl
  simp only [boundManager, SessionManager.initialize, SessionManager.updateSessionState, h,
    spec_threeZero.1, spec_threeZero.2, progressOf_three_zero]

/-- The state of the bound manager after a success reply. -/
theorem sendMessage_boundManager_state (message : String) (reply : MessageReply) :
    (boundManager.sendMessage message none (okFetch reply)).state
      = boundManager.updateSessionState (some (SessionManager.sessionUpdate reply)) :=
  sendMessage_ok boundManager boundSession "sess-1" boundManager_currentSession rfl (by decide)
    message reply

/-- Applying the partial update of `sendMessage` sets the progress to all zeros. -/
theorem updateSessionState_sessionUpdate_progress (sm : SessionManager) (reply : MessageReply) :
    (sm.updateSessionState (some (SessionManager.sessionUpdate reply))).sessionState.progress
      = ⟨0, 0, 0⟩ := by
  simp [SessionManager.updateSessionState, calculateProgress_no_centers,
    sessionUpdate_costCenters, JsField.toOption]

/-- Claim C3, evaluated on the code: a manager bound through `initialize` to a session
with one center of three routine items reports `totalFields = 3`; after one successful
`sendMessage` exchange (a 200 response with a success payload) it reports
`totalFields = 0`, because the progress is recomputed from the partial update, which
carries no `costCenters`.  The claimed invariance of `totalFields` does not hold. -/
theorem sendMessage_resets_totalFields :
    boundManager.sessionState.progress.totalFields = 3
      ∧ (boundManager.sendMessage "100" none (okFetch plainReply)).result
          = .ok { success := .bool true, data := some plainReply, error := none }
      ∧ (boundManager.sendMessage "100" none
          (okFetch plainReply)).state.sessionState.progress.totalFields = 0 := by
  refine ⟨by rw [boundManager_progress], ?_, ?_⟩
  · exact sendMessage_ok_result boundManager boundSession "sess-1" boundManager_currentSession
      rfl (by decide) "100" plainReply
  · rw [sendMessage_boundManager_state, updateSessionState_sessionUpdate_progress]

/-- Claim C4, evaluated on the code: starting from the session with three routine
items of amount `0` (progress `{3, 0, 0}`), a successful `sendMessage` whose response
carries `updatedCenter` with one amount set to `100` leaves
`sessionState.progress = {0, 0, 0}`, not `{3, 1, 33}`, although `calculateProgress`
on the updated center alone does yield `{3, 1, 33}`. -/
theorem sendMessage_updatedCenter_progress :
    boundManager.sessionState.progress = ⟨3, 0, 0⟩
      ∧ SessionManager.calculateProgress (some (sessionWithCenters [centerOneFilled]))
          = ⟨3, 1, 33⟩
      ∧ (boundManager.sendMessage "100" none (okFetch updatedReply)).result
          = .ok { success := .bool true, data := some updatedReply, error := none }
      ∧ (boundManager.sendMessage "100" none (okFetch updatedReply)).state.sessionState.progress
          = ⟨0, 0, 0⟩ := by
  refine ⟨boundManager_progress, ?_, ?_, ?_⟩
  · rw [calculateProgress_centers _ [centerOneFilled] rfl, spec_oneFilled.1, spec_oneFilled.2,
      progressOf_three_one]
  · exact sendMessage_ok_result boundManager boundSession "sess-1" boundManager_currentSession
      rfl (by decide) "100" updatedReply
  · rw [sendMessage_boundManager_state, updateSessionState_sessionUpdate_progress]

/-- Claim C10, evaluated on the code: after a successful exchange with `finished: true`
the manager has `isComplete = true`; a further successful `sendMessage` whose response
carries no `finished` sets `sessionState.isComplete` back to `false`, with no cleanup
in between. -/
theorem sendMessage_clears_isComplete :
    (boundManager.sendMessage "ok" none (okFetch finishedReply)).state.sessionState.isComplete
        = true
      ∧ ((boundManager.sendMessage "ok" none (okFetch finishedReply)).state.sendMessage
          "obrigado" none (okFetch unfinishedReply)).result
          = .ok { success := .bool true, data := some unfinishedReply, error := none }
      ∧ ((boundManager.sendMessage "ok" none (okFetch finishedReply)).state.sendMessage
          "obrigado" none (okFetch unfinishedReply)).state.sessionState.isComplete = false := by
  have h1 := sendMessage_boundManager_state "ok" finishedReply
  have hcur : (boundManager.sendMessage "ok" none (okFetch finishedReply)).state.currentSession
      = some ((boundSession).spread (SessionManager.sessionUpdate finishedReply)) := by
    rw [h1]
    simp [SessionManager.updateSessionState, boundManager_currentSession]
  refine ⟨?_, ?_, ?_⟩
  · rw [h1]
    simp [SessionManager.updateSessionState, SessionManager.sessionUpdate, finishedReply,
      JsField.truthy]
  · exact sendMessage_ok_result _ _ "sess-1" hcur (by rfl) (by decide) "obrigado"
      unfinishedReply
  · rw [sendMessage_ok _ _ "sess-1" hcur (by rfl) (by decide)]
    simp [SessionManager.updateSessionState, SessionManager.sessionUpdate, unfinishedReply,
      JsField.truthy]

/-- A failed exchange either throws in the shared steps or yields a payload that is
not a success payload with data. -/
theorem exchange_failed {δ : Type} (fetch : FetchResult (ApiPayload δ)) (h : ExchangeFailed fetch) :
    (∃ e, exchange fetch = .error e)
      ∨ ∃ payload, exchange fetch = .ok payload ∧ (payload.success.truthy = false ∨ payload.data = none) := by
  cases fetch with
  | rejected m => exact Or.inl ⟨m, rfl⟩
  | response r =>
    simp only [ExchangeFailed] at h
    by_cases hok : r.ok = false
    · left
      exact ⟨"HTTP " ++ toString r.status ++ ": " ++ r.statusText, by simp [exchange, hok]⟩
    · have hok2 : r.ok = true := by simpa using hok
      rcases h with h | h
      · exact absurd h hok
      · cases hj : r.json with
        | error e => left; exact ⟨e, by simp [exchange, hok2, hj]⟩
        | ok payload =>
          right
          rw [hj] at h
          exact ⟨payload, by simp [exchange, hok2, hj], h⟩

/-- Claim C8: for every `SessionManager` state, every text and every optional session
id, an exchange that fails (request rejected, non-2xx status, unparsable body, or a
payload that is not a success payload with data) makes `sendMessage`, `sendCommand` and
`getSessionState` raise and leaves the manager (`currentSession` and `sessionState`)
exactly as it was. -/
theorem failed_exchange_keeps_state (self : SessionManager) (text : String)
    (sessionId : Option String) :
    (∀ fetch, ExchangeFailed fetch →
        (∃ e, (self.sendMessage text sessionId fetch).result = .error e)
          ∧ (self.sendMessage text sessionId fetch).state = self)
      ∧ (∀ fetch, ExchangeFailed fetch →
        (∃ e, (self.sendCommand text sessionId fetch).result = .error e)
          ∧ (self.sendCommand text sessionId fetch).state = self)
      ∧ (∀ fetch, ExchangeFailed fetch →
        (∃ e, (self.getSessionState sessionId fetch).result = .error e)
          ∧ (self.getSessionState sessionId fetch).state = self) := by
  refine ⟨?_, ?_, ?_⟩
  · intro fetch hf
    unfold SessionManager.sendMessage
    cases hid : resolveId sessionId self.currentSession with
    | none => exact ⟨⟨_, rfl⟩, rfl⟩
    | some id =>
      rcases exchange_failed fetch hf with ⟨e, he⟩ | ⟨payload, hp, hs | hd⟩
      · simp [he]
      · simp [hp, hs]
      · simp only [hp, hd]
        cases payload.success.truthy <;> simp
  · intro fetch hf
    unfold SessionManager.sendCommand
    cases hid : resolveId sessionId self.currentSession with
    | none => exact ⟨⟨_, rfl⟩, rfl⟩
    | some id =>
      rcases exchange_failed fetch hf with ⟨e, he⟩ | ⟨payload, hp, hs | hd⟩
      · simp [he]
      · simp [hp, hs]
      · simp only [hp, hd]
        cases payload.success.truthy <;> simp
  · intro fetch hf
    unfold SessionManager.getSessionState
    cases hid : resolveId sessionId self.currentSession with
    | none => exact ⟨⟨_, rfl⟩, rfl⟩
    | some id =>
      rcases exchange_failed fetch hf with ⟨e, he⟩ | ⟨payload, hp, hs | hd⟩
      · simp [he]
      · simp [hp, hs]
      · simp only [hp, hd]
        cases payload.success.truthy <;> simp

/-! ## `ChatManager`: the per-session history -/

/-- Pushing under a key appends to the list read under that key. -/
theorem historyGet_push_same (h : MessageHistory) (key : JsField String) (m : MessageData) :
    historyGet (historyPush h key m) key = some ((historyGet h key).getD [] ++ [m]) := by
  induction h with
  | nil => simp [historyPush, historyGet]
  | cons e rest ih =>
    obtain ⟨k, v⟩ := e
    by_cases hk : k = key
    · simp [historyPush, historyGet, hk]
    · simp [historyPush, historyGet, hk, ih]

/-- Pushing under a key leaves the lists under the other keys as they were. -/
theorem historyGet_push_other (h : MessageHistory) (key other : JsField String)
    (m : MessageData) (hne : key ≠ other) :
    historyGet (historyPush h key m) other = historyGet h other := by
  induction h with
  | nil => simp [historyPush, historyGet, hne]
  | cons e rest ih =>
    obtain ⟨k, v⟩ := e
    by_cases hk : k = key
    · subst hk
      simp [historyPush, historyGet, hne]
    · by_cases hko : k = other
      · subst hko
        simp [historyPush, historyGet, hk]
      · simp [historyPush, historyGet, hk, hko, ih]

/-- `addMessage` does not rebind the session. -/
theorem addMessage_currentSession (self : ChatManager) (m : Option MessageData) :
    (self.addMessage m).currentSession = self.currentSession := by
  unfold ChatManager.addMessage
  split
  · rfl
  · split
    · split_ifs <;> rfl
    · rfl

/-- `addMessage` leaves the history of every key other than the bound one. -/
theorem addMessage_history_other (self : ChatManager) (m : Option MessageData)
    (other : JsField String) (h : self.boundKey ≠ some other) :
    historyGet (self.addMessage m).messageHistory other
      = historyGet self.messageHistory other := by
  unfold ChatManager.addMessage
  split
  · rfl
  · split
    · split_ifs
      · rfl
      · rfl
      · cases hs : self.currentSession with
        | none => simp
        | some session =>
          simp only
          apply historyGet_push_other
          intro heq
          apply h
          simp [ChatManager.boundKey, hs, heq]
    · rfl

/-- `initialize(session)` leaves the history of every key other than the new session. -/
theorem initialize_history_other (self : ChatManager) (session : Option SessionData) (now : ℕ)
    (other : JsField String)
    (h : ∀ s, session = some s → s.sessionId.read ≠ other) :
    historyGet ( ChatManager.initialize self session now).messageHistory other
      = historyGet self.messageHistory other := by
  unfold ChatManager.initialize ChatManager.showWelcomeMessage
  have hl : ∀ c : ChatManager, c.loadSessionMessages.messageHistory = c.messageHistory
      ∧ c.loadSessionMessages.currentSession = c.currentSession := by
    intro c
    unfold ChatManager.loadSessionMessages ChatManager.clearMessages
    split
    · exact ⟨rfl, rfl⟩
    · split
      · split_ifs <;> exact ⟨rfl, rfl⟩
      · exact ⟨rfl, rfl⟩
  obtain ⟨h1, h2⟩ := hl { self with currentSession := session }
  cases session with
  | none =>
    simp only [h2]
    rw [h1]
  | some s =>
    simp only [h2]
    rw [addMessage_history_other _ _ _ (by simp [ChatManager.boundKey, h2, h s rfl]), h1]

/-- After `initialize(session)` the bound key is that of `session`. -/
theorem initialize_boundKey (self : ChatManager) (session : Option SessionData) (now : ℕ) :
    ( ChatManager.initialize self session now).boundKey = session.map fun s => s.sessionId.read := by
  unfold ChatManager.initialize ChatManager.showWelcomeMessage ChatManager.boundKey
  have h2 : ({ self with currentSession := session } : ChatManager).loadSessionMessages.currentSession
      = session := by
    unfold ChatManager.loadSessionMessages ChatManager.clearMessages
    split
    · simp_all
    · split
      · split_ifs <;> rfl
      · rfl
  cases session with
  | none => simp only [h2]
  | some s => simp only [h2]; rw [addMessage_currentSession, h2]

/-- A run that never binds `other` leaves the history of `other`, and ends not bound to it. -/
theorem run_history_other (ops : List ChatOp) (self : ChatManager) (other : JsField String)
    (h0 : self.boundKey ≠ some other)
    (hops : ∀ session now, ChatOp.bind (some session) now ∈ ops →
      session.sessionId.read ≠ other) :
    historyGet (self.run ops).messageHistory other = historyGet self.messageHistory other
      ∧ (self.run ops).boundKey ≠ some other := by
  induction ops generalizing self with
  | nil => exact ⟨rfl, h0⟩
  | cons op rest ih =>
    have hrest : ∀ session now, ChatOp.bind (some session) now ∈ rest →
        session.sessionId.read ≠ other :=
      fun session now hm => hops session now (List.mem_cons_of_mem _ hm)
    cases op with
    | bind session now =>
      have hs : ∀ s, session = some s → s.sessionId.read ≠ other := by
        intro s hs
        subst hs
        exact hops s now (List.mem_cons_self _ _)
      have hb : ( ChatManager.initialize self session now).boundKey ≠ some other := by
        rw [initialize_boundKey]
        cases session with
        | none => simp
        | some s => simpa using hs s rfl
      obtain ⟨i1, i2⟩ := ih ( ChatManager.initialize self session now) hb hrest
      exact ⟨by
        show historyGet (ChatManager.run ( ChatManager.initialize self session now) rest).messageHistory other = _
        rw [i1, initialize_history_other _ _ _ _ hs], i2⟩
    | add m =>
      have hb : (self.addMessage m).boundKey ≠ some other := by
        unfold ChatManager.boundKey
        rw [addMessage_currentSession]
        exact h0
      obtain ⟨i1, i2⟩ := ih (self.addMessage m) hb hrest
      exact ⟨by
        show historyGet ((self.addMessage m).run rest).messageHistory other = _
        rw [i1, addMessage_history_other _ _ _ h0], i2⟩

/-! ## `ChatManager`: appending and the failed round trip -/

/-- The duplicate test of the code, spelled out. -/
theorem isDuplicateBot_iff (self : ChatManager) (type content : String) :
    self.isDuplicateBot type content = true ↔
      type = "bot" ∧ ∃ lastMessage, self.messages.getLast? = some lastMessage
        ∧ lastMessage.type = some "bot" ∧ lastMessage.content = some content := by
  unfold ChatManager.isDuplicateBot
  cases h : self.messages.getLast? with
  | none => simp
  | some l => simp

/-- A duplicate is dropped: the state is unchanged. -/
theorem addMessage_drop (self : ChatManager) (md : MessageData) (type content : String)
    (ht : md.type = some type) (hc : md.content = some content)
    (hd : self.isDuplicateBot type content = true) :
    self.addMessage (some md) = self := by
  simp [ChatManager.addMessage, ht, hc, hd]

/-- A well-formed message that is no duplicate is appended to the transcript and to
the bound session history. -/
theorem addMessage_store (self : ChatManager) (md : MessageData) (type content : String)
    (session : SessionData) (hs : self.currentSession = some session)
    (ht : md.type = some type) (hc : md.content = some content) (hne : type ≠ "")
    (hd : self.isDuplicateBot type content = false) :
    self.addMessage (some md)
      = { self with
          messages := self.messages ++ [md]
          messageHistory := historyPush self.messageHistory session.sessionId.read md } := by
  simp [ChatManager.addMessage, ht, hc, hd, hne, hs]

/-- With no session bound, a well-formed message that is no duplicate is appended
to the transcript only. -/
theorem addMessage_store_unbound (self : ChatManager) (md : MessageData) (type content : String)
    (hs : self.currentSession = none)
    (ht : md.type = some type) (hc : md.content = some content) (hne : type ≠ "")
    (hd : self.isDuplicateBot type content = false) :
    self.addMessage (some md) = { self with messages := self.messages ++ [md] } := by
  simp [ChatManager.addMessage, ht, hc, hd, hne, hs]

/-- Only `bot` messages can be duplicates. -/
theorem isDuplicateBot_of_ne_bot (self : ChatManager) (type content : String)
    (h : type ≠ "bot") : self.isDuplicateBot type content = false := by
  simp [ChatManager.isDuplicateBot, h]

/-- `addMessage` returns `undefined` on every path. -/
theorem addMessageReturn_none (self : ChatManager) (m : Option MessageData) :
    self.addMessageReturn m = none := by
  unfold ChatManager.addMessageReturn
  split
  · rfl
  · split <;> rfl

/-- A failed exchange makes `sendMessage` raise. -/
theorem sendMessage_failed (sm : SessionManager) (message : String)
    (fetch : FetchResult (ApiPayload MessageReply)) (hf : ExchangeFailed fetch) :
    ∃ e, (sm.sendMessage message none fetch).result = .error e := by
  unfold SessionManager.sendMessage
  cases hid : resolveId none sm.currentSession with
  | none => exact ⟨_, rfl⟩
  | some id =>
    rcases exchange_failed fetch hf with ⟨e, he⟩ | ⟨payload, hp, hs | hd⟩
    · simp [he]
    · simp [hp, hs]
    · simp only [hp, hd]
      cases payload.success.truthy <;> simp

/-- The chat state after a failed round trip: the user message and the system error
message have been appended, to the transcript and to the bound session's history. -/
theorem handleSendMessage_failed (w : World) (message : String) (now later : ℕ)
    (fetch : FetchResult (ApiPayload MessageReply)) (session : SessionData)
    (hs : w.chat.currentSession = some session) (hm : message ≠ "")
    (hf : ExchangeFailed fetch) :
    ∃ e : String,
      (ChatManager.handleSendMessage w message now later fetch).1.chat
        = { w.chat with
            isTyping := false
            messages := w.chat.messages ++
              [{ type := some "user", content := some message, timestamp := now },
               { type := some "system", content := some ("Erro ao enviar mensagem: " ++ e),
                 timestamp := later }]
            messageHistory :=
              historyPush
                (historyPush w.chat.messageHistory session.sessionId.read
                  { type := some "user", content := some message, timestamp := now })
                session.sessionId.read
                { type := some "system", content := some ("Erro ao enviar mensagem: " ++ e),
                  timestamp := later } } := by
  have huser : w.chat.addMessage
      (some { type := some "user", content := some message, timestamp := now })
      = { w.chat with
          messages := w.chat.messages ++
            [{ type := some "user", content := some message, timestamp := now }]
          messageHistory := historyPush w.chat.messageHistory session.sessionId.read
            { type := some "user", content := some message, timestamp := now } } := by
    rw [addMessage_store _ _ "user" message session hs rfl rfl (by decide)
      (isDuplicateBot_of_ne_bot _ _ _ (by decide))]
  have hfail : ∀ (c : ChatManager) (e : String), c.currentSession = some session →
      c.sendFailed e later
        = { c with
            isTyping := false
            messages := c.messages ++
              [{ type := some "system", content := some ("Erro ao enviar mensagem: " ++ e),
                 timestamp := later }]
            messageHistory := historyPush c.messageHistory session.sessionId.read
              { type := some "system", content := some ("Erro ao enviar mensagem: " ++ e),
                timestamp := later } } := by
    intro c e hc
    unfold ChatManager.sendFailed
    rw [addMessage_store { c with isTyping := false }
      { type := some "system", content := some ("Erro ao enviar mensagem: " ++ e),
        timestamp := later }
      "system" ("Erro ao enviar mensagem: " ++ e) session hc rfl rfl
      (by decide) (isDuplicateBot_of_ne_bot _ _ _ (by decide))]
  unfold ChatManager.handleSendMessage
  simp only [hs, hm, if_false]
  cases hsm : w.sessionManager with
  | none =>
    refine ⟨"Session Manager não disponível", ?_⟩
    simp only [huser]
    rw [hfail _ _ (by simp [hs])]
    simp [hs]
  | some sm =>
    simp only [huser]
    split
    · rename_i e he
      refine ⟨e, ?_⟩
      rw [hfail _ _ (by simp [hs])]
      simp [hs]
    · rename_i response hr
      obtain ⟨e, he⟩ := sendMessage_failed _ message fetch hf
      rw [he] at hr
      cases hr

/-! ## Claims on progress and on the transcript -/

/-- Claim C1, counterexample: for one center with 40 routine items of which 23 hold a
positive amount, `calculateProgress` returns percentage `57`, whereas round half up of
`100 * 23 / 40 = 57.5` is `58`: the double `(23 / 40) * 100` is `57.49999999999999`. -/
theorem calculateProgress_percentage_counterexample :
    SessionManager.calculateProgress (some (sessionWithCenters [centerTie])) = ⟨40, 23, 57⟩
      ∧ specTotalFields [centerTie] = 40
      ∧ specCompletedFields [centerTie] = 23
      ∧ specPercentage 23 40 = 58
      ∧ (SessionManager.calculateProgress (some (sessionWithCenters [centerTie]))).percentage
          ≠ specPercentage (specCompletedFields [centerTie]) (specTotalFields [centerTie]) := by
  have h : SessionManager.calculateProgress (some (sessionWithCenters [centerTie]))
      = ⟨40, 23, 57⟩ := by
    rw [calculateProgress_centers _ [centerTie] rfl, spec_tie.1, spec_tie.2, progressOf_tie]
  refine ⟨h, spec_tie.1, spec_tie.2, specPercentage_tie, ?_⟩
  rw [h, spec_tie.1, spec_tie.2, specPercentage_tie]
  decide

/-- Claim C1, amended: for every session data whose `costCenters` is a list,
`calculateProgress` returns `totalFields` = the number of routine, employee and
equipment items of all centers (a missing list counting as empty) and `completedFields`
= the number of those items whose amount field is strictly greater than zero; the
percentage is `0` when `totalFields` is `0`, and for up to `2^44` fields it is an
integer nearest to `100 * completedFields / totalFields` (so it equals round half up of
that quotient unless the quotient lies exactly half-way between two integers).  One
center with three routine items of amount `0` gives `{3, 0, 0}`, and with one amount
equal to `100` gives `{3, 1, 33}`. -/
theorem calculateProgress_counts_and_percentage (sd : SessionData) (centers : List CostCenter)
    (h : sd.costCenters = .val centers) :
    (SessionManager.calculateProgress (some sd)).totalFields = specTotalFields centers
      ∧ (SessionManager.calculateProgress (some sd)).completedFields
          = specCompletedFields centers
      ∧ (specTotalFields centers = 0 →
          (SessionManager.calculateProgress (some sd)).percentage = 0)
      ∧ (specTotalFields centers ≤ 2 ^ 44 →
          2 * |(specTotalFields centers : ℤ) * (SessionManager.calculateProgress (some sd)).percentage
              - 100 * (specCompletedFields centers : ℤ)| ≤ (specTotalFields centers : ℤ))
      ∧ (specTotalFields centers ≤ 2 ^ 44 →
          (200 * specCompletedFields centers) % (2 * specTotalFields centers)
              ≠ specTotalFields centers →
          (SessionManager.calculateProgress (some sd)).percentage
            = specPercentage (specCompletedFields centers) (specTotalFields centers))
      ∧ SessionManager.calculateProgress (some (sessionWithCenters [centerThreeZero]))
          = ⟨3, 0, 0⟩
      ∧ SessionManager.calculateProgress (some (sessionWithCenters [centerOneFilled]))
          = ⟨3, 1, 33⟩ := by
  rw [calculateProgress_centers sd centers h]
  have hle := specCompletedFields_le centers
  refine ⟨rfl, rfl, ?_, ?_, ?_, ?_, ?_⟩
  · intro h0
    rw [h0, progressOf_zero_left]
  · intro hb
    rcases Nat.eq_zero_or_pos (specTotalFields centers) with h0 | hpos
    · have hc0 : specCompletedFields centers = 0 := by omega
      rw [h0, hc0, progressOf_zero_left]
      simp
    · exact progressOf_percentage_near _ _ hpos hle hb
  · intro hb htie
    rcases Nat.eq_zero_or_pos (specTotalFields centers) with h0 | hpos
    · have hc0 : specCompletedFields centers = 0 := by omega
      rw [h0, hc0] at htie
      simp at htie
    · exact progressOf_percentage_eq_spec _ _ hpos hle hb htie
  · rw [calculateProgress_centers _ [centerThreeZero] rfl, spec_threeZero.1, spec_threeZero.2,
      progressOf_three_zero]
  · rw [calculateProgress_centers _ [centerOneFilled] rfl, spec_oneFilled.1, spec_oneFilled.2,
      progressOf_three_one]

/-- Witness for C1: the scenario center with one amount set to `100`. -/
theorem calculateProgress_counts_and_percentage_witness :
    (sessionWithCenters [centerOneFilled]).costCenters = .val [centerOneFilled]
      ∧ (SessionManager.calculateProgress
          (some (sessionWithCenters [centerOneFilled]))).totalFields
          = specTotalFields [centerOneFilled]
      ∧ (SessionManager.calculateProgress
          (some (sessionWithCenters [centerOneFilled]))).percentage
          = specPercentage (specCompletedFields [centerOneFilled])
              (specTotalFields [centerOneFilled]) := by
  have w := calculateProgress_counts_and_percentage (sessionWithCenters [centerOneFilled])
    [centerOneFilled] rfl
  refine ⟨rfl, w.1, w.2.2.2.2.1 ?_ ?_⟩
  · rw [spec_oneFilled.1]; norm_num
  · rw [spec_oneFilled.1, spec_oneFilled.2]; decide

/-- Claim C2: for every session data (including none, and data without `costCenters`),
the progress returned by `calculateProgress` satisfies
`0 ≤ completedFields ≤ totalFields` and `0 ≤ percentage ≤ 100`. -/
theorem calculateProgress_bounds (sessionData : Option SessionData) :
    0 ≤ (SessionManager.calculateProgress sessionData).completedFields
      ∧ (SessionManager.calculateProgress sessionData).completedFields
          ≤ (SessionManager.calculateProgress sessionData).totalFields
      ∧ 0 ≤ (SessionManager.calculateProgress sessionData).percentage
      ∧ (SessionManager.calculateProgress sessionData).percentage ≤ 100 := by
  cases sessionData with
  | none => simp [SessionManager.calculateProgress]
  | some sd =>
    cases hc : sd.costCenters with
    | absent => simp [SessionManager.calculateProgress, hc, JsField.toOption]
    | undefined => simp [SessionManager.calculateProgress, hc, JsField.toOption]
    | null => simp [SessionManager.calculateProgress, hc, JsField.toOption]
    | val centers =>
      rw [calculateProgress_centers sd centers hc]
      have hle := specCompletedFields_le centers
      obtain ⟨p0, p1⟩ := progressOf_percentage_bounds _ _ hle
      exact ⟨Nat.zero_le _, hle, p0, p1⟩

/-- Claim C5: when the last message of the transcript is a `bot` message with content
`c`, `addMessage` of a `bot` message with content `c` leaves the whole chat state
unchanged: `messages` and every list of `messageHistory` are as before. -/
theorem addMessage_duplicate_bot_noop (self : ChatManager) (lastMessage : MessageData)
    (content : String) (timestamp : ℕ)
    (h1 : self.messages.getLast? = some lastMessage)
    (h2 : lastMessage.type = some "bot") (h3 : lastMessage.content = some content) :
    self.addMessage (some { type := some "bot", content := some content, timestamp := timestamp })
      = self :=
  addMessage_drop self _ "bot" content rfl rfl
    ((isDuplicateBot_iff self "bot" content).mpr ⟨rfl, lastMessage, h1, h2, h3⟩)

/-- Witness for C5: repeating the welcome message of the bound chat. -/
theorem addMessage_duplicate_bot_noop_witness :
    boundChat.messages.getLast? = some welcomeMessage
      ∧ boundChat.addMessage
          (some { type := some "bot", content := some "Qual o gasto com Marketing?",
                  timestamp := 7 }) = boundChat :=
  ⟨rfl, addMessage_duplicate_bot_noop boundChat welcomeMessage "Qual o gasto com Marketing?" 7
    rfl rfl rfl⟩

/-- Claim C6, counterexample: the transcript ends with the user message `ok`; adding
the `bot` message `ok`, whose content equals that of the immediately preceding
message, is not dropped but appended, and the call does not report `false`. -/
theorem addMessage_bot_after_user_counterexample :
    chatAfterUser.messages.getLast?
        = some { type := some "user", content := some "ok", timestamp := 1 }
      ∧ (chatAfterUser.addMessage
          (some { type := some "bot", content := some "ok", timestamp := 2 })).messages
          = chatAfterUser.messages ++ [{ type := some "bot", content := some "ok", timestamp := 2 }]
      ∧ (chatAfterUser.addMessage
          (some { type := some "bot", content := some "ok", timestamp := 2 })).messages
          ≠ chatAfterUser.messages
      ∧ chatAfterUser.addMessageReturn
          (some { type := some "bot", content := some "ok", timestamp := 2 }) ≠ some false := by
  refine ⟨by rfl, by rfl, by decide, by decide⟩

/-- Claim C6, amended: for every transcript and every well-formed message (non-empty
type, content present), `addMessage` drops the message if and only if it is a `bot`
message and the immediately preceding message is also a `bot` message with exactly the
same content; in every other case it appends exactly that message at the end.  In
either case the call returns `undefined`, not a boolean. -/
theorem addMessage_drops_iff_duplicate_bot (self : ChatManager) (md : MessageData)
    (type content : String) (ht : md.type = some type) (hne : type ≠ "")
    (hc : md.content = some content) :
    (self.DuplicateBot type content → self.addMessage (some md) = self)
      ∧ (¬ self.DuplicateBot type content →
          (self.addMessage (some md)).messages = self.messages ++ [md])
      ∧ ((self.addMessage (some md)).messages = self.messages ↔ self.DuplicateBot type content)
      ∧ self.addMessageReturn (some md) = none := by
  have hiff := isDuplicateBot_iff self type content
  have hdrop : self.DuplicateBot type content → self.addMessage (some md) = self :=
    fun hd => addMessage_drop self md type content ht hc (hiff.mpr hd)
  have hstore : ¬ self.DuplicateBot type content →
      (self.addMessage (some md)).messages = self.messages ++ [md] := by
    intro hd
    have hf : self.isDuplicateBot type content = false := by
      cases hb : self.isDuplicateBot type content with
      | false => rfl
      | true => exact absurd (hiff.mp hb) hd
    cases hs : self.currentSession with
    | none => rw [addMessage_store_unbound self md type content hs ht hc hne hf]
    | some session => rw [addMessage_store self md type content session hs ht hc hne hf]
  refine ⟨hdrop, hstore, ⟨?_, fun hd => by rw [hdrop hd]⟩, addMessageReturn_none _ _⟩
  intro heq
  by_contra hd
  rw [hstore hd] at heq
  have := congrArg List.length heq
  simp at this

/-- Witness for C6: a `bot` message after a user message with the same content. -/
theorem addMessage_drops_iff_duplicate_bot_witness :
    ¬ chatAfterUser.DuplicateBot "bot" "ok"
      ∧ (chatAfterUser.addMessage
          (some { type := some "bot", content := some "ok", timestamp := 2 })).messages
          = chatAfterUser.messages ++ [{ type := some "bot", content := some "ok", timestamp := 2 }] := by
  have hnd : ¬ chatAfterUser.DuplicateBot "bot" "ok" := by
    rintro ⟨-, l, hl, ht, -⟩
    have : l = { type := some "user", content := some "ok", timestamp := 1 } := by
      have h2 : chatAfterUser.messages.getLast?
          = some { type := some "user", content := some "ok", timestamp := 1 } := by rfl
      rw [h2] at hl
      exact (Option.some.inj hl).symm
    rw [this] at ht
    simp at ht
  exact ⟨hnd, (addMessage_drops_iff_duplicate_bot chatAfterUser
    { type := some "bot", content := some "ok", timestamp := 2 } "bot" "ok" rfl (by decide)
    rfl).2.1 hnd⟩

/-- Claim C7: while the bound session's id differs from `other` (or no session is
bound), `addMessage` leaves the history list keyed by `other` unchanged, whatever the
message; and so does every sequence of `initialize` / `addMessage` calls that never
binds a session with id `other`. -/
theorem addMessage_history_isolated (self : ChatManager) (other : JsField String)
    (h : self.boundKey ≠ some other) :
    (∀ messageData, historyGet (self.addMessage messageData).messageHistory other
        = historyGet self.messageHistory other)
      ∧ (∀ ops : List ChatOp,
          (∀ session now, ChatOp.bind (some session) now ∈ ops →
            session.sessionId.read ≠ other) →
          historyGet (self.run ops).messageHistory other
            = historyGet self.messageHistory other) :=
  ⟨fun m => addMessage_history_other self m other h,
    fun ops hops => (run_history_other ops self other h hops).1⟩

/-- Witness for C7: a message added while `A` is bound leaves the history of `B`. -/
theorem addMessage_history_isolated_witness :
    chatTwoSessions.boundKey ≠ some (.val "B")
      ∧ historyGet (chatTwoSessions.addMessage
          (some { type := some "user", content := some "oi", timestamp := 3 })).messageHistory
          (.val "B") = historyGet chatTwoSessions.messageHistory (.val "B") :=
  ⟨by decide, (addMessage_history_isolated chatTwoSessions (.val "B") (by decide)).1 _⟩

/-! ## Claims on failed exchanges -/

/-- Witness for C8: a 500 response to `sendMessage` on the bound manager. -/
theorem failed_exchange_keeps_state_witness :
    ExchangeFailed (serverErrorFetch : FetchResult (ApiPayload MessageReply))
      ∧ (∃ e, (boundManager.sendMessage "150" none serverErrorFetch).result = .error e)
      ∧ (boundManager.sendMessage "150" none serverErrorFetch).state = boundManager :=
  ⟨Or.inl rfl,
    (failed_exchange_keeps_state boundManager "150" none).1 serverErrorFetch (Or.inl rfl)⟩

/-- On the bound page the managers already agree on the session id. -/
theorem syncManager_boundWorld (c : ChatManager) (h : c.currentSession = some boundSession) :
    c.syncManager boundManager = boundManager := by
  simp [ChatManager.syncManager, h, boundManager_currentSession]

/-- A 500 response makes the bound manager raise `HTTP 500: Internal Server Error`. -/
theorem sendMessage_boundManager_serverError (message : String) :
    (boundManager.sendMessage message none serverErrorFetch).result
      = .error "HTTP 500: Internal Server Error" := by
  simp only [SessionManager.sendMessage,
    resolveId_boundSession boundSession boundManager boundManager_currentSession "sess-1" rfl
      (by decide), exchange, serverErrorFetch]
  rfl

/-- The transcript of the bound page after a round trip answered by a 500 response. -/
theorem handleSendMessage_boundWorld_serverError :
    (ChatManager.handleSendMessage boundWorld "150" 1 2 serverErrorFetch).1.chat.messages
      = [welcomeMessage,
         { type := some "user", content := some "150", timestamp := 1 },
         { type := some "system"
           content := some "Erro ao enviar mensagem: HTTP 500: Internal Server Error"
           timestamp := 2 }] := by
  rfl

/-- Claim C9, counterexample: with a bound session and the utterance `150`, the round
trip fails with a 500 response (`sendMessage` raises `HTTP 500: Internal Server Error`);
after `handleSendMessage` the transcript holds the welcome message, the user message
and a system error message, so it differs from the transcript before the call. -/
theorem handleSendMessage_failure_counterexample :
    ExchangeFailed (serverErrorFetch : FetchResult (ApiPayload MessageReply))
      ∧ (boundManager.sendMessage "150" none serverErrorFetch).result
          = .error "HTTP 500: Internal Server Error"
      ∧ boundWorld.chat.messages = [welcomeMessage]
      ∧ (ChatManager.handleSendMessage boundWorld "150" 1 2 serverErrorFetch).1.chat.messages
          = [welcomeMessage,
             { type := some "user", content := some "150", timestamp := 1 },
             { type := some "system"
               content := some "Erro ao enviar mensagem: HTTP 500: Internal Server Error"
               timestamp := 2 }]
      ∧ (ChatManager.handleSendMessage boundWorld "150" 1 2 serverErrorFetch).1.chat.messages
          ≠ boundWorld.chat.messages := by
  refine ⟨Or.inl rfl, sendMessage_boundManager_serverError _, rfl,
    handleSendMessage_boundWorld_serverError, ?_⟩
  rw [handleSendMessage_boundWorld_serverError]
  decide

/-- Claim C9, amended: for every state with a bound session and every non-empty
utterance, when the exchange fails, the transcript after `handleSendMessage` is the
transcript before the call followed by exactly two messages, the user message and a
system message `Erro ao enviar mensagem: <error>`; the same two messages are appended
to the bound session's history, every other history list and the bound session are
unchanged. -/
theorem handleSendMessage_failure_transcript (w : World) (message : String) (now later : ℕ)
    (fetch : FetchResult (ApiPayload MessageReply)) (session : SessionData)
    (hs : w.chat.currentSession = some session) (hm : message ≠ "")
    (hf : ExchangeFailed fetch) :
    ∃ e : String,
      (ChatManager.handleSendMessage w message now later fetch).1.chat.messages
          = w.chat.messages ++
            [{ type := some "user", content := some message, timestamp := now },
             { type := some "system", content := some ("Erro ao enviar mensagem: " ++ e),
               timestamp := later }]
        ∧ historyGet (ChatManager.handleSendMessage w message now later fetch).1.chat.messageHistory
            session.sessionId.read
          = some ((historyGet w.chat.messageHistory session.sessionId.read).getD [] ++
            [{ type := some "user", content := some message, timestamp := now },
             { type := some "system", content := some ("Erro ao enviar mensagem: " ++ e),
               timestamp := later }])
        ∧ (∀ other, other ≠ session.sessionId.read →
            historyGet (ChatManager.handleSendMessage w message now later fetch).1.chat.messageHistory
              other = historyGet w.chat.messageHistory other)
        ∧ (ChatManager.handleSendMessage w message now later fetch).1.chat.currentSession
            = w.chat.currentSession := by
  obtain ⟨e, he⟩ := handleSendMessage_failed w message now later fetch session hs hm hf
  refine ⟨e, ?_⟩
  rw [he]
  refine ⟨rfl, ?_, ?_, rfl⟩
  · simp only [historyGet_push_same, Option.getD_some, List.append_assoc, List.singleton_append]
  · intro other hne
    simp only
    rw [historyGet_push_other _ _ _ _ (Ne.symm hne), historyGet_push_other _ _ _ _ (Ne.symm hne)]

/-- Witness for C9: the bound page and a 500 response. -/
theorem handleSendMessage_failure_transcript_witness :
    ∃ e : String,
      (ChatManager.handleSendMessage boundWorld "150" 1 2 serverErrorFetch).1.chat.messages
          = boundWorld.chat.messages ++
            [{ type := some "user", content := some "150", timestamp := 1 },
             { type := some "system", content := some ("Erro ao enviar mensagem: " ++ e),
               timestamp := 2 }] := by
  obtain ⟨e, h, -⟩ := handleSendMessage_failure_transcript boundWorld "150" 1 2
    serverErrorFetch boundSession rfl (by decide) (Or.inl rfl)
  exact ⟨e, h⟩

/-! ## The consistency checks -/

/-- Every character of a numeric utterance is a digit or the dot. -/
theorem isNumericUtterance_chars (s : String) (h : isNumericUtterance s = true) :
    ∀ c ∈ s.data, c.isDigit = true ∨ c = '.' := by
  intro c hc
  rw [← List.takeWhile_append_dropWhile Char.isDigit s.data, List.mem_append] at hc
  rcases hc with hc | hc
  · exact Or.inl (List.mem_takeWhile_imp hc)
  · unfold isNumericUtterance at h
    simp only [Bool.and_eq_true] at h
    obtain ⟨-, h2⟩ := h
    cases hd : s.data.dropWhile Char.isDigit with
    | nil => rw [hd] at hc; cases hc
    | cons c0 frac =>
      rw [hd] at hc h2
      simp only [Bool.and_eq_true, decide_eq_true_eq, List.all_eq_true] at h2
      rcases List.mem_cons.mp hc with rfl | hm
      · exact Or.inr h2.1.1
      · exact Or.inl (h2.2 c hm)

/-- A text that contains `sub` contains the first character of `sub`. -/
theorem jsIncludes_head (s : String) (c : Char) (rest : List Char)
    (h : jsIncludes s ⟨c :: rest⟩ = true) : c ∈ s.data := by
  unfold jsIncludes at h
  have hin : (c :: rest) <:+: s.data := by simpa using h
  exact hin.subset (List.mem_cons_self _ _)

/-- A numeric utterance contains neither `confirmo` nor `próximo`. -/
theorem numeric_not_confirmation (s : String) (h : isNumericUtterance s = true) :
    jsIncludes s "confirmo" = false ∧ jsIncludes s "próximo" = false := by
  have hch := isNumericUtterance_chars s h
  constructor
  · by_contra hc
    have hc2 : jsIncludes s ⟨'c' :: "onfirmo".data⟩ = true := by simpa using hc
    rcases hch 'c' (jsIncludes_head s 'c' _ hc2) with h1 | h1
    · exact absurd h1 (by decide)
    · exact absurd h1 (by decide)
  · by_contra hc
    have hc2 : jsIncludes s ⟨'p' :: "róximo".data⟩ = true := by simpa using hc
    rcases hch 'p' (jsIncludes_head s 'p' _ hc2) with h1 | h1
    · exact absurd h1 (by decide)
    · exact absurd h1 (by decide)

/-! ## Claims on the consistency checks and on the missing session id -/

/-- Claim C11: for every numeric utterance and every exchange result whose bot text
contains `informe um valor numérico`, `validateResponseConsistency` logs exactly one
contradiction, the numeric stuck-loop one: the first check fires, the
confirmation/advance check does not (so no recovery message is added either). -/
theorem validateResponseConsistency_numeric_loop (self : ChatManager) (userMessage : String)
    (responseData : MessageReply) (botText : String) (now : ℕ)
    (hnum : isNumericUtterance userMessage = true)
    (hbot : responseData.botMessage = some botText)
    (hask : jsIncludes botText "informe um valor numérico" = true) :
    numericLoopCheck userMessage responseData = true
      ∧ confirmationLoopCheck userMessage responseData = false
      ∧ (self.validateResponseConsistency userMessage responseData now).2.filter
          Finding.isContradiction = [Finding.numericLoop]
      ∧ (self.validateResponseConsistency userMessage responseData now).1 = self := by
  obtain ⟨hc1, hc2⟩ := numeric_not_confirmation userMessage hnum
  have h1 : numericLoopCheck userMessage responseData = true := by
    simp [numericLoopCheck, hnum, hbot, hask]
  have h2 : confirmationLoopCheck userMessage responseData = false := by
    simp [confirmationLoopCheck, hc1, hc2]
  refine ⟨h1, h2, ?_, ?_⟩
  · unfold ChatManager.validateResponseConsistency
    simp only [h1, h2, if_true, Bool.false_eq_true, if_false, List.append_nil]
    split_ifs <;> simp [Finding.isContradiction]
  · unfold ChatManager.validateResponseConsistency
    simp [h2]

/-- Witness for C11: the utterance `150` answered by a prompt that asks for a number. -/
theorem validateResponseConsistency_numeric_loop_witness :
    isNumericUtterance "150" = true
      ∧ (boundChat.validateResponseConsistency "150" askAgainReply 2).2.filter
          Finding.isContradiction = [Finding.numericLoop] :=
  ⟨by decide,
    (validateResponseConsistency_numeric_loop boundChat "150" askAgainReply
      "Por favor, informe um valor numérico para Marketing" 2 (by decide) rfl
      (by decide)).2.2.1⟩

/-- Without a session id to act on, no id is resolved. -/
theorem resolveId_none_of_hasNoSessionId (self : SessionManager)
    (h : self.HasNoSessionId) : resolveId none self.currentSession = none := by
  unfold resolveId
  cases hs : self.currentSession with
  | none => rfl
  | some s =>
    cases hid : s.sessionId with
    | absent => simp [JsField.toOption, hid]
    | undefined => simp [JsField.toOption, hid]
    | null => simp [JsField.toOption, hid]
    | val id =>
      have := h s id hs hid
      subst this
      simp [JsField.toOption, hid, Option.filter]

/-- Claim C12: for every manager with no bound session id and no explicit `sessionId`
argument, `sendMessage`, `sendCommand`, `getSessionState` and `finalizeCostCenter` each
raise `Session ID não fornecido`, issue no network call whatever the network would
answer, and leave the manager (`currentSession` and `sessionState`) unchanged. -/
theorem missing_session_id_rejected (self : SessionManager) (h : self.HasNoSessionId)
    (text : String) (confirm : Bool) :
    (∀ fetch, (self.sendMessage text none fetch).result = .error "Session ID não fornecido"
        ∧ (self.sendMessage text none fetch).calls = []
        ∧ (self.sendMessage text none fetch).state = self)
      ∧ (∀ fetch, (self.sendCommand text none fetch).result = .error "Session ID não fornecido"
        ∧ (self.sendCommand text none fetch).calls = []
        ∧ (self.sendCommand text none fetch).state = self)
      ∧ (∀ fetch, (self.getSessionState none fetch).result = .error "Session ID não fornecido"
        ∧ (self.getSessionState none fetch).calls = []
        ∧ (self.getSessionState none fetch).state = self)
      ∧ (∀ fetch,
        (self.finalizeCostCenter confirm none fetch).result = .error "Session ID não fornecido"
        ∧ (self.finalizeCostCenter confirm none fetch).calls = []
        ∧ (self.finalizeCostCenter confirm none fetch).state = self) := by
  have hr := resolveId_none_of_hasNoSessionId self h
  refine ⟨fun fetch => ?_, fun fetch => ?_, fun fetch => ?_, fun fetch => ?_⟩
  · simp [SessionManager.sendMessage, hr]
  · simp [SessionManager.sendCommand, hr]
  · simp [SessionManager.getSessionState, hr]
  · simp [SessionManager.finalizeCostCenter, hr]

/-- Witness for C12: a freshly constructed manager asked to send a message. -/
theorem missing_session_id_rejected_witness :
    SessionManager.new.HasNoSessionId
      ∧ (SessionManager.new.sendMessage "150" none (okFetch plainReply)).result
          = .error "Session ID não fornecido"
      ∧ (SessionManager.new.sendMessage "150" none (okFetch plainReply)).calls = [] := by
  have h : SessionManager.new.HasNoSessionId := by
    intro s id hs
    simp [SessionManager.new] at hs
  have w := (missing_session_id_rejected SessionManager.new h "150" true).1 (okFetch plainReply)
  exact ⟨h, w.1, w.2.1⟩

/-! ## Claims on the outcome of an exchange -/

/-- The shared steps on a response: a non-2xx status throws, a 2xx status yields the
parsed body. -/
theorem exchange_response {β : Type} (r : HttpResponse β) :
    (r.ok = false → ∃ e, exchange (.response r) = .error e)
      ∧ (r.ok = true → exchange (.response r) = r.json) := by
  constructor
  · intro h
    exact ⟨"HTTP " ++ toString r.status ++ ": " ++ r.statusText, by simp [exchange, h]⟩
  · intro h
    simp [exchange, h]

/-- What `sendMessage` does with a response, case by case. -/
theorem sendMessage_response (self : SessionManager) (text : String)
    (sessionId : Option String) (r : HttpResponse (ApiPayload MessageReply)) :
    (r.ok = false → ∃ e, (self.sendMessage text sessionId (.response r)).result = .error e)
      ∧ (∀ payload, r.json = .ok payload →
          payload.success.truthy = false ∨ payload.data = none →
          ∃ e, (self.sendMessage text sessionId (.response r)).result = .error e)
      ∧ (∀ payload, (self.sendMessage text sessionId (.response r)).result = .ok payload →
          r.ok = true ∧ r.json = .ok payload ∧ payload.success.truthy = true
            ∧ payload.data.isSome = true)
      ∧ (∀ payload, (resolveId sessionId self.currentSession).isSome = true → r.ok = true →
          r.json = .ok payload → payload.success.truthy = true → payload.data.isSome = true →
          (self.sendMessage text sessionId (.response r)).result = .ok payload) := by
  obtain ⟨e1, e2⟩ := exchange_response r
  unfold SessionManager.sendMessage
  cases hid : resolveId sessionId self.currentSession with
  | none =>
    refine ⟨fun _ => ⟨_, rfl⟩, fun _ _ _ => ⟨_, rfl⟩, fun p hp => by simp at hp,
      fun p h => by simp at h⟩
  | some id =>
    cases hok : r.ok with
    | false =>
      obtain ⟨e, he⟩ := e1 hok
      refine ⟨fun _ => ?_, fun _ _ _ => ?_, fun p hp => ?_, fun p _ h => by simp at h⟩
      · simp [he]
      · simp [he]
      · simp [he] at hp
    | true =>
      have hj := e2 hok
      simp only [hj]
      cases hjs : r.json with
      | error e =>
        refine ⟨fun h => by simp at h, fun p hp => by simp at hp, fun p hp => by simp at hp,
          fun p _ _ hp => by simp at hp⟩
      | ok body =>
        simp only
        cases ht : body.success.truthy <;> cases hd : body.data
        all_goals
          refine ⟨fun h => by simp at h, fun p hp hf => ?_, fun p hp => ?_,
            fun p _ _ hp ht2 hd2 => ?_⟩
        all_goals first
          | (cases hp; simp_all)
          | simp_all

/-- What `sendCommand` does with a response, case by case. -/
theorem sendCommand_response (self : SessionManager) (text : String)
    (sessionId : Option String) (r : HttpResponse (ApiPayload CommandReply)) :
    (r.ok = false → ∃ e, (self.sendCommand text sessionId (.response r)).result = .error e)
      ∧ (∀ payload, r.json = .ok payload →
          payload.success.truthy = false ∨ payload.data = none →
          ∃ e, (self.sendCommand text sessionId (.response r)).result = .error e)
      ∧ (∀ payload, (self.sendCommand text sessionId (.response r)).result = .ok payload →
          r.ok = true ∧ r.json = .ok payload ∧ payload.success.truthy = true
            ∧ payload.data.isSome = true)
      ∧ (∀ payload, (resolveId sessionId self.currentSession).isSome = true → r.ok = true →
          r.json = .ok payload → payload.success.truthy = true → payload.data.isSome = true →
          (self.sendCommand text sessionId (.response r)).result = .ok payload) := by
  obtain ⟨e1, e2⟩ := exchange_response r
  unfold SessionManager.sendCommand
  cases hid : resolveId sessionId self.currentSession with
  | none =>
    refine ⟨fun _ => ⟨_, rfl⟩, fun _ _ _ => ⟨_, rfl⟩, fun p hp => by simp at hp,
      fun p h => by simp at h⟩
  | some id =>
    cases hok : r.ok with
    | false =>
      obtain ⟨e, he⟩ := e1 hok
      refine ⟨fun _ => ?_, fun _ _ _ => ?_, fun p hp => ?_, fun p _ h => by simp at h⟩
      · simp [he]
      · simp [he]
      · simp [he] at hp
    | true =>
      have hj := e2 hok
      simp only [hj]
      cases hjs : r.json with
      | error e =>
        refine ⟨fun h => by simp at h, fun p hp => by simp at hp, fun p hp => by simp at hp,
          fun p _ _ hp => by simp at hp⟩
      | ok body =>
        simp only
        cases ht : body.success.truthy <;> cases hd : body.data
        all_goals
          refine ⟨fun h => by simp at h, fun p hp hf => ?_, fun p hp => ?_,
            fun p _ _ hp ht2 hd2 => ?_⟩
        all_goals first
          | (cases hp; simp_all)
          | simp_all


/-- Claim C13, counterexample: a 200 response whose payload has `success: 1` and carries
`data` does not satisfy `success === true`, yet `sendMessage` and `sendCommand` return
the payload normally. -/
theorem truthy_success_counterexample :
    ¬ successIsTrue ({ success := .number 1, data := some plainReply, error := none } :
        ApiPayload MessageReply)
      ∧ (boundManager.sendMessage "100" none (truthyFetch plainReply)).result
          = .ok { success := .number 1, data := some plainReply, error := none }
      ∧ (boundManager.sendCommand "mostrar resumo" none
          (truthyFetch ({ result := some "Resumo", botMessage := none } : CommandReply))).result
          = .ok { success := .number 1
                  data := some { result := some "Resumo", botMessage := none }
                  error := none } := by
  have hid := resolveId_boundSession boundSession boundManager boundManager_currentSession
    "sess-1" rfl (by decide)
  have ht : (JsValue.number 1).truthy = true := bne_iff_ne.mpr one_ne_zero
  refine ⟨by simp [successIsTrue], ?_, ?_⟩
  · simp [SessionManager.sendMessage, hid, exchange, truthyFetch, ht]
  · simp [SessionManager.sendCommand, hid, exchange, truthyFetch, ht]

/-- Claim C13, amended: for every response to `sendMessage` or `sendCommand`, the
operation raises whenever the transport status is not 2xx, and also whenever the
payload's `success` is falsy or its `data` is missing, whatever the status; it returns
normally only when the status is 2xx, `success` is truthy and `data` is present, and
then (a session id being available) it returns that payload. -/
theorem exchange_outcome_by_response (self : SessionManager) (text : String)
    (sessionId : Option String) :
    (∀ r : HttpResponse (ApiPayload MessageReply),
      (r.ok = false → ∃ e, (self.sendMessage text sessionId (.response r)).result = .error e)
      ∧ (∀ payload, r.json = .ok payload →
          payload.success.truthy = false ∨ payload.data = none →
          ∃ e, (self.sendMessage text sessionId (.response r)).result = .error e)
      ∧ (∀ payload, (self.sendMessage text sessionId (.response r)).result = .ok payload →
          r.ok = true ∧ r.json = .ok payload ∧ payload.success.truthy = true
            ∧ payload.data.isSome = true)
      ∧ (∀ payload, (resolveId sessionId self.currentSession).isSome = true → r.ok = true →
          r.json = .ok payload → payload.success.truthy = true → payload.data.isSome = true →
          (self.sendMessage text sessionId (.response r)).result = .ok payload))
    ∧ (∀ r : HttpResponse (ApiPayload CommandReply),
      (r.ok = false → ∃ e, (self.sendCommand text sessionId (.response r)).result = .error e)
      ∧ (∀ payload, r.json = .ok payload →
          payload.success.truthy = false ∨ payload.data = none →
          ∃ e, (self.sendCommand text sessionId (.response r)).result = .error e)
      ∧ (∀ payload, (self.sendCommand text sessionId (.response r)).result = .ok payload →
          r.ok = true ∧ r.json = .ok payload ∧ payload.success.truthy = true
            ∧ payload.data.isSome = true)
      ∧ (∀ payload, (resolveId sessionId self.currentSession).isSome = true → r.ok = true →
          r.json = .ok payload → payload.success.truthy = true → payload.data.isSome = true →
          (self.sendCommand text sessionId (.response r)).result = .ok payload)) :=
  ⟨fun r => sendMessage_response self text sessionId r,
    fun r => sendCommand_response self text sessionId r⟩

/-- Witness for C13: a 500 response makes `sendMessage` raise on the bound manager. -/
theorem exchange_outcome_by_response_witness :
    ∃ e, (boundManager.sendMessage "100" none
        (.response { ok := false, status := 500, statusText := "Internal Server Error"
                     json := .error "Unexpected token" })).result = .error e :=
  ((exchange_outcome_by_response boundManager "100" none).1
    { ok := false, status := 500, statusText := "Internal Server Error"
      json := .error "Unexpected token" }).1 rfl

/-- Claim C14, evaluated on the code: the bound manager holds the current cost center in
`currentSession` and in `sessionState`; after a successful `sendMessage` whose response
carries neither `updatedCenter` nor `nextCenter` (and `finished: false`),
`currentSession.currentCostCenter` is `undefined` and `sessionState.currentCostCenter` is
`null`: the current cost center is lost. -/
theorem sendMessage_plain_reply_drops_center :
    boundManager.currentSession.map (fun s => s.currentCostCenter)
        = some (.val centerThreeZero)
      ∧ boundManager.sessionState.currentCostCenter = some centerThreeZero
      ∧ (boundManager.sendMessage "150" none (okFetch plainReply)).result
          = .ok { success := .bool true, data := some plainReply, error := none }
      ∧ (boundManager.sendMessage "150" none (okFetch plainReply)).state.currentSession.map
          (fun s => s.currentCostCenter) = some .undefined
      ∧ (boundManager.sendMessage "150" none
          (okFetch plainReply)).state.sessionState.currentCostCenter = none := by
  refine ⟨?_, ?_, ?_, ?_, ?_⟩
  · rw [boundManager_currentSession]; rfl
  · rfl
  · exact sendMessage_ok_result boundManager boundSession "sess-1" boundManager_currentSession
      rfl (by decide) "150" plainReply
  · rw [sendMessage_boundManager_state]
    simp [SessionManager.updateSessionState, boundManager_currentSession, SessionData.spread,
      JsField.spread, SessionManager.sessionUpdate, plainReply, JsField.ofOption]
  · rw [sendMessage_boundManager_state]
    simp [SessionManager.updateSessionState, SessionManager.sessionUpdate, plainReply,
      JsField.ofOption, JsField.toOption]

/-- Claim C17: for every state, after `cleanup` the bound session is `null` and
`sessionState` is `{ isActive: false, isComplete: false, currentCostCenter: null,
currentField: null, progress: { totalFields: 0, completedFields: 0, percentage: 0 } }`;
a second `cleanup` leaves that state unchanged. -/
theorem cleanup_resets_and_is_idempotent (self : SessionManager) :
    self.cleanup.currentSession = none
      ∧ self.cleanup.sessionState
          = { isActive := some false, isComplete := false, currentCostCenter := none
              currentField := none
              progress := { totalFields := 0, completedFields := 0, percentage := 0 } }
      ∧ self.cleanup.cleanup = self.cleanup :=
  ⟨rfl, rfl, rfl⟩

/-! ## The bound session id across exchanges -/

/-- `updateSessionState` leaves the bound `sessionId` when the update carries none or
the same one. -/
theorem updateSessionState_sessionId (self : SessionManager) (s : SessionData) (id : String)
    (hs : self.currentSession = some s) (hid : s.sessionId = .val id)
    (update : Option SessionData)
    (hu : ∀ snap, update = some snap → snap.sessionId = .absent ∨ snap.sessionId = .val id) :
    ∃ s2, (self.updateSessionState update).currentSession = some s2
      ∧ s2.sessionId = .val id := by
  cases update with
  | none => exact ⟨s, hs, hid⟩
  | some snap =>
    refine ⟨_, rfl, ?_⟩
    rcases hu snap rfl with h | h
    · simp [hs, SessionData.spread, JsField.spread, h, hid]
    · simp [hs, SessionData.spread, JsField.spread, h]

/-- One exchange leaves the bound `sessionId` when the snapshot it applies carries none
or the same one. -/
theorem step_sessionId (self : SessionManager) (s : SessionData) (id : String)
    (hs : self.currentSession = some s) (hid : s.sessionId = .val id) (op : SessionOp)
    (hop : ∀ snap, op.snapshot = some snap → snap.sessionId = .absent ∨ snap.sessionId = .val id) :
    ∃ s2, (self.step op).currentSession = some s2 ∧ s2.sessionId = .val id := by
  cases op with
  | sendMessage message fetch =>
    simp only [SessionManager.step, SessionManager.sendMessage]
    split
    · exact ⟨s, hs, hid⟩
    · split
      · exact ⟨s, hs, hid⟩
      · split
        · exact updateSessionState_sessionId self s id hs hid _
            (fun snap h => by
              have : snap = SessionManager.sessionUpdate _ := (Option.some.inj h).symm
              subst this
              exact Or.inl rfl)
        · exact ⟨s, hs, hid⟩
  | getSessionState fetch =>
    simp only [SessionManager.step, SessionManager.getSessionState]
    simp only [SessionOp.snapshot] at hop
    split
    · exact ⟨s, hs, hid⟩
    · split
      · exact ⟨s, hs, hid⟩
      · rename_i data hdata
        rw [hdata] at hop
        split
        · rename_i snapshot _ hd
          exact updateSessionState_sessionId self s id hs hid _
            (fun snap h => hop snap (by simp_all))
        · exact ⟨s, hs, hid⟩
  | finalizeCostCenter confirm fetch =>
    simp only [SessionManager.step, SessionManager.finalizeCostCenter]
    simp only [SessionOp.snapshot] at hop
    split
    · exact ⟨s, hs, hid⟩
    · split
      · exact ⟨s, hs, hid⟩
      · rename_i data hdata
        rw [hdata] at hop
        split
        · exact updateSessionState_sessionId self s id hs hid _ (fun snap h => hop snap h)
        · exact ⟨s, hs, hid⟩

/-- A sequence of exchanges leaves the bound `sessionId` when none of its snapshots
carries another one. -/
theorem run_sessionId (ops : List SessionOp) (self : SessionManager) (s : SessionData)
    (id : String) (hs : self.currentSession = some s) (hid : s.sessionId = .val id)
    (hops : ∀ op ∈ ops, ∀ snap, op.snapshot = some snap →
      snap.sessionId = .absent ∨ snap.sessionId = .val id) :
    ∃ s2, (self.run ops).currentSession = some s2 ∧ s2.sessionId = .val id := by
  induction ops generalizing self s with
  | nil => exact ⟨s, hs, hid⟩
  | cons op rest ih =>
    obtain ⟨s1, h1, h2⟩ := step_sessionId self s id hs hid op (hops op (List.mem_cons_self _ _))
    exact ih (self.step op) s1 h1 h2 (fun o ho => hops o (List.mem_cons_of_mem _ ho))

/-! ## Claims on the session id and on the growth of the transcript -/

/-- A success snapshot makes `getSessionState` return it and merge it into the session. -/
theorem getSessionState_ok (sm : SessionManager) (s : SessionData) (id : String)
    (h : sm.currentSession = some s) (hid : s.sessionId = .val id) (hne : id ≠ "")
    (snapshot : SessionData) :
    (sm.getSessionState none (okFetch snapshot)).result = .ok snapshot
      ∧ (sm.getSessionState none (okFetch snapshot)).state
          = sm.updateSessionState (some snapshot) := by
  simp [SessionManager.getSessionState, resolveId_boundSession s sm h id hid hne, exchange,
    okFetch, JsValue.truthy]

/-- Claim C18, counterexample: the manager is bound to `sess-1`; one successful
`getSessionState` whose snapshot carries `sessionId: 'sess-2'` leaves
`currentSession.sessionId = 'sess-2'`. -/
theorem getSessionState_replaces_sessionId_counterexample :
    boundManager.currentSession.map (fun s => s.sessionId) = some (.val "sess-1")
      ∧ boundManager.AllSucceed [SessionOp.getSessionState (okFetch foreignSnapshot)]
      ∧ (boundManager.run
          [SessionOp.getSessionState (okFetch foreignSnapshot)]).currentSession.map
            (fun s => s.sessionId) = some (.val "sess-2")
      ∧ (boundManager.run
          [SessionOp.getSessionState (okFetch foreignSnapshot)]).currentSession.map
            (fun s => s.sessionId) ≠ boundManager.currentSession.map (fun s => s.sessionId) := by
  obtain ⟨h1, h2⟩ := getSessionState_ok boundManager boundSession "sess-1"
    boundManager_currentSession rfl (by decide) foreignSnapshot
  have hrun : (boundManager.run
      [SessionOp.getSessionState (okFetch foreignSnapshot)]).currentSession.map
        (fun s => s.sessionId) = some (.val "sess-2") := by
    simp only [SessionManager.run, List.foldl_cons, List.foldl_nil, SessionManager.step, h2]
    simp [SessionManager.updateSessionState, boundManager_currentSession, SessionData.spread,
      JsField.spread, foreignSnapshot]
  refine ⟨by rw [boundManager_currentSession]; rfl, ⟨⟨foreignSnapshot, h1⟩, trivial⟩, hrun, ?_⟩
  rw [hrun, boundManager_currentSession]
  decide

/-- Claim C18, amended: for every manager bound to a session id and every sequence of
exchanges (`sendMessage`, `getSessionState`, `finalizeCostCenter`; successful or not)
without cleanup, `currentSession.sessionId` after the sequence equals the bound id,
provided no state snapshot and no finalization response carries another `sessionId`
(message replies never touch it). -/
theorem sessionId_kept_by_exchanges (self : SessionManager) (s : SessionData) (id : String)
    (ops : List SessionOp) (hs : self.currentSession = some s) (hid : s.sessionId = .val id)
    (hops : ∀ op ∈ ops, ∀ snap, op.snapshot = some snap →
      snap.sessionId = .absent ∨ snap.sessionId = .val id) :
    ∃ s2, (self.run ops).currentSession = some s2 ∧ s2.sessionId = .val id :=
  run_sessionId ops self s id hs hid hops

/-- Witness for C18: two message exchanges on the bound manager. -/
theorem sessionId_kept_by_exchanges_witness :
    ∃ s2, (boundManager.run
        [SessionOp.sendMessage "100" (okFetch updatedReply),
         SessionOp.sendMessage "ok" (okFetch finishedReply)]).currentSession = some s2
      ∧ s2.sessionId = .val "sess-1" :=
  sessionId_kept_by_exchanges boundManager boundSession "sess-1" _
    boundManager_currentSession rfl (by
      intro op hop snap hsnap
      simp only [List.mem_cons, List.mem_singleton, List.not_mem_nil, or_false] at hop
      rcases hop with rfl | rfl <;> simp [SessionOp.snapshot] at hsnap)

/-- Claim C20: for every chat state and every argument of `addMessage`, the transcript
before the call is a prefix of the transcript after it and the call adds at most one
entry, for `this.messages` and for the history list of every session id (a session
without a list counting as an empty one). -/
theorem addMessage_extends_transcript (self : ChatManager) (messageData : Option MessageData) :
    self.messages <+: (self.addMessage messageData).messages
      ∧ (self.addMessage messageData).messages.length ≤ self.messages.length + 1
      ∧ ∀ key : JsField String,
          (historyGet self.messageHistory key).getD []
              <+: (historyGet (self.addMessage messageData).messageHistory key).getD []
            ∧ ((historyGet (self.addMessage messageData).messageHistory key).getD []).length
                ≤ ((historyGet self.messageHistory key).getD []).length + 1 := by
  have hsame : self.messages <+: self.messages ∧ self.messages.length ≤ self.messages.length + 1
      ∧ ∀ key : JsField String,
          (historyGet self.messageHistory key).getD []
              <+: (historyGet self.messageHistory key).getD []
            ∧ ((historyGet self.messageHistory key).getD []).length
                ≤ ((historyGet self.messageHistory key).getD []).length + 1 :=
    ⟨List.prefix_refl _, Nat.le_succ _, fun _ => ⟨List.prefix_refl _, Nat.le_succ _⟩⟩
  unfold ChatManager.addMessage
  split
  · exact hsame
  · rename_i md
    split
    · split_ifs
      · exact hsame
      · exact hsame
      · refine ⟨List.prefix_append _ _, by simp, fun key => ?_⟩
        simp only
        cases hs : self.currentSession with
        | none => exact ⟨List.prefix_refl _, Nat.le_succ _⟩
        | some session =>
          simp only
          by_cases hk : session.sessionId.read = key
          · subst hk
            rw [historyGet_push_same]
            exact ⟨by simp, by simp⟩
          · rw [historyGet_push_other _ _ _ _ hk]
            exact ⟨List.prefix_refl _, Nat.le_succ _⟩
    · exact hsame

/-! ## Claims on the export -/

/-- The only error `formatMessagesAsText` raises is the `TypeError` of a missing type. -/
theorem formatLines_error (lib : JsLibrary) (messages : List MessageData) (e : String)
    (h : ChatManager.formatLines lib messages = .error e) :
    e = "Cannot read properties of undefined (reading 'toUpperCase')" := by
  induction messages with
  | nil => simp [ChatManager.formatLines] at h
  | cons msg rest ih =>
    unfold ChatManager.formatLines at h
    cases hl : ChatManager.formatLine lib msg with
    | error e1 =>
      rw [hl] at h
      simp only at h
      unfold ChatManager.formatLine at hl
      cases ht : msg.type with
      | none =>
        rw [ht] at hl
        simp only at hl
        cases h; cases hl; rfl
      | some t => rw [ht] at hl; simp at hl
    | ok line =>
      rw [hl] at h
      simp only at h
      cases hr : ChatManager.formatLines lib rest with
      | error e2 =>
        rw [hr] at h
        simp only at h
        cases h
        exact ih hr
      | ok lines => rw [hr] at h; simp at h

/-- Claim C19: `exportChatHistory` raises `Nenhuma sessão ativa` if and only if no
session is bound; when a session is bound, the structured export (every format other
than `txt`; the serialised one for `json`) has `sessionId` equal to the bound id,
`messageCount` equal to the length of that session's retained history, and a
`messages` list of the same length and order with each entry's type and content
preserved. -/
theorem exportChatHistory_structured (self : ChatManager) (lib : JsLibrary) (format : String)
    (now : ℕ) :
    (self.exportChatHistory lib format now = .error "Nenhuma sessão ativa"
        ↔ self.currentSession = none)
      ∧ ∀ session, self.currentSession = some session → format ≠ "txt" →
          ∃ data : ExportData,
            (self.exportChatHistory lib format now = .ok (.json data)
              ∨ self.exportChatHistory lib format now = .ok (.object data))
            ∧ (format = "json" → self.exportChatHistory lib format now = .ok (.json data))
            ∧ data.sessionId = session.sessionId.read
            ∧ data.messageCount
                = ((historyGet self.messageHistory session.sessionId.read).getD []).length
            ∧ data.messages.length
                = ((historyGet self.messageHistory session.sessionId.read).getD []).length
            ∧ data.messages.map (fun m => m.type)
                = ((historyGet self.messageHistory session.sessionId.read).getD []).map
                    (fun m => m.type)
            ∧ data.messages.map (fun m => m.content)
                = ((historyGet self.messageHistory session.sessionId.read).getD []).map
                    (fun m => m.content) := by
  constructor
  · constructor
    · intro h
      cases hs : self.currentSession with
      | none => rfl
      | some session =>
        exfalso
        unfold ChatManager.exportChatHistory at h
        rw [hs] at h
        simp only at h
        by_cases hj : format = "json"
        · simp [hj] at h
        · by_cases ht : format = "txt"
          · subst ht
            rw [if_neg (by decide), if_pos rfl] at h
            unfold ChatManager.formatMessagesAsText at h
            cases hl : ChatManager.formatLines lib
                ((historyGet self.messageHistory session.sessionId.read).getD []) with
            | error e =>
              have he := formatLines_error lib _ e hl
              rw [hl] at h
              simp only at h
              rw [he] at h
              have h2 := Except.error.inj h
              exact absurd h2 (by decide)
            | ok lines => rw [hl] at h; simp at h
          · simp [hj, ht] at h
    · intro h
      simp [ChatManager.exportChatHistory, h]
  · intro session hs htxt
    unfold ChatManager.exportChatHistory
    rw [hs]
    simp only
    by_cases hj : format = "json"
    · refine ⟨_, Or.inl (by rw [if_pos hj]), fun _ => by rw [if_pos hj], rfl, rfl, ?_, ?_, ?_⟩
      · simp
      · simp [Function.comp_def]
      · simp [Function.comp_def]
    · refine ⟨_, Or.inr (by rw [if_neg hj, if_neg htxt]), fun h => absurd h hj, rfl, rfl,
        ?_, ?_, ?_⟩
      · simp
      · simp [Function.comp_def]
      · simp [Function.comp_def]

/-- Witness for C19: the structured export of the bound chat. -/
theorem exportChatHistory_structured_witness :
    ∃ data : ExportData,
      boundChat.exportChatHistory plainLibrary "json" 9 = .ok (.json data)
        ∧ data.sessionId = .val "sess-1" ∧ data.messageCount = 1 := by
  obtain ⟨data, -, hj, hid, hcount, -⟩ :=
    (exportChatHistory_structured boundChat plainLibrary "json" 9).2 boundSession rfl
      (by decide)
  exact ⟨data, hj rfl, hid, hcount⟩

/-! ## Claims on the hard reset and on the precedence of centers -/

/-- The reset notice is always appended: it is a well-formed `system` message. -/
theorem addMessage_resetNotice (self : ChatManager) (now : ℕ) :
    (self.addMessage (some (resetNotice now))).messages = self.messages ++ [resetNotice now]
      ∧ ∀ session, self.currentSession = some session →
          (self.addMessage (some (resetNotice now))).messageHistory
            = historyPush self.messageHistory session.sessionId.read (resetNotice now) := by
  have hd := isDuplicateBot_of_ne_bot self "system"
    "⚠️ Resetando sessão... Recarregue a página para começar uma nova sessão." (by decide)
  constructor
  · cases hs : self.currentSession with
    | none => rw [addMessage_store_unbound self _ "system" _ hs rfl rfl (by decide) hd]
    | some session => rw [addMessage_store self _ "system" _ session hs rfl rfl (by decide) hd]
  · intro session hs
    rw [addMessage_store self _ "system" _ session hs rfl rfl (by decide) hd]

/-- Claim C16, counterexample: on the bound page, after `handleSessionReset` and its
delayed `resetToSetup`, the transcript is not empty (it holds the welcome message and
the reset notice, in `messages` and in the history of `sess-1`), and the session
manager's `sessionState` is not the uninitialized one (`isActive` is still `true`). -/
theorem handleSessionReset_counterexample :
    ∃ w, (ChatManager.handleSessionReset boundWorld 5).resetTimerFired = some w
      ∧ w.chat.messages = [welcomeMessage, resetNotice 5]
      ∧ w.chat.messages ≠ []
      ∧ historyGet w.chat.messageHistory (.val "sess-1") = some [welcomeMessage, resetNotice 5]
      ∧ w.sessionManager.map (fun sm => sm.sessionState.isActive) = some (some true)
      ∧ w.sessionManager.map (fun sm => sm.sessionState) ≠ some SessionState.initial := by
  refine ⟨_, rfl, by rfl, by decide, by rfl, by rfl, ?_⟩
  intro h
  have h2 := congrArg (Option.map fun st => st.isActive) h
  have h3 : (some (some true) : Option (Option Bool)) = some (some false) := h2
  exact absurd h3 (by decide)

/-- Claim C16, amended: for every state of the page, after `handleSessionReset` the
session references of `ChatManager`, `SessionManager` and the app are `null`, and they
stay so after the delayed `app.resetToSetup`, which also empties the app's selection;
the transcript is not cleared: the reset notice is appended to `this.messages` and to
the history list of the session that was bound, after everything they held. -/
theorem handleSessionReset_clears_references (w : World) (now : ℕ) :
    (ChatManager.handleSessionReset w now).chat.currentSession = none
      ∧ (∀ sm, (ChatManager.handleSessionReset w now).sessionManager = some sm →
          sm.currentSession = none)
      ∧ (∀ app0, w.app = some app0 →
          ∃ w2 app, (ChatManager.handleSessionReset w now).resetTimerFired = some w2
            ∧ w2.chat.currentSession = none
            ∧ (∀ sm, w2.sessionManager = some sm → sm.currentSession = none)
            ∧ w2.app = some app ∧ w2.appSession app = none ∧ app.selectedCenters = []
            ∧ w2.chat.messages = w.chat.messages ++ [resetNotice now]
            ∧ ∀ session, w.chat.currentSession = some session →
                historyGet w2.chat.messageHistory session.sessionId.read
                  = some ((historyGet w.chat.messageHistory session.sessionId.read).getD []
                      ++ [resetNotice now])) := by
  obtain ⟨hm, hh⟩ := addMessage_resetNotice w.chat now
  refine ⟨rfl, ?_, ?_⟩
  · intro sm hsm
    simp only [ChatManager.handleSessionReset, Option.map_eq_some'] at hsm
    obtain ⟨sm0, -, rfl⟩ := hsm
    rfl
  · intro app0 happ
    refine ⟨{ ChatManager.handleSessionReset w now with
                app := some (App.resetToSetup { app0 with currentSession := .own none }) },
      App.resetToSetup { app0 with currentSession := .own none }, ?_, rfl, ?_, rfl, rfl, rfl,
      hm, ?_⟩
    · simp [World.resetTimerFired, ChatManager.handleSessionReset, happ]
    · intro sm hsm
      simp only [ChatManager.handleSessionReset, Option.map_eq_some'] at hsm
      obtain ⟨sm0, -, rfl⟩ := hsm
      rfl
    · intro session hs
      show historyGet (w.chat.addMessage (some (resetNotice now))).messageHistory _ = _
      rw [hh session hs, historyGet_push_same]

/-- Witness for C16: the bound page. -/
theorem handleSessionReset_clears_references_witness :
    ∃ w2 app, (ChatManager.handleSessionReset boundWorld 5).resetTimerFired = some w2
      ∧ w2.chat.currentSession = none
      ∧ w2.app = some app ∧ w2.appSession app = none := by
  obtain ⟨w2, app, h1, h2, -, h4, h5, -⟩ :=
    (handleSessionReset_clears_references boundWorld 5).2.2 _ rfl
  exact ⟨w2, app, h1, h2, h4, h5⟩

/-- Claim C15, evaluated on the code: a successful round trip whose response carries both
`updatedCenter` and `nextCenter` leaves `nextCenter` in `app.currentSession` but
`updatedCenter` in the session manager's `currentSession` and `sessionState`: the two
holders apply opposite precedences. -/
theorem handleSendMessage_both_centers_diverge :
    (ChatManager.handleSendMessage boundWorld "100" 1 2 (okFetch bothReply)).1.app.map
        (fun app => ((ChatManager.handleSendMessage boundWorld "100" 1 2
          (okFetch bothReply)).1.appSession app).map fun s => s.currentCostCenter)
        = some (some (.val centerNext))
      ∧ (ChatManager.handleSendMessage boundWorld "100" 1 2
          (okFetch bothReply)).1.sessionManager.map
            (fun sm => sm.currentSession.map fun s => s.currentCostCenter)
        = some (some (.val centerOneFilled))
      ∧ (ChatManager.handleSendMessage boundWorld "100" 1 2
          (okFetch bothReply)).1.sessionManager.map
            (fun sm => sm.sessionState.currentCostCenter)
        = some (some centerOneFilled)
      ∧ centerNext ≠ centerOneFilled := by
  refine ⟨by rfl, by rfl, by rfl, ?_⟩
  intro h
  have := congrArg CostCenter.id h
  simp [centerNext, centerOneFilled, routineCenter] at this

/-! ## Claims on the consistency monitor -/

/-- The recovery suggestion is always appended: it is a well-formed `system` message. -/
theorem addMessage_recoveryMessage (self : ChatManager) (now : ℕ) :
    (self.addMessage (some (recoveryMessage now))).messages
      = self.messages ++ [recoveryMessage now] := by
  have hd := isDuplicateBot_of_ne_bot self "system"
    ("⚠️ Detectada inconsistência no fluxo. Tente usar o comando "
      ++ "\"mostrar resumo\" ou recarregue a página se o problema persistir.") (by decide)
  cases hs : self.currentSession with
  | none => rw [addMessage_store_unbound self _ "system" _ hs rfl rfl (by decide) hd]
  | some session => rw [addMessage_store self _ "system" _ session hs rfl rfl (by decide) hd]

/-- The second check of the code, spelled out. -/
theorem confirmationLoopCheck_iff (userMessage : String) (responseData : MessageReply) :
    confirmationLoopCheck userMessage responseData = true ↔
      (jsIncludes userMessage "confirmo" = true ∨ jsIncludes userMessage "próximo" = true)
        ∧ ∃ b, responseData.botMessage = some b ∧ jsIncludes b "valor numérico" = true := by
  unfold confirmationLoopCheck
  cases h : responseData.botMessage with
  | none => simp
  | some b => simp

/-- The state `validateResponseConsistency` leaves, by the outcome of the second check. -/
theorem validateResponseConsistency_state (self : ChatManager) (userMessage : String)
    (responseData : MessageReply) (now : ℕ) :
    (self.validateResponseConsistency userMessage responseData now).1
      = if confirmationLoopCheck userMessage responseData then
          self.addMessage (some (recoveryMessage now))
        else self := rfl

/-- Claim C22: the consistency monitor is advisory.  For every chat state, user
utterance, exchange result (whose `botMessage` is a text or absent) and clock,
`validateResponseConsistency` returns (the model has no raising path), leaves the bound
session and the typing flag as they were and only ever extends the transcript; it has no
access to write the exchange result, which the caller goes on to use unchanged: the
caller `applyReply` raises nothing on its account and appends the bot message built from
the same `responseData.botMessage`. -/
theorem validateResponseConsistency_advisory (self : ChatManager) (userMessage : String)
    (responseData : MessageReply) (now : ℕ) :
    (self.validateResponseConsistency userMessage responseData now).1.currentSession
        = self.currentSession
      ∧ (self.validateResponseConsistency userMessage responseData now).1.isTyping
        = self.isTyping
      ∧ (∃ extra, (self.validateResponseConsistency userMessage responseData now).1.messages
          = self.messages ++ extra)
      ∧ (∀ reply : ApiPayload MessageReply,
          (ChatManager.applyReply { chat := self, sessionManager := none, app := none }
              userMessage reply responseData now).2 = none)
      ∧ (ChatManager.applyReply { chat := self, sessionManager := none, app := none }
            userMessage ⟨.bool true, some responseData, none⟩ responseData now).1.chat
          = ((({ self with isTyping := false }).validateResponseConsistency userMessage
                responseData now).1.addMessage
              (some { type := some "bot", content := responseData.botMessage
                      timestamp := now })).handleSpecialResponse
              ⟨.bool true, some responseData, none⟩ now := by
  rw [validateResponseConsistency_state]
  refine ⟨?_, ?_, ?_, ?_, ?_⟩
  · split_ifs
    · exact addMessage_currentSession _ _
    · rfl
  · split_ifs
    · unfold ChatManager.addMessage
      split
      · rfl
      · split
        · split_ifs <;> rfl
        · rfl
    · rfl
  · split_ifs
    · exact ⟨_, addMessage_recoveryMessage self now⟩
    · exact ⟨[], by simp⟩
  · intro reply
    rfl
  · rfl

/-- Claim C23: `validateResponseConsistency` appends the recovery system message to the
transcript if and only if the user utterance contains `confirmo` or `próximo` and the
bot message is present and contains `valor numérico`; in every other case (so also when
only the numeric stuck-loop check or the misattribution check fires) it leaves the whole
chat state unchanged. -/
theorem validateResponseConsistency_recovery_iff (self : ChatManager) (userMessage : String)
    (responseData : MessageReply) (now : ℕ) :
    ((self.validateResponseConsistency userMessage responseData now).1.messages
        = self.messages ++ [recoveryMessage now] ↔
      (jsIncludes userMessage "confirmo" = true ∨ jsIncludes userMessage "próximo" = true)
        ∧ ∃ b, responseData.botMessage = some b ∧ jsIncludes b "valor numérico" = true)
      ∧ ((self.validateResponseConsistency userMessage responseData now).1 = self ∨
          (jsIncludes userMessage "confirmo" = true ∨ jsIncludes userMessage "próximo" = true)
            ∧ ∃ b, responseData.botMessage = some b
              ∧ jsIncludes b "valor numérico" = true) := by
  rw [validateResponseConsistency_state, ← confirmationLoopCheck_iff]
  cases h : confirmationLoopCheck userMessage responseData with
  | true =>
    simp only [if_true, iff_true, or_true, and_true]
    exact addMessage_recoveryMessage self now
  | false =>
    simp

/-- Claim C28: for every user utterance and every bot message the two contradiction
checks of `validateResponseConsistency` never fire together (an utterance that matches
the numeric pattern contains neither `confirmo` nor `próximo`), so one audit logs at most
one contradiction and at most two findings in total. -/
theorem validateResponseConsistency_findings_bound (self : ChatManager) (userMessage : String)
    (responseData : MessageReply) (now : ℕ) :
    ¬(numericLoopCheck userMessage responseData = true
        ∧ confirmationLoopCheck userMessage responseData = true)
      ∧ (isNumericUtterance userMessage = false
          ∨ (jsIncludes userMessage "confirmo" = false
              ∧ jsIncludes userMessage "próximo" = false))
      ∧ ((self.validateResponseConsistency userMessage responseData now).2.filter
          Finding.isContradiction).length ≤ 1
      ∧ (self.validateResponseConsistency userMessage responseData now).2.length ≤ 2 := by
  have hex : ¬(numericLoopCheck userMessage responseData = true
        ∧ confirmationLoopCheck userMessage responseData = true) := by
    rintro ⟨h1, h2⟩
    have hnum : isNumericUtterance userMessage = true := by
      unfold numericLoopCheck at h1
      simp only [Bool.and_eq_true] at h1
      exact h1.1
    obtain ⟨hc1, hc2⟩ := numeric_not_confirmation userMessage hnum
    simp [confirmationLoopCheck, hc1, hc2] at h2
  refine ⟨hex, ?_, ?_, ?_⟩
  · cases hn : isNumericUtterance userMessage with
    | false => exact Or.inl rfl
    | true => exact Or.inr (numeric_not_confirmation userMessage hn)
  · unfold ChatManager.validateResponseConsistency
    cases h1 : numericLoopCheck userMessage responseData <;>
      cases h2 : confirmationLoopCheck userMessage responseData
    · simp only [Bool.false_eq_true, if_false, List.nil_append]
      split_ifs <;> simp [Finding.isContradiction]
    · simp only [Bool.false_eq_true, if_false, if_true, List.nil_append]
      split_ifs <;> simp [Finding.isContradiction]
    · simp only [Bool.false_eq_true, if_false, if_true, List.append_nil]
      split_ifs <;> simp [Finding.isContradiction]
    · exact absurd ⟨h1, h2⟩ hex
  · unfold ChatManager.validateResponseConsistency
    cases h1 : numericLoopCheck userMessage responseData <;>
      cases h2 : confirmationLoopCheck userMessage responseData
    · simp only [Bool.false_eq_true, if_false, List.nil_append]
      split_ifs <;> simp
    · simp only [Bool.false_eq_true, if_false, if_true, List.nil_append]
      split_ifs <;> simp
    · simp only [Bool.false_eq_true, if_false, if_true, List.append_nil]
      split_ifs <;> simp
    · exact absurd ⟨h1, h2⟩ hex

/-! ## Claims on the periodic synchronisation -/

/-- A tick on a complete session does nothing. -/
theorem syncTick_complete (self : SessionManager)
    (fetch : FetchResult (ApiPayload SessionData))
    (h : self.sessionState.isComplete = true) :
    (self.syncTick fetch).state = self ∧ (self.syncTick fetch).calls = [] := by
  simp [SessionManager.syncTick, h]

/-- Ticks on a complete session do nothing. -/
theorem runTicks_complete (self : SessionManager)
    (fetches : List (FetchResult (ApiPayload SessionData)))
    (h : self.sessionState.isComplete = true) : self.runTicks fetches = self := by
  induction fetches with
  | nil => rfl
  | cons fetch rest ih =>
    simp only [SessionManager.runTicks, List.foldl_cons] at ih ⊢
    rw [(syncTick_complete self fetch h).1]
    exact ih

/-- Claim C24: a tick of the periodic sync task issues a network call (the one of
`getSessionState`) only when a session is bound, `sessionState.isActive` is true and
`sessionState.isComplete` is false, and otherwise it leaves the manager as it is; once a
successful exchange result with `finished: true` (with or without `nextCenter`) has been
applied to a manager that holds a session id, `sessionState.isComplete` is true and any
sequence of later ticks, whatever the server would answer, leaves the whole manager
(`currentSession` and `sessionState`) unchanged. -/
theorem syncTick_polls_only_while_active (self : SessionManager)
    (fetch : FetchResult (ApiPayload SessionData))
    (fetches : List (FetchResult (ApiPayload SessionData)))
    (session : SessionData) (id message : String) (reply : MessageReply)
    (hs : self.currentSession = some session) (hid : session.sessionId = .val id)
    (hne : id ≠ "") (hfin : reply.finished = some true) :
    ((self.syncTick fetch).calls ≠ [] →
        self.currentSession.isSome = true ∧ self.sessionState.isActive = some true
          ∧ self.sessionState.isComplete = false)
      ∧ (¬(self.currentSession.isSome = true ∧ self.sessionState.isActive = some true
            ∧ self.sessionState.isComplete = false) →
          (self.syncTick fetch).state = self ∧ (self.syncTick fetch).calls = [])
      ∧ (self.sendMessage message none (okFetch reply)).state.sessionState.isComplete = true
      ∧ ((self.sendMessage message none (okFetch reply)).state.runTicks fetches
          = (self.sendMessage message none (okFetch reply)).state) := by
  have hdone : (self.sendMessage message none (okFetch reply)).state.sessionState.isComplete
      = true := by
    rw [sendMessage_ok self session id hs hid hne]
    simp [SessionManager.updateSessionState, SessionManager.sessionUpdate, hfin, JsField.truthy]
  refine ⟨?_, ?_, hdone, runTicks_complete _ fetches hdone⟩
  · intro hc
    by_contra hn
    apply hc
    unfold SessionManager.syncTick
    rw [if_neg]
    intro hcond
    apply hn
    simpa [and_assoc] using hcond
  · intro hn
    unfold SessionManager.syncTick
    rw [if_neg]
    · exact ⟨rfl, rfl⟩
    · intro hcond
      apply hn
      simpa [and_assoc] using hcond

/-- Witness for C24: the bound manager after `finishedReply`, followed by three ticks. -/
theorem syncTick_polls_only_while_active_witness :
    (boundManager.sendMessage "150" none (okFetch finishedReply)).state.sessionState.isComplete
        = true
      ∧ (boundManager.sendMessage "150" none (okFetch finishedReply)).state.runTicks
          [okFetch boundSession, serverErrorFetch, okFetch foreignSnapshot]
        = (boundManager.sendMessage "150" none (okFetch finishedReply)).state :=
  (syncTick_polls_only_while_active boundManager (okFetch boundSession)
    [okFetch boundSession, serverErrorFetch, okFetch foreignSnapshot] boundSession "sess-1"
    "150" finishedReply boundManager_currentSession rfl (by decide) rfl).2.2

/-! ## Claims on the session start -/

/-- `initialize(session)` binds the session it is given. -/
theorem initialize_currentSession (self : ChatManager) (session : Option SessionData)
    (now : ℕ) : ( ChatManager.initialize self session now).currentSession = session := by
  unfold ChatManager.initialize ChatManager.showWelcomeMessage
  have hl : ∀ c : ChatManager, c.loadSessionMessages.currentSession = c.currentSession := by
    intro c
    unfold ChatManager.loadSessionMessages
    split
    · rfl
    · split
      · split_ifs <;> rfl
      · rfl
  split
  · exact hl _
  · rw [addMessage_currentSession, hl]

/-- Claim C26: with an empty selection `startSession` is rejected, issues no network
call and leaves the page (so `currentSession`) unchanged; with a non-empty selection the
one request it sends carries exactly the known cost centers whose id is selected, and on
a successful start the session bound to the chat and shared with the app stores that
same list.  The list is the known centers filtered by the selection: a sublist of
`costCenters` in the original order whose members are the known centers with a selected
id. -/
theorem startSession_selection (w : World) (app : App) (userId createdAt : String) (now : ℕ)
    (fetch : FetchResult CreatePayload) (hw : w.app = some app) :
    (app.selectedCenters = [] →
        (w.startSession userId createdAt now fetch).result = .rejected
          ∧ (w.startSession userId createdAt now fetch).calls = []
          ∧ (w.startSession userId createdAt now fetch).world = w)
      ∧ (app.selectedCenters ≠ [] →
        (w.startSession userId createdAt now fetch).calls
            = [Request.createSession
                (app.costCenters.filter fun c => c.id ∈ app.selectedCenters)
                app.selectedCenters (if userId = "" then none else some userId)]
          ∧ ((w.startSession userId createdAt now fetch).result = .started →
              ∃ session,
                (w.startSession userId createdAt now fetch).world.chat.currentSession
                    = some session
                  ∧ (w.startSession userId createdAt now fetch).world.app
                    = some { app with currentSession := .sameAsChat }
                  ∧ session.costCenters
                    = .val (app.costCenters.filter fun c => c.id ∈ app.selectedCenters)))
      ∧ (app.costCenters.filter fun c => c.id ∈ app.selectedCenters).Sublist app.costCenters
      ∧ ∀ c, c ∈ (app.costCenters.filter fun c => c.id ∈ app.selectedCenters)
          ↔ c ∈ app.costCenters ∧ c.id ∈ app.selectedCenters := by
  refine ⟨?_, ?_, List.filter_sublist _, ?_⟩
  · intro he
    simp [World.startSession, hw, he]
  · intro hne
    have hlen : ¬ app.selectedCenters.length = 0 := by
      simpa [List.length_eq_zero] using hne
    unfold World.startSession
    simp only [hw, hlen, if_false]
    split
    · exact ⟨rfl, fun h => by cases h⟩
    · split
      · split
        · exact ⟨rfl, fun h => by cases h⟩
        · refine ⟨rfl, fun _ => ⟨_, initialize_currentSession _ _ _, rfl, rfl⟩⟩
      · exact ⟨rfl, fun h => by cases h⟩
  · intro c
    simp [List.mem_filter]

/-- Witness for C26: the fresh page with center `1` selected, and a page with an empty
selection. -/
theorem startSession_selection_witness :
    (freshWorld.startSession "" "2025-01-01T00:00:00.000Z" 0 createdFetch).calls
        = [Request.createSession [centerThreeZero] [1] none]
      ∧ (World.startSession ⟨ChatManager.new, none, some ⟨.own none, [centerThreeZero], []⟩⟩
            "" "2025-01-01T00:00:00.000Z" 0 createdFetch).calls = [] :=
  ⟨((startSession_selection freshWorld _ "" "2025-01-01T00:00:00.000Z" 0 createdFetch rfl).2.1
      (by decide)).1,
    ((startSession_selection _ _ "" "2025-01-01T00:00:00.000Z" 0 createdFetch rfl).1 rfl).2.1⟩

/-- Claim C25, evaluated on the code: for the creation response of the documented shape
`{ success: true, data: { sessionId, currentCenter, botMessage } }`,
`SessionManager.createSession` reads `data.session`, which is missing, so it returns
`undefined` and leaves `currentSession` without a session, while
`CostCenterApp.startSession` starts on the same response and binds a session that holds
the returned `sessionId` and `currentCenter` in the chat and in the session manager. -/
theorem createSession_documented_shape_diverges :
    (SessionManager.new.createSession [centerThreeZero] [1] none
        (createdFetch.mapBody CreatePayload.toSessionPayload)).result = .ok none
      ∧ (SessionManager.new.createSession [centerThreeZero] [1] none
          (createdFetch.mapBody CreatePayload.toSessionPayload)).state.currentSession = none
      ∧ (freshWorld.startSession "" "2025-01-01T00:00:00.000Z" 0 createdFetch).result
          = .started
      ∧ (freshWorld.startSession "" "2025-01-01T00:00:00.000Z" 0
          createdFetch).world.chat.currentSession.map (fun s => (s.sessionId, s.currentCostCenter))
          = some (.val "sess-1", .val centerThreeZero)
      ∧ (freshWorld.startSession "" "2025-01-01T00:00:00.000Z" 0
          createdFetch).world.sessionManager.map
            (fun sm => sm.currentSession.map fun s => (s.sessionId, s.currentCostCenter))
          = some (some (.val "sess-1", .val centerThreeZero)) := by
  refine ⟨by rfl, by rfl, by rfl, by rfl, by rfl⟩

/-- Claim C29, evaluated on the code: after a successful first `startSession` whose
response carries the bot message `Qual o gasto com Marketing?`, the transcript
`messages` holds the welcome message once (the one `initializeChat` added while no
session was bound), the `messageHistory` is empty (the welcome of
`ChatManager.initialize` was dropped as a duplicate), and `exportChatHistory` reports
`messageCount` `0` with no messages. -/
theorem startSession_welcome_not_retained :
    (freshWorld.startSession "" "2025-01-01T00:00:00.000Z" 7 createdFetch).result = .started
      ∧ (freshWorld.startSession "" "2025-01-01T00:00:00.000Z" 7 createdFetch).world.chat.messages
          = [{ type := some "bot", content := some "Qual o gasto com Marketing?"
               timestamp := 7 }]
      ∧ historyGet (freshWorld.startSession "" "2025-01-01T00:00:00.000Z" 7
          createdFetch).world.chat.messageHistory (.val "sess-1") = none
      ∧ (freshWorld.startSession "" "2025-01-01T00:00:00.000Z" 7
          createdFetch).world.chat.messageHistory = []
      ∧ (freshWorld.startSession "" "2025-01-01T00:00:00.000Z" 7
          createdFetch).world.chat.exportChatHistory plainLibrary "object" 9
          = .ok (.object { sessionId := .val "sess-1", exportedAt := "9", messageCount := 0
                           messages := [] }) := by
  refine ⟨by rfl, by rfl, by rfl, by rfl, by rfl⟩

/-! ## Claims on the progress shown by the app -/

/-- With `completedFields` at `0` the rounded percentage is `0`. -/
theorem mathRound_zero_of (t : ℕ) :
    mathRound (min 100 (jsMul (jsDiv ((0 : ℕ) : ℚ) t) 100)) = 0 := by
  simp [jsDiv, jsMul, toDouble_zero, mathRound_zero]

/-- Whenever `updateProgress` counts at least one field it shows `0`. -/
theorem updateProgress_percent_zero (app : App) (session : SessionData) (totalFields : ℕ)
    (hcount : App.countSelected app.costCenters app.selectedCenters 0 = .ok totalFields)
    (hpos : 0 < totalFields) : App.updateProgress app (some session) = .ok (.percent 0) := by
  unfold App.updateProgress
  simp only [hcount]
  rw [if_neg (by omega)]
  have := mathRound_zero_of totalFields
  simp only [Nat.cast_zero] at this ⊢
  rw [this]

/-- More than one filled item in 200 gives a positive percentage. -/
theorem progressOf_percentage_pos (t c : ℕ) (hc : c ≤ t) (hb : t ≤ 2 ^ 44)
    (hlt : t < 200 * c) : 0 < (SessionManager.progressOf t c).percentage := by
  have htpos : 0 < t := by omega
  have hnear := progressOf_percentage_near t c htpos hc hb
  have ha := neg_abs_le ((t : ℤ) * (SessionManager.progressOf t c).percentage - 100 * (c : ℤ))
  by_contra hn
  push_neg at hn
  have hmul : (t : ℤ) * (SessionManager.progressOf t c).percentage ≤ 0 :=
    mul_nonpos_of_nonneg_of_nonpos (by positivity) hn
  have hlt2 : (t : ℤ) < 200 * (c : ℤ) := by exact_mod_cast hlt
  linarith

/-- Fewer than one filled item in 200 gives the percentage `0`. -/
theorem progressOf_percentage_zero (t c : ℕ) (hc : c ≤ t) (hb : t ≤ 2 ^ 44)
    (hlt : 200 * c < t) : (SessionManager.progressOf t c).percentage = 0 := by
  have htpos : 0 < t := by omega
  have hnear := progressOf_percentage_near t c htpos hc hb
  obtain ⟨hp0, -⟩ := progressOf_percentage_bounds t c hc
  have ha := le_abs_self ((t : ℤ) * (SessionManager.progressOf t c).percentage - 100 * (c : ℤ))
  by_contra hn
  have h1 : 1 ≤ (SessionManager.progressOf t c).percentage := by omega
  have hmul : (t : ℤ) * 1 ≤ (t : ℤ) * (SessionManager.progressOf t c).percentage :=
    mul_le_mul_of_nonneg_left h1 (by positivity)
  have hlt2 : 200 * (c : ℤ) < (t : ℤ) := by exact_mod_cast hlt
  linarith

/-- The counters of a sparse center. -/
theorem spec_sparseOf (n : ℕ) : specTotalFields [centerSparseOf n] = n + 1
    ∧ specCompletedFields [centerSparseOf n] = 1 := by
  simp [specTotalFields, specCompletedFields, specFieldCount, specFilledCount, centerSparseOf,
    routineCenter, amountPositive, List.filter_append, List.filter_replicate, Nat.add_comm]

/-- The counters of the sparse center. -/
theorem spec_sparse : specTotalFields [centerSparse] = 201
    ∧ specCompletedFields [centerSparse] = 1 := spec_sparseOf 200

/-- The fields `updateProgress` counts for a selected sparse center. -/
theorem countSelected_sparseOf (n : ℕ) :
    App.countSelected [centerSparseOf n] [1] 0 = .ok (n + 1) := by
  simp [App.countSelected, centerSparseOf, routineCenter, Nat.add_comm]

/-- A positive filled count somewhere is a positive sum. -/
theorem specCompletedFields_pos (centers : List CostCenter) :
    0 < specCompletedFields centers ↔ ∃ c ∈ centers, 0 < specFilledCount c := by
  induction centers with
  | nil => simp [specCompletedFields]
  | cons c cs ih =>
    simp only [specCompletedFields, List.map_cons, List.sum_cons, List.mem_cons,
      exists_eq_or_imp] at ih ⊢
    rw [← ih]
    omega

/-- Claim C30, counterexample: an app whose only known and selected center has 201
routine items, one of them with amount `100`.  `updateProgress` shows `0`, and
`calculateProgress` on the same center counts one completed field but also reports the
percentage `0`: the two percentages do not differ although one amount is greater than
zero. -/
theorem updateProgress_sparse_counterexample :
    App.updateProgress sparseApp (some (sessionWithCenters [centerSparse]))
        = .ok (.percent 0)
      ∧ (SessionManager.calculateProgress
          (some (sessionWithCenters [centerSparse]))).completedFields = 1
      ∧ (SessionManager.calculateProgress
          (some (sessionWithCenters [centerSparse]))).percentage = 0
      ∧ ∃ e ∈ centerSparse.costCenterRoutineExpenses.getD [], e.amount = some 100 := by
  refine ⟨updateProgress_percent_zero sparseApp _ 201 (countSelected_sparseOf 200)
    (by decide), ?_, ?_, ?_⟩
  · rw [calculateProgress_centers _ [centerSparse] rfl, spec_sparse.2]
    rfl
  · rw [calculateProgress_centers _ [centerSparse] rfl, spec_sparse.1, spec_sparse.2]
    exact progressOf_percentage_zero 201 1 (by decide) (by norm_num) (by decide)
  · refine ⟨⟨"Aluguel", some 100⟩, ?_, rfl⟩
    show _ ∈ List.replicate 1 _ ++ List.replicate 200 _
    exact List.mem_append_left _ (List.mem_cons_self _ _)

/-- Claim C30, amended: whenever the counting loop of `updateProgress` ends with at least
one field, the percentage it shows for a bound session is `0`, whatever amounts the
session holds.  `calculateProgress` on the session's centers has a positive
`completedFields` exactly when some item holds an amount greater than zero; for up to
`2^44` fields its percentage is positive, and so differs from the one shown, when more
than one item in 200 is filled, and it is `0` as well when fewer than one item in 200 is
filled. -/
theorem updateProgress_always_zero (app : App) (session : SessionData) (totalFields : ℕ)
    (centers : List CostCenter)
    (hcount : App.countSelected app.costCenters app.selectedCenters 0 = .ok totalFields)
    (hpos : 0 < totalFields) (hc : session.costCenters = .val centers)
    (hb : specTotalFields centers ≤ 2 ^ 44) :
    App.updateProgress app (some session) = .ok (.percent 0)
      ∧ (0 < (SessionManager.calculateProgress (some session)).completedFields
          ↔ ∃ c ∈ centers, 0 < specFilledCount c)
      ∧ (specTotalFields centers < 200 * specCompletedFields centers →
          0 < (SessionManager.calculateProgress (some session)).percentage
            ∧ App.updateProgress app (some session)
              ≠ .ok (.percent (SessionManager.calculateProgress (some session)).percentage))
      ∧ (200 * specCompletedFields centers < specTotalFields centers →
          App.updateProgress app (some session)
            = .ok (.percent (SessionManager.calculateProgress (some session)).percentage)) := by
  have hup := updateProgress_percent_zero app session totalFields hcount hpos
  rw [calculateProgress_centers session centers hc]
  have hle := specCompletedFields_le centers
  refine ⟨hup, specCompletedFields_pos centers, ?_, ?_⟩
  · intro hlt
    have hp := progressOf_percentage_pos _ _ hle hb hlt
    refine ⟨hp, ?_⟩
    rw [hup]
    intro heq
    injection heq with heq
    injection heq with heq
    omega
  · intro hlt
    rw [hup, progressOf_percentage_zero _ _ hle hb hlt]

/-- Witness for C30: the scenario center with one of three amounts set. -/
theorem updateProgress_always_zero_witness :
    App.updateProgress ⟨.sameAsChat, [centerOneFilled], [1]⟩
        (some (sessionWithCenters [centerOneFilled])) = .ok (.percent 0)
      ∧ 0 < (SessionManager.calculateProgress
          (some (sessionWithCenters [centerOneFilled]))).percentage := by
  have w := updateProgress_always_zero ⟨.sameAsChat, [centerOneFilled], [1]⟩
    (sessionWithCenters [centerOneFilled]) 3 [centerOneFilled] (by rfl) (by decide) rfl
    (by rw [spec_oneFilled.1]; norm_num)
  exact ⟨w.1, (w.2.2.1 (by rw [spec_oneFilled.1, spec_oneFilled.2]; decide)).1⟩

/-! ## Claims on repeated messages and on overlapping calls -/

/-- `addMessage` never puts a `bot` message right after an identical one in `messages`. -/
theorem addMessage_noRepeatedBot (self : ChatManager) (m : Option MessageData)
    (h : NoRepeatedBot self.messages) : NoRepeatedBot (self.addMessage m).messages := by
  unfold ChatManager.addMessage
  split
  · exact h
  · next md =>
    split
    · next type content ht hc =>
      split_ifs with he hd
      · exact h
      · exact h
      · show NoRepeatedBot (self.messages ++ [md])
        unfold NoRepeatedBot at h ⊢
        rw [List.chain'_append]
        refine ⟨h, List.chain'_singleton _, ?_⟩
        intro x hx y hy
        simp only [List.head?_cons, Option.mem_def, Option.some.injEq] at hx hy
        subst hy
        rintro ⟨hxt, hyt, hxc⟩
        apply hd
        rw [isDuplicateBot_iff]
        rw [ht] at hyt
        rw [hc] at hxc
        exact ⟨Option.some.inj hyt, x, hx, hxt, hxc⟩
    · exact h

/-- `initialize(session)` keeps `messages` free of repeated `bot` messages. -/
theorem initialize_noRepeatedBot (self : ChatManager) (session : Option SessionData) (now : ℕ)
    (h : NoRepeatedBot self.messages) :
    NoRepeatedBot ( ChatManager.initialize self session now).messages := by
  have hl : NoRepeatedBot
      ({ self with currentSession := session }).loadSessionMessages.messages := by
    unfold ChatManager.loadSessionMessages
    split
    · exact h
    · split
      · split_ifs
        · exact List.chain'_nil
        · exact h
      · exact h
  unfold ChatManager.initialize ChatManager.showWelcomeMessage
  split
  · exact hl
  · exact addMessage_noRepeatedBot _ _ hl

/-- In every state reached through `initialize` and `addMessage`, the list `messages` holds
no `bot` message right after an identical one. -/
theorem run_noRepeatedBot (ops : List ChatOp) (self : ChatManager)
    (h : NoRepeatedBot self.messages) : NoRepeatedBot (self.run ops).messages := by
  induction ops generalizing self with
  | nil => exact h
  | cons op rest ih =>
    simp only [ChatManager.run, List.foldl_cons] at ih ⊢
    apply ih
    cases op with
    | bind session now => exact initialize_noRepeatedBot self session now h
    | add messageData => exact addMessage_noRepeatedBot self messageData h

/-- Claim C21, evaluated on the code: binding the session `sess-1` to a new chat and
binding it again leaves two consecutive `bot` messages with the same content (the
welcome message, twice) in the history kept for `sess-1`.  The second `initialize` finds
stored history, clears `messages` without refilling it, and so the duplicate test of
`addMessage`, which looks at the last entry of `messages`, lets the welcome through. -/
theorem initialize_rebinding_repeats_welcome :
    historyGet (ChatManager.run ChatManager.new
        [.bind (some boundSession) 0, .bind (some boundSession) 1]).messageHistory
        (.val "sess-1")
      = some [{ type := some "bot", content := some "Qual o gasto com Marketing?"
                timestamp := 0 },
              { type := some "bot", content := some "Qual o gasto com Marketing?"
                timestamp := 1 }]
    ∧ (ChatManager.run ChatManager.new
        [.bind (some boundSession) 0, .bind (some boundSession) 1]).messages
      = [{ type := some "bot", content := some "Qual o gasto com Marketing?"
           timestamp := 1 }]
    ∧ ¬ NoRepeatedBot ((historyGet (ChatManager.run ChatManager.new
        [.bind (some boundSession) 0, .bind (some boundSession) 1]).messageHistory
        (.val "sess-1")).getD []) := by
  refine ⟨by rfl, by rfl, ?_⟩
  have h : (historyGet (ChatManager.run ChatManager.new
        [.bind (some boundSession) 0, .bind (some boundSession) 1]).messageHistory
        (.val "sess-1")).getD []
      = [{ type := some "bot", content := some "Qual o gasto com Marketing?"
           timestamp := 0 },
         { type := some "bot", content := some "Qual o gasto com Marketing?"
           timestamp := 1 }] := by rfl
  rw [h]
  simp [NoRepeatedBot]

/-- The network calls of `handleSendMessage` are the one its synchronous part starts. -/
theorem handleSendMessage_calls (w : World) (message : String) (now later : ℕ)
    (fetch : FetchResult (ApiPayload MessageReply)) :
    (ChatManager.handleSendMessage w message now later fetch).2
      = (ChatManager.handleSendMessageBegin w message now).call.toList := by
  unfold ChatManager.handleSendMessage ChatManager.handleSendMessageBegin
  split
  · rfl
  · split_ifs
    · rfl
    · split
      · rfl
      · next sm0 hsm =>
        simp only
        generalize ChatManager.syncManager _ sm0 = sm1
        have hcalls : (sm1.sendMessage message none fetch).calls
            = (resolveId none sm1.currentSession).toList.map
                fun id => Request.message id message := by
          unfold SessionManager.sendMessage
          cases resolveId none sm1.currentSession with
          | none => rfl
          | some id =>
            simp only
            split
            · rfl
            · split <;> rfl
        cases hr : resolveId none sm1.currentSession with
        | none =>
          rw [hr] at hcalls
          split
          · simp [hcalls]
          · split
            · simp [hcalls]
            · split <;> simp [hcalls]
        | some id =>
          rw [hr] at hcalls
          split
          · simp [hcalls]
          · split
            · simp [hcalls]
            · split <;> simp [hcalls]

/-- Claim C27, evaluated on the code: on the bound page, `handleSendMessage` for the text
`150` starts the call `POST message` and suspends with the typing indicator on.  From
that state, before the call settles, the command button `mostrar resumo` starts a
`POST command` call, and the quick reply `confirmar` starts a second `POST message`
call: neither handler is rejected or queued. -/
theorem second_call_starts_while_first_outstanding :
    (ChatManager.handleSendMessageBegin boundWorld "150" 1).call
        = some (Request.message "sess-1" "150")
      ∧ (ChatManager.handleCommandBegin
          (ChatManager.handleSendMessageBegin boundWorld "150" 1).world "mostrar resumo"
          asciiLower 2).call = some (Request.command "sess-1" "mostrar resumo")
      ∧ (ChatManager.sendQuickReplyBegin
          (ChatManager.handleSendMessageBegin boundWorld "150" 1).world "confirmar" 2).call
        = some (Request.message "sess-1" "sim, confirmo e vamos para o próximo item")
      ∧ (ChatManager.handleSendMessageBegin boundWorld "150" 1).world.chat.isTyping = true := by
  refine ⟨by rfl, by rfl, by rfl, by rfl⟩

end Costcenter
